import Mathlib

/-!
# PathFinderManager (server/zone/managers/collision/PathFinderManager.cpp)

A shallow embedding of the path finding coordinator.

* `Flt` stands for the C++ `float`: finite values are exact rationals (no rounding, no
  overflow), together with NaN and the two infinities, whose arithmetic and comparisons
  follow IEEE-754 (every comparison with NaN is false).
* Pointers to scene objects, templates, floor meshes, nodes and polygons are identifiers;
  a pointer that may be `NULL` is an `Option`.
* Everything the file consults but does not define (zone, building and template objects,
  `CollisionManager`, the A* search, the funnel, the Detour navmesh query) is a field of
  `Env` or `Zone`: the functions below are stated for every behaviour of those collaborators.
* A call runs in `M`: it records, in order, each query made to a collaborator and either
  returns a value or faults (a `NULL` dereference or an out-of-range `Vector::get`).
-/

namespace PathFinderManager

/-! ## Floating point values -/

/-- The values of a C++ `float`, finite ones kept exact. -/
inductive Flt where
  | nan : Flt
  | ninf : Flt
  | fin (q : ℚ) : Flt
  | pinf : Flt
deriving DecidableEq

namespace Flt

/-- `std::isnan`. -/
def isnan : Flt → Bool
  | nan => true
  | _ => false

/-- Neither NaN nor an infinity (`std::isfinite`). -/
def isFinite : Flt → Bool
  | fin _ => true
  | _ => false

/-- Unary minus. -/
def neg : Flt → Flt
  | nan => nan
  | ninf => pinf
  | fin q => fin (-q)
  | pinf => ninf

/-- Addition: `inf + -inf` is NaN. -/
def add : Flt → Flt → Flt
  | nan, _ => nan
  | _, nan => nan
  | pinf, ninf => nan
  | ninf, pinf => nan
  | pinf, _ => pinf
  | _, pinf => pinf
  | ninf, _ => ninf
  | _, ninf => ninf
  | fin a, fin b => fin (a + b)

/-- Subtraction. -/
def sub (a b : Flt) : Flt := add a (neg b)

/-- The infinity of the given sign. -/
def signedInf (positive : Bool) : Flt := if positive then pinf else ninf

/-- Multiplication: `0 * inf` is NaN. -/
def mul : Flt → Flt → Flt
  | nan, _ => nan
  | _, nan => nan
  | fin a, fin b => fin (a * b)
  | fin a, pinf => if a = 0 then nan else signedInf (decide (0 < a))
  | fin a, ninf => if a = 0 then nan else signedInf (decide (a < 0))
  | pinf, fin b => if b = 0 then nan else signedInf (decide (0 < b))
  | ninf, fin b => if b = 0 then nan else signedInf (decide (b < 0))
  | pinf, pinf => pinf
  | ninf, ninf => pinf
  | pinf, ninf => ninf
  | ninf, pinf => ninf

/-- Division: `0 / 0` and `inf / inf` are NaN, `x / 0` is an infinity. -/
def div : Flt → Flt → Flt
  | nan, _ => nan
  | _, nan => nan
  | fin a, fin b =>
    if b = 0 then (if a = 0 then nan else signedInf (decide (0 < a))) else fin (a / b)
  | fin _, pinf => fin 0
  | fin _, ninf => fin 0
  | pinf, fin b => signedInf (decide (0 ≤ b))
  | ninf, fin b => signedInf (decide (b < 0))
  | pinf, pinf => nan
  | pinf, ninf => nan
  | ninf, pinf => nan
  | ninf, ninf => nan

/-- The comparison `a < b`; false when either side is NaN. -/
def lt : Flt → Flt → Bool
  | nan, _ => false
  | _, nan => false
  | ninf, ninf => false
  | ninf, _ => true
  | fin _, ninf => false
  | fin a, fin b => decide (a < b)
  | fin _, pinf => true
  | pinf, _ => false

/-- The comparison `a > b`. -/
def gt (a b : Flt) : Bool := lt b a

/-- The comparison `a <= b`; false when either side is NaN. -/
def le : Flt → Flt → Bool
  | nan, _ => false
  | _, nan => false
  | ninf, _ => true
  | fin _, ninf => false
  | fin a, fin b => decide (a ≤ b)
  | fin _, pinf => true
  | pinf, pinf => true
  | pinf, _ => false

/-- Absolute value (`abs` on a float). -/
def abs : Flt → Flt
  | nan => nan
  | ninf => pinf
  | fin q => fin |q|
  | pinf => pinf

/-- Square root, given the machine's square root `r` on finite non-negative values. -/
def sqrt (r : ℚ → ℚ) : Flt → Flt
  | nan => nan
  | ninf => nan
  | fin q => if q < 0 then nan else fin (r q)
  | pinf => pinf

/-- The constant `FLT_MAX`. -/
def FLT_MAX : Flt := fin 340282346638528859811704183484516925440

instance : Add Flt := ⟨add⟩
instance : Sub Flt := ⟨sub⟩
instance : Mul Flt := ⟨mul⟩
instance : Div Flt := ⟨div⟩
instance : Neg Flt := ⟨neg⟩

end Flt

/-! ## Geometry primitives -/

/-- Modelled from the spec: the engine's `Vector3` ("Geometry primitives: vectors ... Pure
math, no state"), three floats read by `getX`, `getY`, `getZ`. -/
structure Vector3 where
  x : Flt
  y : Flt
  z : Flt
deriving DecidableEq

namespace Vector3

/-- Component-wise sum `a + b`. -/
def add (a b : Vector3) : Vector3 := ⟨a.x + b.x, a.y + b.y, a.z + b.z⟩

/-- Component-wise difference `a - b`. -/
def sub (a b : Vector3) : Vector3 := ⟨a.x - b.x, a.y - b.y, a.z - b.z⟩

/-- Scaling `v * k`. -/
def scale (v : Vector3) (k : Flt) : Vector3 := ⟨v.x * k, v.y * k, v.z * k⟩

/-- The inner product `a.dotProduct(b)`. -/
def dotProduct (a b : Vector3) : Flt := a.x * b.x + a.y * b.y + a.z * b.z

/-- The Euclidean length `v.length()`. -/
def length (r : ℚ → ℚ) (v : Vector3) : Flt := Flt.sqrt r (v.x * v.x + v.y * v.y + v.z * v.z)

/-- The distance `a.distanceTo(b)`. -/
def distanceTo (r : ℚ → ℚ) (a b : Vector3) : Flt := length r (sub a b)

/-- The in-place `v.normalize()`: the vector divided by its length, and that length. -/
def normalize (r : ℚ → ℚ) (v : Vector3) : Vector3 × Flt :=
  (⟨v.x / length r v, v.y / length r v, v.z / length r v⟩, length r v)

/-- The update `v.setZ(k)`. -/
def setZ (v : Vector3) (k : Flt) : Vector3 := ⟨v.x, v.y, k⟩

end Vector3

/-! ## Calls, queries and faults -/

/-- A query made to a collaborator of the path finder. -/
inductive Query where
  | cellParent
  | cellNumber
  | objectTemplate
  | portalLayout
  | floorMesh
  | pathGraph
  | nearestNode
  | triangle
  | nearestPathNode
  | portalPath
  | pathNode
  | buildingCell
  | worldPosition
  | floorSearch
  | funnel
  | regionIndex
  | terrainHeight
  | navMesh
  | nearestPoly
  | polyPath
  | closestPointOnPoly
  | straightPath
  | randomPoint
  | raycast
deriving DecidableEq

/-- How a call ends: it returns a value, or it faults. -/
inductive Outcome (α : Type) where
  | returned (a : α) : Outcome α
  | fault : Outcome α

/-- A call: its outcome and the queries it made, in order. -/
structure M (α : Type) where
  out : Outcome α
  log : List Query

/-- A call that returns without any query. -/
def M.pure {α : Type} (a : α) : M α := ⟨Outcome.returned a, []⟩

/-- Sequencing: a fault ends the call, the queries made so far are kept. -/
def M.bind {α β : Type} (m : M α) (f : α → M β) : M β :=
  match m.out with
  | Outcome.fault => ⟨Outcome.fault, m.log⟩
  | Outcome.returned a => ⟨(f a).out, m.log ++ (f a).log⟩

instance : Monad M where
  pure := M.pure
  bind := M.bind

/-- One query `q` to a collaborator, which answers `v`. -/
def ask {α : Type} (q : Query) (v : α) : M α := ⟨Outcome.returned v, [q]⟩

/-- A `NULL` dereference or an out-of-range index. -/
def fault {α : Type} : M α := ⟨Outcome.fault, []⟩

/-! ## Data model -/

/-- A `CellObject*`. -/
abbrev CellRef := Nat
/-- A `BuildingObject*`. -/
abbrev BuildingRef := Nat
/-- A `SharedObjectTemplate*`. -/
abbrev TemplateRef := Nat
/-- A `PortalLayout*`. -/
abbrev LayoutRef := Nat
/-- A `FloorMesh*`. -/
abbrev FloorRef := Nat
/-- A `PathGraph*`. -/
abbrev GraphRef := Nat
/-- A `PathNode*`. -/
abbrev NodeRef := Nat
/-- A `TriangleNode*`. -/
abbrev TriRef := Nat
/-- A `dtPolyRef`. -/
abbrev PolyRef := Nat

/-- A position and the cell it is local to (`NULL`: absolute world space). -/
structure WorldCoordinates where
  point : Vector3
  cell : Option CellRef
deriving DecidableEq

/-- A `Vector<WorldCoordinates>`. -/
abbrev Path := List WorldCoordinates

/-- A `RecastNavMesh`: whether it is loaded, and whether its `dtNavMesh` is present. -/
structure RecastNavMesh where
  id : Nat
  loaded : Bool
  hasDtNavMesh : Bool
deriving DecidableEq

/-- A `NavMeshRegion`, with what the path finder reads from it: the centre of its mesh
bounds, `getMeshBounds()->extents()[getMeshBounds()->longestAxis()]`, its position, its radius
and its navigation mesh (`NULL` when absent). -/
structure NavMeshRegion where
  id : Nat
  boundsCenter : Vector3
  longestExtent : Flt
  position : Vector3
  radius : Flt
  navMesh : Option RecastNavMesh
deriving DecidableEq

/-- A `NavCollision`: crossing position, distance along the segment, region. -/
structure NavCollision where
  position : Vector3
  distance : Flt
  region : NavMeshRegion
deriving DecidableEq

/-- A `Zone`: the region index and the terrain height. -/
structure Zone where
  getInRangeNavMeshes : Flt → Flt → Flt → List NavMeshRegion
  getHeightNoCache : Flt → Flt → Flt

/-- The collaborators of the path finder, each as the function it computes. -/
structure Env where
  sqrtQ : ℚ → ℚ
  cosF : Flt → Flt
  sinF : Flt → Flt
  cellNumber : CellRef → Int
  cellParent : CellRef → Option BuildingRef
  cellWorldPosition : CellRef → Vector3 → Vector3
  objectTemplate : BuildingRef → Option TemplateRef
  buildingCell : BuildingRef → Int → Option CellRef
  buildingPosition : BuildingRef → Vector3
  buildingRadians : BuildingRef → Flt
  portalLayout : TemplateRef → Option LayoutRef
  floorMesh : LayoutRef → Int → Option FloorRef
  floorCellID : FloorRef → Int
  pathGraph : FloorRef → Option GraphRef
  findNearestNode : GraphRef → Vector3 → Option NodeRef
  findNearestGlobalNode : GraphRef → Vector3 → Option NodeRef
  layoutPath : LayoutRef → NodeRef → NodeRef → Option (List NodeRef)
  nodePosition : NodeRef → Vector3
  nodeFloor : NodeRef → FloorRef
  getTriangle : Vector3 → FloorRef → Option TriRef
  findNearestPathNode : TriRef → FloorRef → Vector3 → Option NodeRef
  search : Vector3 → Vector3 → TriRef → TriRef → Option (List TriRef)
  funnel : Vector3 → Vector3 → List TriRef → List Vector3
  findNearestPoly : RecastNavMesh → Vector3 → Option (PolyRef × Vector3)
  findPolyPath : RecastNavMesh → PolyRef → PolyRef → Vector3 → Vector3 → Bool × List PolyRef
  closestPointOnPoly : RecastNavMesh → PolyRef → Vector3 → Vector3
  findStraightPath : RecastNavMesh → Vector3 → Vector3 → List PolyRef → List Vector3
  findNearestPolySpawn : RecastNavMesh → Vector3 → Option (PolyRef × Vector3)
  findRandomPointAroundCircle : RecastNavMesh → PolyRef → Vector3 → Flt → Nat →
    Option (PolyRef × Vector3)
  raycast : RecastNavMesh → PolyRef → Vector3 → Vector3 → Bool

/-- The method `WorldCoordinates::getWorldPosition`: the point itself without a cell,
otherwise the point composed with the placement of the cell's building. -/
def getWorldPosition (env : Env) (c : WorldCoordinates) : M Vector3 :=
  match c.cell with
  | none => pure c.point
  | some cell => ask Query.worldPosition (env.cellWorldPosition cell c.point)

/-! ## Outdoor search: collisions with region bounds -/

/-- Modelled from the spec: `SortedVector<NavCollision*>::put`, which is not part of
PathFinderManager.cpp. "Collisions for one segment must be orderable by ascending distance":
the new collision is placed after the collisions that are not farther than it. -/
def put (c : NavCollision) : List NavCollision → List NavCollision
  | [] => [c]
  | d :: ds => if Flt.lt c.distance d.distance then c :: d :: ds else d :: put c ds

/-- The function `pointInSphere`. -/
def pointInSphere (r : ℚ → ℚ) (point center : Vector3) (radius : Flt) : Bool :=
  Flt.lt (Vector3.length r (Vector3.sub point center)) radius

/-- The statement `if (guard) collisions->put(new NavCollision(start + (dir * t), t, region))`. -/
def putCrossing (guard : Bool) (start dir : Vector3) (t : Flt) (region : NavMeshRegion)
    (collisions : List NavCollision) : List NavCollision :=
  if guard then put ⟨Vector3.add start (Vector3.scale dir t), t, region⟩ collisions
  else collisions

/-- The body of the loop of `getNavMeshCollisions` for one region; `dir` is the normalised
direction, `maxT` the length of the segment. -/
def regionCollisions (r : ℚ → ℚ) (start dir : Vector3) (maxT : Flt)
    (collisions : List NavCollision) (region : NavMeshRegion) : List NavCollision :=
  let bPos := region.boundsCenter
  let sPos : Vector3 := ⟨bPos.x, bPos.z, Flt.fin 0⟩
  let radius := region.longestExtent * Flt.fin (39 / 40)
  let radiusSq := radius * radius
  let L := Vector3.sub sPos start
  let tca := Vector3.dotProduct L dir
  if Flt.lt tca (Flt.fin 0) then collisions
  else
    let d2 := Vector3.dotProduct L L - tca * tca
    if Flt.gt d2 radiusSq then collisions
    else
      let thc := Flt.sqrt r (radiusSq - d2)
      let t1 := tca - thc
      let t2 := tca + thc
      let c1 := putCrossing
        (Flt.gt (Flt.abs (t1 - t2)) (Flt.fin (1 / 10)) && Flt.gt t1 (Flt.fin 0)
          && Flt.lt t1 maxT) start dir t1 region collisions
      putCrossing (Flt.gt t2 (Flt.fin 0) && Flt.lt t2 maxT) start dir t2 region c1

/-- The method `getNavMeshCollisions`: `collisions` is the list being filled. -/
def getNavMeshCollisions (r : ℚ → ℚ) (collisions : List NavCollision)
    (regions : List NavMeshRegion) (start end_ : Vector3) : List NavCollision :=
  let n := Vector3.normalize r (Vector3.sub end_ start)
  regions.foldl (regionCollisions r start n.1 n.2) collisions

/-! ## Outdoor search: one leg inside a navigation mesh -/

/-- The loop of `getRecastPath` over the waypoints of the straight path: each adds
`p[0] * p[0] + p[2] * p[2]` to `len` and a world point without cell to `path`. -/
def addPathPoints : List Vector3 → Path → Flt → Path × Flt
  | [], path, len => (path, len)
  | p :: ps, path, len =>
    addPathPoints ps (path ++ [⟨⟨p.x, -p.z, p.y⟩, none⟩]) (len + (p.x * p.x + p.z * p.z))

/-- The part of `getRecastPath` after the polygon search, `corridor` being the polygons it
wrote and `polyEnd` the nearest point of the target. -/
def stringPath (env : Env) (mesh : RecastNavMesh) (target polyStart polyEnd : Vector3)
    (endPoly : PolyRef) (corridor : List PolyRef) (path : Path) (len : Flt)
    (allowPartial : Bool) : M (Option (Path × Flt)) :=
  match corridor.getLast? with
  | none => pure (some (path, len))
  | some last =>
    if last ≠ endPoly then
      if allowPartial then do
        let clamped ← ask Query.closestPointOnPoly (env.closestPointOnPoly mesh last target)
        let points ← ask Query.straightPath
          (env.findStraightPath mesh polyStart clamped corridor)
        pure (some (addPathPoints points path len))
      else pure none
    else do
      let points ← ask Query.straightPath (env.findStraightPath mesh polyStart polyEnd corridor)
      pure (some (addPathPoints points path len))

/-- The method `getRecastPath`: `none` is the result `false`, otherwise the path and the
accumulated length after the call. -/
def getRecastPath (env : Env) (start end_ : Vector3) (region : NavMeshRegion) (path : Path)
    (len : Flt) (allowPartial : Bool) : M (Option (Path × Flt)) :=
  let startPosition : Vector3 := ⟨start.x, start.z, -start.y⟩
  let targetPosition : Vector3 := ⟨end_.x, end_.z, -end_.y⟩
  do
    let navMesh ← ask Query.navMesh region.navMesh
    match navMesh with
    | none => pure none
    | some mesh =>
      if mesh.loaded = false then pure none
      else
        let center : Vector3 := ⟨region.position.x, region.position.z, -region.position.y⟩
        if pointInSphere env.sqrtQ targetPosition center region.radius
            || pointInSphere env.sqrtQ startPosition center region.radius then do
          let s ← ask Query.nearestPoly (env.findNearestPoly mesh startPosition)
          match s with
          | none => pure none
          | some (startPoly, polyStart) => do
            let e ← ask Query.nearestPoly (env.findNearestPoly mesh targetPosition)
            match e with
            | none => pure none
            | some (endPoly, polyEnd) => do
              let found ← ask Query.polyPath
                (env.findPolyPath mesh startPoly endPoly polyStart polyEnd)
              if !found.1 && !allowPartial then pure none
              else
                stringPath env mesh targetPosition polyStart polyEnd endPoly found.2 path len
                  allowPartial
        else pure (some (path, len))

/-! ## Outdoor search: world to world -/

/-- The loop of the branch "we're already inside a navmesh" of `findPathFromWorldToWorld`:
one leg per candidate region, in index order. `path` and `len` are the candidate being
built, `finalpath` and `finalLengthSq` the best candidate kept; the result is the kept
candidate after the last region. -/
def insideNavMesh (env : Env) (startTemp targetTemp : Vector3) (allowPartial : Bool) :
    List NavMeshRegion → Path → Flt → Path → Flt → M (Path × Flt)
  | [], _, _, finalpath, finalLengthSq => pure (finalpath, finalLengthSq)
  | region :: rest, path, len, finalpath, finalLengthSq => do
    let leg ← getRecastPath env startTemp targetTemp region path len allowPartial
    match leg with
    | none =>
      insideNavMesh env startTemp targetTemp allowPartial rest path len finalpath finalLengthSq
    | some (path1, len1) =>
      if Flt.gt len1 (Flt.fin 0) && Flt.lt len1 finalLengthSq then
        insideNavMesh env startTemp targetTemp allowPartial rest [] len1 path1 len1
      else
        insideNavMesh env startTemp targetTemp allowPartial rest path1 len1 finalpath
          finalLengthSq

/-- The answer of `zone->getInRangeNavMeshes(mid.getX(), mid.getY(), distance, &regions, false)`
for the segment from `pointA` to `pointB`, `mid` being its midpoint. -/
def candidateRegions (env : Env) (z : Zone) (pointA pointB : WorldCoordinates) :
    List NavMeshRegion :=
  let startTemp := pointA.point
  let targetTemp := pointB.point
  let mid := Vector3.add startTemp (Vector3.scale (Vector3.sub targetTemp startTemp)
    (Flt.fin (1 / 2)))
  z.getInRangeNavMeshes mid.x mid.y (Vector3.distanceTo env.sqrtQ startTemp targetTemp)

/-- The body of the loop of `findPathFromWorldToWorld` for one goal `pointB`. -/
def goalStep (env : Env) (zone : Option Zone) (pointA : WorldCoordinates) (allowPartial : Bool)
    (pointB : WorldCoordinates) (finalpath : Path) (finalLengthSq : Flt) : M (Path × Flt) :=
  let startTemp := pointA.point
  let targetTemp := pointB.point
  match zone with
  | none => fault
  | some z => do
    let regions ← ask Query.regionIndex (candidateRegions env z pointA pointB)
    let startW ← getWorldPosition env pointA
    let endW ← getWorldPosition env pointB
    let collisions := getNavMeshCollisions env.sqrtQ [] regions startW endW
    match collisions with
    | [collision] => do
      let height ← ask Query.terrainHeight
        (z.getHeightNoCache collision.position.x collision.position.y)
      let position := Vector3.setZ collision.position height
      let leg ← getRecastPath env position targetTemp collision.region [pointA] (Flt.fin 0)
        allowPartial
      match leg with
      | none => pure (finalpath, finalLengthSq)
      | some (path1, len1) =>
        if Flt.gt len1 (Flt.fin 0) && Flt.lt len1 finalLengthSq then pure (path1, len1)
        else pure (finalpath, finalLengthSq)
    | _ =>
      insideNavMesh env startTemp targetTemp allowPartial regions [] (Flt.fin 0) finalpath
        finalLengthSq

/-- The loop of `findPathFromWorldToWorld` over the candidate goals. -/
def goalLoop (env : Env) (zone : Option Zone) (pointA : WorldCoordinates) (allowPartial : Bool) :
    List WorldCoordinates → Path → Flt → M (Path × Flt)
  | [], finalpath, finalLengthSq => pure (finalpath, finalLengthSq)
  | pointB :: rest, finalpath, finalLengthSq => do
    let best ← goalStep env zone pointA allowPartial pointB finalpath finalLengthSq
    goalLoop env zone pointA allowPartial rest best.1 best.2

/-- The method `findPathFromWorldToWorld(pointA, endPoints, zone, allowPartial)`. The kept
candidate `finalpath` is never `NULL`; `endPoints.get(0)` on an empty list is out of range. -/
def findPathFromWorldToWorld (env : Env) (zone : Option Zone) (pointA : WorldCoordinates)
    (endPoints : List WorldCoordinates) (allowPartial : Bool) : M (Option Path) := do
  let best ← goalLoop env zone pointA allowPartial endPoints [] Flt.FLT_MAX
  if best.1.length < 2 then
    match endPoints.head? with
    | none => fault
    | some goal => pure (some [pointA, goal])
  else pure (some best.1)

/-- The overload `findPathFromWorldToWorld(pointA, pointB, zone)`. -/
def findPathFromWorldToWorld1 (env : Env) (zone : Option Zone) (pointA pointB : WorldCoordinates) :
    M (Option Path) :=
  findPathFromWorldToWorld env zone pointA [pointB] true

/-! ## Indoor search: model space, floor path, funnel -/

/-- Modelled from the spec: the engine's `Matrix4` (a rigid transform of the "Geometry
primitives"), which is not part of PathFinderManager.cpp. Entry `mIJ` is `matrix[I][J]`; a
vector is a row and the translation is the last row, so that `v * (T * R)` translates by `T`
and then rotates by `R` ("inverse-translating by the building's world position and
inverse-rotating by its yaw"). -/
structure Matrix4 where
  m00 : Flt
  m01 : Flt
  m02 : Flt
  m03 : Flt
  m10 : Flt
  m11 : Flt
  m12 : Flt
  m13 : Flt
  m20 : Flt
  m21 : Flt
  m22 : Flt
  m23 : Flt
  m30 : Flt
  m31 : Flt
  m32 : Flt
  m33 : Flt

namespace Matrix4

/-- The default `Matrix4`: the identity. -/
def identity : Matrix4 :=
  ⟨Flt.fin 1, Flt.fin 0, Flt.fin 0, Flt.fin 0, Flt.fin 0, Flt.fin 1, Flt.fin 0, Flt.fin 0,
   Flt.fin 0, Flt.fin 0, Flt.fin 1, Flt.fin 0, Flt.fin 0, Flt.fin 0, Flt.fin 0, Flt.fin 1⟩

/-- The call `setTranslation(x, y, z)` on the identity. -/
def translation (x y z : Flt) : Matrix4 :=
  { identity with m30 := x, m31 := y, m32 := z }

/-- The call `setRotationMatrix(rot)` on the identity, for the `Matrix3` with
`rot[0][0] = c`, `rot[0][2] = -s`, `rot[1][1] = 1`, `rot[2][0] = s`, `rot[2][2] = c`. -/
def rotation (c s : Flt) : Matrix4 :=
  { identity with m00 := c, m02 := -s, m11 := Flt.fin 1, m20 := s, m22 := c }

/-- The matrix product `a * b`. -/
def mul (a b : Matrix4) : Matrix4 where
  m00 := a.m00 * b.m00 + a.m01 * b.m10 + a.m02 * b.m20 + a.m03 * b.m30
  m01 := a.m00 * b.m01 + a.m01 * b.m11 + a.m02 * b.m21 + a.m03 * b.m31
  m02 := a.m00 * b.m02 + a.m01 * b.m12 + a.m02 * b.m22 + a.m03 * b.m32
  m03 := a.m00 * b.m03 + a.m01 * b.m13 + a.m02 * b.m23 + a.m03 * b.m33
  m10 := a.m10 * b.m00 + a.m11 * b.m10 + a.m12 * b.m20 + a.m13 * b.m30
  m11 := a.m10 * b.m01 + a.m11 * b.m11 + a.m12 * b.m21 + a.m13 * b.m31
  m12 := a.m10 * b.m02 + a.m11 * b.m12 + a.m12 * b.m22 + a.m13 * b.m32
  m13 := a.m10 * b.m03 + a.m11 * b.m13 + a.m12 * b.m23 + a.m13 * b.m33
  m20 := a.m20 * b.m00 + a.m21 * b.m10 + a.m22 * b.m20 + a.m23 * b.m30
  m21 := a.m20 * b.m01 + a.m21 * b.m11 + a.m22 * b.m21 + a.m23 * b.m31
  m22 := a.m20 * b.m02 + a.m21 * b.m12 + a.m22 * b.m22 + a.m23 * b.m32
  m23 := a.m20 * b.m03 + a.m21 * b.m13 + a.m22 * b.m23 + a.m23 * b.m33
  m30 := a.m30 * b.m00 + a.m31 * b.m10 + a.m32 * b.m20 + a.m33 * b.m30
  m31 := a.m30 * b.m01 + a.m31 * b.m11 + a.m32 * b.m21 + a.m33 * b.m31
  m32 := a.m30 * b.m02 + a.m31 * b.m12 + a.m32 * b.m22 + a.m33 * b.m32
  m33 := a.m30 * b.m03 + a.m31 * b.m13 + a.m32 * b.m23 + a.m33 * b.m33

/-- The product `v * m` of a point with a matrix. -/
def apply (v : Vector3) (m : Matrix4) : Vector3 :=
  ⟨v.x * m.m00 + v.y * m.m10 + v.z * m.m20 + m.m30,
   v.x * m.m01 + v.y * m.m11 + v.z * m.m21 + m.m31,
   v.x * m.m02 + v.y * m.m12 + v.z * m.m22 + m.m32⟩

end Matrix4

/-- The method `transformToModelSpace(point, building)`. -/
def transformToModelSpace (env : Env) (point : Vector3) (building : BuildingRef) : Vector3 :=
  let switched : Vector3 := ⟨point.x, point.z, point.y⟩
  let pos := env.buildingPosition building
  let translationMatrix := Matrix4.translation (-pos.x) (-pos.z) (-pos.y)
  let rad := -(env.buildingRadians building)
  let cosRad := env.cosF rad
  let sinRad := env.sinF rad
  let rotateMatrix := Matrix4.rotation cosRad sinRad
  let modelMatrix := Matrix4.mul translationMatrix rotateMatrix
  Matrix4.apply switched modelMatrix

/-- The method `getFloorPath`: the returned code and the triangle corridor `nodes`. -/
def getFloorPath (env : Env) (pointA pointB : Vector3) (floor : FloorRef) :
    M (Int × Option (List TriRef)) := do
  let objectFloor ← ask Query.triangle (env.getTriangle pointA floor)
  let targetFloor ← ask Query.triangle (env.getTriangle pointB floor)
  if objectFloor = targetFloor then pure (-1, none)
  else
    match objectFloor, targetFloor with
    | some o, some t => do
      let nodes ← ask Query.floorSearch (env.search pointA pointB o t)
      match nodes with
      | none => pure (1, none)
      | some corridor => pure (0, some corridor)
    | _, _ => pure (1, none)

/-- The points `funnelPath->get(i)` for `1 <= i < funnelPath->size() - 1`. -/
def interior (funnelPath : List Vector3) : List Vector3 := (funnelPath.drop 1).dropLast

/-- The method `addTriangleNodeEdges`: the path after the call. -/
def addTriangleNodeEdges (env : Env) (source goal : Vector3) (trianglePath : List TriRef)
    (path : Path) (cell : Option CellRef) : M Path := do
  let startPoint : Vector3 := ⟨source.x, source.z, source.y⟩
  let goalPoint : Vector3 := ⟨goal.x, goal.z, goal.y⟩
  let funnelPath ← ask Query.funnel (env.funnel startPoint goalPoint trianglePath)
  pure (path ++ (interior funnelPath).map (fun p => (⟨p, cell⟩ : WorldCoordinates)))

/-- The recurring step "floor path, then funnel edges when a corridor was found":
`getFloorPath(a, b, floor, trianglePath)` followed by `addTriangleNodeEdges` when
`res != -1 && trianglePath != NULL`. -/
def floorLeg (env : Env) (a b : Vector3) (floor : FloorRef) (path : Path)
    (cell : Option CellRef) : M Path := do
  let res ← getFloorPath env a b floor
  match res.2 with
  | some trianglePath =>
    if res.1 ≠ -1 then addTriangleNodeEdges env a b trianglePath path cell else pure path
  | none => pure path

/-- The loop "populate cell traversing" over the nodes of a portal route: a node on the
exterior floor (cell number 0) adds its world position without cell, a node inside adds its
position with the building's cell of that number. `via` is the cell whose placement turns
an exterior node into a world position. -/
def traverse (env : Env) (building : BuildingRef) (via : Option CellRef) :
    List NodeRef → Path → M Path
  | [], path => pure path
  | pathNode :: rest, path => do
    let cellID ← ask Query.pathNode (env.floorCellID (env.nodeFloor pathNode))
    if cellID = 0 then do
      let world ← getWorldPosition env ⟨env.nodePosition pathNode, via⟩
      traverse env building via rest (path ++ [⟨world, none⟩])
    else do
      let pathCell ← ask Query.buildingCell (env.buildingCell building cellID)
      traverse env building via rest (path ++ [⟨env.nodePosition pathNode, pathCell⟩])

/-! ## Regime assembly -/

/-- The point of the last element of a path, `path->get(path->size() - 1).getPoint()`. -/
def lastPoint (path : Path) : M Vector3 :=
  match path.getLast? with
  | none => fault
  | some c => pure c.point

/-- The method `findPathFromWorldToCell`. -/
def findPathFromWorldToCell (env : Env) (pointA pointB : WorldCoordinates) :
    M (Option Path) :=
  match pointB.cell with
  | none => pure none
  | some targetCell => do
    let building ← ask Query.cellParent (env.cellParent targetCell)
    match building with
    | none => pure none
    | some building => do
      let templateObject ← ask Query.objectTemplate (env.objectTemplate building)
      match templateObject with
      | none => pure none
      | some templateObject => do
        let portalLayout ← ask Query.portalLayout (env.portalLayout templateObject)
        match portalLayout with
        | none => pure none
        | some portalLayout => do
          let exteriorFloorMesh ← ask Query.floorMesh (env.floorMesh portalLayout 0)
          match exteriorFloorMesh with
          | none => pure none
          | some exteriorFloorMesh => do
            let exteriorPathGraph ← ask Query.pathGraph (env.pathGraph exteriorFloorMesh)
            let targetCellID ← ask Query.cellNumber (env.cellNumber targetCell)
            let targetFloorMesh ← ask Query.floorMesh (env.floorMesh portalLayout targetCellID)
            match targetFloorMesh with
            | none => fault
            | some targetFloorMesh => do
              let _targetPathGraph ← ask Query.pathGraph (env.pathGraph targetFloorMesh)
              let transformedPosition := transformToModelSpace env pointA.point building
              match exteriorPathGraph with
              | none => fault
              | some exteriorPathGraph => do
                let nearestEntranceNode ← ask Query.nearestNode
                  (env.findNearestNode exteriorPathGraph transformedPosition)
                match nearestEntranceNode with
                | none => pure none
                | some nearestEntranceNode => do
                  let triangle ← ask Query.triangle
                    (env.getTriangle pointB.point targetFloorMesh)
                  match triangle with
                  | none => pure none
                  | some triangle => do
                    let nearestTargetNode ← ask Query.nearestPathNode
                      (env.findNearestPathNode triangle targetFloorMesh pointB.point)
                    match nearestTargetNode with
                    | none => pure none
                    | some nearestTargetNode => do
                      let pathToCell ← ask Query.portalPath
                        (env.layoutPath portalLayout nearestEntranceNode nearestTargetNode)
                      match pathToCell with
                      | none => pure none
                      | some pathToCell => do
                        let path ← traverse env building (some targetCell) pathToCell [pointA]
                        let last ← lastPoint path
                        let path ← floorLeg env last pointB.point targetFloorMesh path
                          (some targetCell)
                        pure (some (path ++ [pointB]))

/-- The method `findPathFromCellToWorld`. -/
def findPathFromCellToWorld (env : Env) (zone : Option Zone) (pointA pointB : WorldCoordinates) :
    M (Option Path) :=
  match pointA.cell with
  | none => fault
  | some ourCell => do
    let building ← ask Query.cellParent (env.cellParent ourCell)
    let ourCellID ← ask Query.cellNumber (env.cellNumber ourCell)
    match building with
    | none => fault
    | some building => do
      let templateObject ← ask Query.objectTemplate (env.objectTemplate building)
      match templateObject with
      | none => pure none
      | some templateObject => do
        let portalLayout ← ask Query.portalLayout (env.portalLayout templateObject)
        match portalLayout with
        | none => pure none
        | some portalLayout => do
          let sourceFloorMesh ← ask Query.floorMesh (env.floorMesh portalLayout ourCellID)
          match sourceFloorMesh with
          | none => pure none
          | some sourceFloorMesh => do
            let sourcePathGraph ← ask Query.pathGraph (env.pathGraph sourceFloorMesh)
            match sourcePathGraph with
            | none => pure none
            | some _ => do
              let exteriorFloorMesh ← ask Query.floorMesh (env.floorMesh portalLayout 0)
              match exteriorFloorMesh with
              | none => pure none
              | some exteriorFloorMesh => do
                let exteriorPathGraph ← ask Query.pathGraph (env.pathGraph exteriorFloorMesh)
                match exteriorPathGraph with
                | none => pure none
                | some exteriorPathGraph => do
                  let transformedPosition := transformToModelSpace env pointB.point building
                  let triangle ← ask Query.triangle
                    (env.getTriangle pointA.point sourceFloorMesh)
                  match triangle with
                  | none => pure none
                  | some triangle => do
                    let exitNode ← ask Query.nearestPathNode
                      (env.findNearestPathNode triangle sourceFloorMesh transformedPosition)
                    match exitNode with
                    | none => pure none
                    | some exitNode => do
                      let exteriorNode ← ask Query.nearestNode
                        (env.findNearestGlobalNode exteriorPathGraph transformedPosition)
                      match exteriorNode with
                      | none => pure none
                      | some exteriorNode => do
                        let exitPath ← ask Query.portalPath
                          (env.layoutPath portalLayout exitNode exteriorNode)
                        match exitPath with
                        | none => pure none
                        | some exitPath => do
                          let path ← floorLeg env pointA.point (env.nodePosition exitNode)
                            sourceFloorMesh [pointA] (some ourCell)
                          let path ← traverse env building (some ourCell) exitPath
                            (path ++ [⟨env.nodePosition exitNode, some ourCell⟩])
                          match path.getLast? with
                          | none => pure (some (path ++ [pointB]))
                          | some last => do
                            let newPath ← findPathFromWorldToWorld1 env zone last pointB
                            match newPath with
                            | none => pure (some path)
                            | some newPath => pure (some (path ++ newPath))

/-- The part of `findPathFromCellToDifferentCell` after the portal route `nodes` has been
found and is not of size one: `nodes->get(1)` is out of range on an empty route. -/
def routeThroughCells (env : Env) (pointA pointB : WorldCoordinates)
    (ourCell targetCell : CellRef) (building1 : BuildingRef) (floorMesh1 floorMesh2 : FloorRef)
    (source : NodeRef) (nodes : List NodeRef) : M (Option Path) :=
  match nodes with
  | [] => fault
  | [_] => pure none
  | _ :: second :: rest => do
    let path ← floorLeg env pointA.point (env.nodePosition second) floorMesh1 [pointA]
      (some ourCell)
    let path ← traverse env building1 (some ourCell) (second :: rest)
      (path ++ [⟨env.nodePosition source, some ourCell⟩])
    let last ← lastPoint path
    let path ← floorLeg env last pointB.point floorMesh2 path (some targetCell)
    pure (some (path ++ [pointB]))

/-- The method `findPathFromCellToDifferentCell`. -/
def findPathFromCellToDifferentCell (env : Env) (pointA pointB : WorldCoordinates) :
    M (Option Path) :=
  match pointA.cell, pointB.cell with
  | some ourCell, some targetCell => do
    let ourCellID ← ask Query.cellNumber (env.cellNumber ourCell)
    let targetCellID ← ask Query.cellNumber (env.cellNumber targetCell)
    let building1 ← ask Query.cellParent (env.cellParent ourCell)
    let building2 ← ask Query.cellParent (env.cellParent targetCell)
    if building1 ≠ building2 then pure none
    else
      match building1 with
      | none => fault
      | some building1 => do
        let templateObject ← ask Query.objectTemplate (env.objectTemplate building1)
        match templateObject with
        | none => pure none
        | some templateObject => do
          let portalLayout ← ask Query.portalLayout (env.portalLayout templateObject)
          match portalLayout with
          | none => pure none
          | some portalLayout => do
            let floorMesh1 ← ask Query.floorMesh (env.floorMesh portalLayout ourCellID)
            let floorMesh2 ← ask Query.floorMesh (env.floorMesh portalLayout targetCellID)
            match floorMesh2, floorMesh1 with
            | some floorMesh2, some floorMesh1 => do
              let _pathGraph1 ← ask Query.pathGraph (env.pathGraph floorMesh1)
              let _pathGraph2 ← ask Query.pathGraph (env.pathGraph floorMesh2)
              let sourceTriangle ← ask Query.triangle (env.getTriangle pointA.point floorMesh1)
              match sourceTriangle with
              | none => pure none
              | some sourceTriangle => do
                let source ← ask Query.nearestPathNode
                  (env.findNearestPathNode sourceTriangle floorMesh1 pointB.point)
                match source with
                | none => pure none
                | some source => do
                  let targetTriangle ← ask Query.triangle
                    (env.getTriangle pointB.point floorMesh2)
                  match targetTriangle with
                  | none => pure none
                  | some targetTriangle => do
                    let target ← ask Query.nearestPathNode
                      (env.findNearestPathNode targetTriangle floorMesh2 pointB.point)
                    match target with
                    | none => pure none
                    | some target => do
                      let nodes ← ask Query.portalPath
                        (env.layoutPath portalLayout source target)
                      match nodes with
                      | none => pure none
                      | some nodes =>
                        routeThroughCells env pointA pointB ourCell targetCell building1
                          floorMesh1 floorMesh2 source nodes
            | _, _ => fault
  | _, _ => fault

/-- The method `findPathFromCellToCell`. -/
def findPathFromCellToCell (env : Env) (pointA pointB : WorldCoordinates) : M (Option Path) :=
  if pointA.cell ≠ pointB.cell then findPathFromCellToDifferentCell env pointA pointB
  else
    match pointA.cell with
    | none => fault
    | some ourCell => do
      let ourCellID ← ask Query.cellNumber (env.cellNumber ourCell)
      let building ← ask Query.cellParent (env.cellParent ourCell)
      match building with
      | none => fault
      | some building => do
        let templateObject ← ask Query.objectTemplate (env.objectTemplate building)
        match templateObject with
        | none => pure none
        | some templateObject => do
          let portalLayout ← ask Query.portalLayout (env.portalLayout templateObject)
          match portalLayout with
          | none => pure none
          | some portalLayout => do
            let floorMesh1 ← ask Query.floorMesh (env.floorMesh portalLayout ourCellID)
            match floorMesh1 with
            | none => fault
            | some floorMesh1 => do
              let _pathGraph1 ← ask Query.pathGraph (env.pathGraph floorMesh1)
              let res ← getFloorPath env pointA.point pointB.point floorMesh1
              if res.1 = -1 then pure (some [pointA, pointB])
              else
                match res.2 with
                | none => findPathFromCellToDifferentCell env pointA pointB
                | some trianglePath => do
                  let path ← addTriangleNodeEdges env pointA.point pointB.point trianglePath
                    [pointA] (some ourCell)
                  pure (some (path ++ [pointB]))

/-- Whether one of the three coordinates of a point is NaN. -/
def hasNaN (c : WorldCoordinates) : Bool :=
  c.point.x.isnan || c.point.y.isnan || c.point.z.isnan

/-- The method `findPath(pointA, pointB, zone)`. -/
def findPath (env : Env) (zone : Option Zone) (pointA pointB : WorldCoordinates) :
    M (Option Path) :=
  if hasNaN pointA then pure none
  else if hasNaN pointB then pure none
  else
    match pointA.cell, pointB.cell with
    | none, none => findPathFromWorldToWorld1 env zone pointA pointB
    | some _, none => findPathFromCellToWorld env zone pointA pointB
    | none, some _ => findPathFromWorldToCell env pointA pointB
    | some _, some _ => findPathFromCellToCell env pointA pointB

/-! ## Single precision rounding -/

/-- The power `2 ^ e` for an integer exponent. -/
def pow2 (e : ℤ) : ℚ :=
  if 0 ≤ e then ((2 ^ e.toNat : ℕ) : ℚ) else 1 / ((2 ^ (-e).toNat : ℕ) : ℚ)

/-- The nearest integer of a non-negative rational, ties to the even one. -/
def roundHalfEven (x : ℚ) : ℤ :=
  let f := Rat.floor x
  if x - f < 1 / 2 then f
  else if 1 / 2 < x - f then f + 1
  else if f % 2 = 0 then f else f + 1

/-- The binary logarithm of a natural number, rounded down (0 for 0 and 1); the first
argument bounds the number of halvings. -/
def log2Fuel : Nat → Nat → Nat
  | 0, _ => 0
  | fuel + 1, n => if 2 ≤ n then log2Fuel fuel (n / 2) + 1 else 0

/-- The exponent `e` with `2 ^ e <= a < 2 ^ (e + 1)` of a positive rational `a`. -/
def binaryExponent (a : ℚ) : ℤ :=
  let e0 : ℤ := (log2Fuel a.num.natAbs a.num.natAbs : ℤ) - (log2Fuel a.den a.den : ℤ)
  if a < pow2 e0 then e0 - 1 else e0

/-- The `float` nearest to a rational (IEEE 754 binary32, round to nearest, ties to even):
24 significant bits, spacing `2 ^ -149` below `2 ^ -126`, and an infinity when the rounded
magnitude reaches `2 ^ 128`. The sign of a zero is not kept. -/
def round32Q (q : ℚ) : Flt :=
  if q = 0 then Flt.fin 0
  else
    let a := |q|
    let k := max (binaryExponent a - 23) (-149)
    let m := (roundHalfEven (a / pow2 k) : ℚ) * pow2 k
    if pow2 128 ≤ m then Flt.signedInf (decide (0 < q))
    else Flt.fin (if 0 < q then m else -m)

/-- The rounding of the exact result of one `float` operation. -/
def Flt.round32 : Flt → Flt
  | Flt.fin q => round32Q q
  | f => f

/-- The `float` difference `a - b`: the exact difference, rounded. -/
def Flt.fsub (a b : Flt) : Flt := Flt.round32 (a - b)

/-- The `float` sum `a + b`: the exact sum, rounded. -/
def Flt.fadd (a b : Flt) : Flt := Flt.round32 (a + b)

/-- The `float` product `a * b`: the exact product, rounded. -/
def Flt.fmul (a b : Flt) : Flt := Flt.round32 (a * b)

/-! ## Spawn point search -/

/-- The inner loop of `getSpawnPointInArea` (at most 50 draws in one region): the list holds
the remaining values of `i`, `point` is the output parameter. The draw `i` of
`findRandomPointAroundCircle` is the field of `Env` at `i`. The radius check
`temp.getX() * temp.getX() + temp.getY() * temp.getY() > radius * radius * 1.5f` on
`temp = point - center` is computed in `float`: every difference, product and sum is
rounded. -/
def spawnAttempts (env : Env) (z : Zone) (mesh : RecastNavMesh) (startPoly : PolyRef)
    (polyStart center : Vector3) (radius : Flt) : List Nat → Vector3 → M (Bool × Vector3)
  | [], point => pure (false, point)
  | i :: rest, point => do
    let drawn ← ask Query.randomPoint
      (env.findRandomPointAroundCircle mesh startPoly polyStart radius i)
    match drawn with
    | none => spawnAttempts env z mesh startPoly polyStart center radius rest point
    | some (_, pt) => do
      let height ← ask Query.terrainHeight (z.getHeightNoCache pt.x (-pt.z))
      let point1 : Vector3 := ⟨pt.x, -pt.z, height⟩
      let temp : Vector3 :=
        ⟨Flt.fsub point1.x center.x, Flt.fsub point1.y center.y, Flt.fsub point1.z center.z⟩
      if Flt.gt (Flt.fadd (Flt.fmul temp.x temp.x) (Flt.fmul temp.y temp.y))
          (Flt.fmul (Flt.fmul radius radius) (Flt.fin (3 / 2))) then
        spawnAttempts env z mesh startPoly polyStart center radius rest point1
      else do
        let hit ← ask Query.raycast (env.raycast mesh startPoly polyStart pt)
        if hit = false then
          spawnAttempts env z mesh startPoly polyStart center radius rest point1
        else pure (true, point1)

/-- The loop of `getSpawnPointInArea` over the regions in range. -/
def spawnRegions (env : Env) (z : Zone) (center flipped : Vector3) (radius : Flt) :
    List NavMeshRegion → Vector3 → M (Bool × Vector3)
  | [], point => pure (false, point)
  | region :: rest, point => do
    let mesh ← ask Query.navMesh region.navMesh
    match mesh with
    | none => spawnRegions env z center flipped radius rest point
    | some mesh =>
      if mesh.hasDtNavMesh = false then spawnRegions env z center flipped radius rest point
      else do
        let nearest ← ask Query.nearestPoly (env.findNearestPolySpawn mesh flipped)
        match nearest with
        | none => spawnRegions env z center flipped radius rest point
        | some (startPoly, polyStart) => do
          let tried ← spawnAttempts env z mesh startPoly polyStart center radius
            (List.range 50) point
          if tried.1 then pure tried
          else spawnRegions env z center flipped radius rest tried.2

/-- The method `getSpawnPointInArea(area, zone, point)` for the sphere `area` of the given
centre and radius: the returned flag and the output parameter `point` after the call. -/
def getSpawnPointInArea (env : Env) (center : Vector3) (radius : Flt) (zone : Option Zone)
    (point : Vector3) : M (Bool × Vector3) :=
  let flipped : Vector3 := ⟨center.x, center.z, -center.y⟩
  match zone with
  | none => pure (false, point)
  | some z => do
    let regions ← ask Query.regionIndex (z.getInRangeNavMeshes center.x center.y radius)
    spawnRegions env z center flipped radius regions point

/-! ## The loop of `addTriangleNodeEdges`, index by index -/

/-- The loop `for (int i = 1; i < funnelPath->size() - 1; ++i) path->add(WorldCoordinates(
funnelPath->get(i), cell))` from the index `i` on; the sizes are signed, so that an empty
funnel path gives the bound `-1`. The first argument bounds the number of iterations (the
size of the funnel path is enough). -/
def funnelEdgesLoop (funnelPath : List Vector3) (cell : Option CellRef) :
    Nat → Nat → Path → Path
  | 0, _, path => path
  | fuel + 1, i, path =>
    if (i : Int) < (funnelPath.length : Int) - 1 then
      match funnelPath[i]? with
      | some pathPoint => funnelEdgesLoop funnelPath cell fuel (i + 1) (path ++ [⟨pathPoint, cell⟩])
      | none => path
    else path

/-! ## Filtering the points already passed -/

/-- The engine operations `filterPastPoints` relies on, which are not part of
PathFinderManager.cpp: `WorldCoordinates::operator==`, `Vector3::operator==` and
`Segment(start, end).getClosestPointTo(point)`. -/
structure SceneGeometry where
  coordinatesEqual : WorldCoordinates → WorldCoordinates → Bool
  vectorEqual : Vector3 → Vector3 → Bool
  closestPointTo : Vector3 → Vector3 → Vector3 → Vector3

/-- The constant `FLT_EPSILON`. -/
def FLT_EPSILON : Flt := Flt.fin (1 / 8388608)

/-- The loop `for (int j = i - 1; j > 0; --j) path->remove(j)`, started at `j`. -/
def removeDown (path : Path) : Nat → Path
  | 0 => path
  | j + 1 => removeDown (path.eraseIdx (j + 1)) j

/-- The loop `for (int i = 2; i < path->size(); ++i)` of `filterPastPoints`, from the index
`i` on; it ends when `i` reaches the size of the path or at a `break`. The first argument
bounds the number of iterations (the size of the path is enough). -/
def filterLoop (env : Env) (geo : SceneGeometry) (thisWorldPosition thiswP : Vector3) :
    Nat → Nat → Path → M Path
  | 0, _, path => pure path
  | fuel + 1, i, path =>
    match path[i]?, path[i - 1]? with
    | some coord1, some coord2 => do
      let end_ ← getWorldPosition env coord1
      let start ← getWorldPosition env coord2
      if coord1.cell ≠ coord2.cell then
        if geo.vectorEqual end_ start && geo.vectorEqual thisWorldPosition end_ then
          pure (path.eraseIdx (i - 1))
        else filterLoop env geo thisWorldPosition thiswP fuel (i + 1) path
      else
        let closestP := geo.closestPointTo (Vector3.setZ start (Flt.fin 0))
          (Vector3.setZ end_ (Flt.fin 0)) thiswP
        if Flt.le (Vector3.distanceTo env.sqrtQ closestP thiswP) FLT_EPSILON then
          pure (removeDown path (i - 1))
        else filterLoop env geo thisWorldPosition thiswP fuel (i + 1) path
    | _, _ => pure path

/-- The test `path->size() > 2 && path->get(0) == path->get(1)`. -/
def startsDoubled (geo : SceneGeometry) (path : Path) : Bool :=
  decide (path.length > 2) &&
    match path[0]?, path[1]? with
    | some c0, some c1 => geo.coordinatesEqual c0 c1
    | _, _ => false

/-- The method `filterPastPoints(path, object)`: the path after the call;
`objectWorldPosition` is `object->getWorldPosition()`. -/
def filterPastPoints (env : Env) (geo : SceneGeometry) (path : Path)
    (objectWorldPosition : Vector3) : M Path := do
  let thisWorldPosition ← ask Query.worldPosition objectWorldPosition
  let thiswP := Vector3.setZ thisWorldPosition (Flt.fin 0)
  let path1 := if startsDoubled geo path then path.eraseIdx 1 else path
  filterLoop env geo thisWorldPosition thiswP path1.length 2 path1

/-! ## The regimes after the portal route -/

/-- The part of `findPathFromWorldToCell` from the answer `pathToCell` of
`portalLayout->getPath` on. -/
def worldToCellRoute (env : Env) (pointA pointB : WorldCoordinates) (targetCell : CellRef)
    (building : BuildingRef) (targetFloorMesh : FloorRef) :
    Option (List NodeRef) → M (Option Path)
  | none => pure none
  | some pathToCell => do
    let path ← traverse env building (some targetCell) pathToCell [pointA]
    let last ← lastPoint path
    let path ← floorLeg env last pointB.point targetFloorMesh path (some targetCell)
    pure (some (path ++ [pointB]))

/-- The part of `findPathFromCellToWorld` from the answer `exitPath` of
`portalLayout->getPath` on. -/
def cellToWorldRoute (env : Env) (zone : Option Zone) (pointA pointB : WorldCoordinates)
    (ourCell : CellRef) (building : BuildingRef) (sourceFloorMesh : FloorRef)
    (exitNode : NodeRef) : Option (List NodeRef) → M (Option Path)
  | none => pure none
  | some exitPath => do
    let path ← floorLeg env pointA.point (env.nodePosition exitNode) sourceFloorMesh [pointA]
      (some ourCell)
    let path ← traverse env building (some ourCell) exitPath
      (path ++ [⟨env.nodePosition exitNode, some ourCell⟩])
    match path.getLast? with
    | none => pure (some (path ++ [pointB]))
    | some last => do
      let newPath ← findPathFromWorldToWorld1 env zone last pointB
      match newPath with
      | none => pure (some path)
      | some newPath => pure (some (path ++ newPath))

/-- The part of `findPathFromCellToDifferentCell` from the answer `nodes` of
`portalLayout->getPath` on. -/
def differentCellRoute (env : Env) (pointA pointB : WorldCoordinates)
    (ourCell targetCell : CellRef) (building1 : BuildingRef) (floorMesh1 floorMesh2 : FloorRef)
    (source : NodeRef) : Option (List NodeRef) → M (Option Path)
  | none => pure none
  | some nodes =>
    routeThroughCells env pointA pointB ourCell targetCell building1 floorMesh1 floorMesh2
      source nodes

/-- The value returned by `getWorldPosition`. -/
def worldPositionOf (env : Env) (c : WorldCoordinates) : Vector3 :=
  match c.cell with
  | none => c.point
  | some cell => env.cellWorldPosition cell c.point

/-- The element that the loop "populate cell traversing" adds for a node of the route: the
world position without cell for a node of the exterior floor (cell number 0), the local
position with the cell of that number looked up on the building otherwise. -/
def nodeCoordinates (env : Env) (building : BuildingRef) (via : CellRef) (node : NodeRef) :
    WorldCoordinates :=
  if env.floorCellID (env.nodeFloor node) = 0 then
    ⟨env.cellWorldPosition via (env.nodePosition node), none⟩
  else ⟨env.nodePosition node, env.buildingCell building (env.floorCellID (env.nodeFloor node))⟩

/-! ## Predicates used in the statements -/

/-- Every lookup of `findPathFromWorldToCell` before `portalLayout->getPath` succeeds: the
goal is in `targetCell` of `building`, whose template and portal layout exist; the exterior
floor has a path graph with a nearest node `entrance` for the start, the target floor
`targetFloorMesh` holds the goal in a triangle with a nearest path node `target`. -/
def ReachesRouterWorldToCell (env : Env) (pointA pointB : WorldCoordinates)
    (targetCell : CellRef) (building : BuildingRef) (layout : LayoutRef)
    (targetFloorMesh : FloorRef) (entrance target : NodeRef) : Prop :=
  pointB.cell = some targetCell ∧ env.cellParent targetCell = some building ∧
  ∃ tmpl exterior graph triangle,
    env.objectTemplate building = some tmpl ∧ env.portalLayout tmpl = some layout ∧
    env.floorMesh layout 0 = some exterior ∧ env.pathGraph exterior = some graph ∧
    env.floorMesh layout (env.cellNumber targetCell) = some targetFloorMesh ∧
    env.findNearestNode graph (transformToModelSpace env pointA.point building)
      = some entrance ∧
    env.getTriangle pointB.point targetFloorMesh = some triangle ∧
    env.findNearestPathNode triangle targetFloorMesh pointB.point = some target

/-- An in-mesh leg of `getRecastPath` from `start` to `end_` that reaches the polygon search:
the navigation mesh `mesh` of the region is loaded, the sphere of the region strictly
contains the target or the start, both nearest polygons are found, and the polygon search
from `startPoly` to `endPoly` reports `status` and writes `corridor`. -/
def InMeshLeg (env : Env) (start end_ : Vector3) (region : NavMeshRegion) (mesh : RecastNavMesh)
    (startPoly : PolyRef) (polyStart : Vector3) (endPoly : PolyRef) (polyEnd : Vector3)
    (status : Bool) (corridor : List PolyRef) : Prop :=
  region.navMesh = some mesh ∧ mesh.loaded = true ∧
  (pointInSphere env.sqrtQ ⟨end_.x, end_.z, -end_.y⟩
      ⟨region.position.x, region.position.z, -region.position.y⟩ region.radius
    || pointInSphere env.sqrtQ ⟨start.x, start.z, -start.y⟩
      ⟨region.position.x, region.position.z, -region.position.y⟩ region.radius) = true ∧
  env.findNearestPoly mesh ⟨start.x, start.z, -start.y⟩ = some (startPoly, polyStart) ∧
  env.findNearestPoly mesh ⟨end_.x, end_.z, -end_.y⟩ = some (endPoly, polyEnd) ∧
  env.findPolyPath mesh startPoly endPoly polyStart polyEnd = (status, corridor)

/-- Every lookup of `findPathFromCellToWorld` before `portalLayout->getPath` succeeds. -/
def ReachesRouterCellToWorld (env : Env) (pointA pointB : WorldCoordinates)
    (ourCell : CellRef) (building : BuildingRef) (layout : LayoutRef)
    (sourceFloorMesh : FloorRef) (exitNode exteriorNode : NodeRef) : Prop :=
  pointA.cell = some ourCell ∧ env.cellParent ourCell = some building ∧
  ∃ tmpl sourceGraph exterior graph triangle,
    env.objectTemplate building = some tmpl ∧ env.portalLayout tmpl = some layout ∧
    env.floorMesh layout (env.cellNumber ourCell) = some sourceFloorMesh ∧
    env.pathGraph sourceFloorMesh = some sourceGraph ∧
    env.floorMesh layout 0 = some exterior ∧ env.pathGraph exterior = some graph ∧
    env.getTriangle pointA.point sourceFloorMesh = some triangle ∧
    env.findNearestPathNode triangle sourceFloorMesh
      (transformToModelSpace env pointB.point building) = some exitNode ∧
    env.findNearestGlobalNode graph (transformToModelSpace env pointB.point building)
      = some exteriorNode

/-- Every lookup of `findPathFromCellToDifferentCell` before `portalLayout->getPath`
succeeds: both cells belong to `building1`, whose template and portal layout exist, and each
endpoint lies in a triangle of the floor of its cell with a nearest path node. -/
def ReachesRouterDifferentCell (env : Env) (pointA pointB : WorldCoordinates)
    (ourCell targetCell : CellRef) (building1 : BuildingRef) (layout : LayoutRef)
    (floorMesh1 floorMesh2 : FloorRef) (source target : NodeRef) : Prop :=
  pointA.cell = some ourCell ∧ pointB.cell = some targetCell ∧
  env.cellParent ourCell = some building1 ∧ env.cellParent targetCell = some building1 ∧
  ∃ tmpl triangle1 triangle2,
    env.objectTemplate building1 = some tmpl ∧ env.portalLayout tmpl = some layout ∧
    env.floorMesh layout (env.cellNumber ourCell) = some floorMesh1 ∧
    env.floorMesh layout (env.cellNumber targetCell) = some floorMesh2 ∧
    env.getTriangle pointA.point floorMesh1 = some triangle1 ∧
    env.findNearestPathNode triangle1 floorMesh1 pointB.point = some source ∧
    env.getTriangle pointB.point floorMesh2 = some triangle2 ∧
    env.findNearestPathNode triangle2 floorMesh2 pointB.point = some target

/-- The list is sorted by non-decreasing distance and holds no NaN distance. -/
def SortedByDistance (l : List NavCollision) : Prop :=
  l.Pairwise (fun c d => Flt.le c.distance d.distance = true) ∧
    ∀ c ∈ l, c.distance.isnan = false

/-! ## The values computed for one region by getNavMeshCollisions -/

/-- The value `radiusSq` of `getNavMeshCollisions` for a region: the square of
`radius = bounds->extents()[bounds->longestAxis()] * .975f`. -/
def radiusSq (region : NavMeshRegion) : Flt :=
  (region.longestExtent * Flt.fin (39 / 40)) * (region.longestExtent * Flt.fin (39 / 40))

/-- The vector `L = sPos - start` of `getNavMeshCollisions`, with
`sPos = (bPos.getX(), bPos.getZ(), 0)`. -/
def toCentre (start : Vector3) (region : NavMeshRegion) : Vector3 :=
  Vector3.sub ⟨region.boundsCenter.x, region.boundsCenter.z, Flt.fin 0⟩ start

/-- The value `tca = L.dotProduct(dir)`. -/
def tca (start dir : Vector3) (region : NavMeshRegion) : Flt :=
  Vector3.dotProduct (toCentre start region) dir

/-- The value `d2 = L.dotProduct(L) - tca * tca`. -/
def d2 (start dir : Vector3) (region : NavMeshRegion) : Flt :=
  Vector3.dotProduct (toCentre start region) (toCentre start region)
    - tca start dir region * tca start dir region

/-- The value `thc = sqrt(radiusSq - d2)`. -/
def thc (r : ℚ → ℚ) (start dir : Vector3) (region : NavMeshRegion) : Flt :=
  Flt.sqrt r (radiusSq region - d2 start dir region)

/-- The entry crossing `t1 = tca - thc`. -/
def t1 (r : ℚ → ℚ) (start dir : Vector3) (region : NavMeshRegion) : Flt :=
  tca start dir region - thc r start dir region

/-- The exit crossing `t2 = tca + thc`. -/
def t2 (r : ℚ → ℚ) (start dir : Vector3) (region : NavMeshRegion) : Flt :=
  tca start dir region + thc r start dir region

/-- A world with buildings placed at `(3, 4, 5)` and turned by a yaw whose cosine is `3 / 5`
and whose sine is `4 / 5`. -/
def towerEnv (env : Env) : Env :=
  { env with
    buildingPosition := fun _ => ⟨Flt.fin 3, Flt.fin 4, Flt.fin 5⟩
    cosF := fun _ => Flt.fin (3 / 5)
    sinF := fun _ => Flt.fin (4 / 5) }


/-- The largest `k` not above the bound with `k * k <= n`. -/
def isqrtAux (n : Nat) : Nat → Nat
  | 0 => 0
  | k + 1 => if (k + 1) * (k + 1) ≤ n then k + 1 else isqrtAux n k

/-- A square root on rationals, rounded down to a multiple of the inverse denominator and
exact on squares: `sqrt (a / b) = sqrt (a * b) / b`. -/
def sampleSqrt (q : ℚ) : ℚ := (isqrtAux (q.num.toNat * q.den) (q.num.toNat * q.den) : ℚ) / q.den

/-- A world without buildings or navigation meshes: every lookup answers `NULL`. -/
def emptyEnv : Env where
  sqrtQ := sampleSqrt
  cosF := fun _ => Flt.fin 1
  sinF := fun _ => Flt.fin 0
  cellNumber := fun _ => 0
  cellParent := fun _ => none
  cellWorldPosition := fun _ p => p
  objectTemplate := fun _ => none
  buildingCell := fun _ _ => none
  buildingPosition := fun _ => ⟨Flt.fin 0, Flt.fin 0, Flt.fin 0⟩
  buildingRadians := fun _ => Flt.fin 0
  portalLayout := fun _ => none
  floorMesh := fun _ _ => none
  floorCellID := fun _ => 0
  pathGraph := fun _ => none
  findNearestNode := fun _ _ => none
  findNearestGlobalNode := fun _ _ => none
  layoutPath := fun _ _ _ => none
  nodePosition := fun _ => ⟨Flt.fin 0, Flt.fin 0, Flt.fin 0⟩
  nodeFloor := fun _ => 0
  getTriangle := fun _ _ => none
  findNearestPathNode := fun _ _ _ => none
  search := fun _ _ _ _ => none
  funnel := fun _ _ _ => []
  findNearestPoly := fun _ _ => none
  findPolyPath := fun _ _ _ _ _ => (false, [])
  closestPointOnPoly := fun _ _ p => p
  findStraightPath := fun _ _ _ _ => []
  findNearestPolySpawn := fun _ _ => none
  findRandomPointAroundCircle := fun _ _ _ _ _ => none
  raycast := fun _ _ _ _ => false

/-- A zone without navigation mesh regions, flat at height 0. -/
def emptyZone : Zone where
  getInRangeNavMeshes := fun _ _ _ => []
  getHeightNoCache := fun _ _ => Flt.fin 0

/-- The world point `(x, y, z)` with finite coordinates, outside every cell. -/
def worldPoint (x y z : ℚ) : WorldCoordinates := ⟨⟨Flt.fin x, Flt.fin y, Flt.fin z⟩, none⟩

/-- The point `(x, y, z)` with finite coordinates, local to the cell `c`. -/
def cellPoint (x y z : ℚ) (c : CellRef) : WorldCoordinates :=
  ⟨⟨Flt.fin x, Flt.fin y, Flt.fin z⟩, some c⟩

/-- A world of buildings that share one template: the cell `c` is the cell number `c % 10`
of the building `c / 10`; the layout has a floor mesh `n` for every cell number `n`, with a
path graph, and every floor is cut in two triangles, `0` for `x < 5` and `1` beyond. -/
def houseEnv : Env :=
  { emptyEnv with
    cellNumber := fun c => ((c % 10 : Nat) : Int)
    cellParent := fun c => some (c / 10)
    objectTemplate := fun _ => some 0
    portalLayout := fun _ => some 0
    floorMesh := fun _ n => some n.toNat
    floorCellID := fun f => (f : Int)
    pathGraph := fun f => some f
    getTriangle := fun p _ => if Flt.lt p.x (Flt.fin 5) then some 0 else some 1 }

/-- A loaded navigation mesh. -/
def meadowMesh : RecastNavMesh := ⟨1, true, true⟩

/-- A region of radius 2 around the world origin, with mesh bounds centred at the origin and
of longest extent `80 / 39` (so that the collision radius is `80 / 39 * 0.975 = 2`). -/
def meadow : NavMeshRegion :=
  { id := 1
    boundsCenter := ⟨Flt.fin 0, Flt.fin 0, Flt.fin 0⟩
    longestExtent := Flt.fin (80 / 39)
    position := ⟨Flt.fin 0, Flt.fin 0, Flt.fin 0⟩
    radius := Flt.fin 2
    navMesh := some meadowMesh }

/-- A zone whose only region is `meadow`, with terrain at height 1. -/
def meadowZone : Zone where
  getInRangeNavMeshes := fun _ _ _ => [meadow]
  getHeightNoCache := fun _ _ => Flt.fin 1

/-- A zone whose only region is `meadow`, with terrain at height 2. -/
def hillZone : Zone where
  getInRangeNavMeshes := fun _ _ _ => [meadow]
  getHeightNoCache := fun _ _ => Flt.fin 2

/-- A navigation mesh query for the spawn search: the nearest point of a position is the
position itself, the random point drawn around it is that same point, and the ray reaches
it. -/
def spawnEnv : Env :=
  { emptyEnv with
    findNearestPolySpawn := fun _ p => some (1, p)
    findRandomPointAroundCircle := fun _ _ c _ _ => some (1, c)
    raycast := fun _ _ _ _ => true }

/-- The navigation mesh query of `spawnEnv` whose random point is always
`(15410857 / 16777216, 0, 0)`, a `float` (24 significant bits over `2 ^ 24`). -/
def edgeEnv : Env :=
  { spawnEnv with
    findRandomPointAroundCircle := fun _ _ _ _ _ =>
      some (1, ⟨Flt.fin (15410857 / 16777216), Flt.fin 0, Flt.fin 0⟩) }

/-- A navigation mesh made of one flat polygon at height 1 (the second Detour coordinate):
the nearest point of a position is the position put at that height, every polygon path is
the single polygon, and the straight path joins the two nearest points. -/
def meadowEnv : Env :=
  { emptyEnv with
    findNearestPoly := fun _ p => some (1, ⟨p.x, Flt.fin 1, p.z⟩)
    findPolyPath := fun _ _ _ _ _ => (true, [1])
    findStraightPath := fun _ s e _ => [s, e] }

/-- A region of radius 10 around the world origin, with mesh bounds centred at the origin
and of longest extent `400 / 39` (collision radius `400 / 39 * 0.975 = 10`), carrying the
loaded mesh. -/
def plain : NavMeshRegion :=
  { id := 2
    boundsCenter := ⟨Flt.fin 0, Flt.fin 0, Flt.fin 0⟩
    longestExtent := Flt.fin (400 / 39)
    position := ⟨Flt.fin 0, Flt.fin 0, Flt.fin 0⟩
    radius := Flt.fin 10
    navMesh := some meadowMesh }

/-- A zone whose only region is `plain`, with terrain at height 1. -/
def plainZone : Zone where
  getInRangeNavMeshes := fun _ _ _ => [plain]
  getHeightNoCache := fun _ _ => Flt.fin 1

/-- The world `houseEnv` with a portal graph: the node `n` lies on the floor `n` at
`(n, 0, 0)`, the building `b` has the cell `10 b + n` for the cell number `n`, the nearest
node of the exterior is node 0, the nearest path node inside a floor is node 1, and the
portal router answers `route` to every query. -/
def portalEnv (route : Option (List NodeRef)) : Env :=
  { houseEnv with
    buildingCell := fun b n => some (b * 10 + n.toNat)
    findNearestNode := fun _ _ => some 0
    findNearestGlobalNode := fun _ _ => some 0
    findNearestPathNode := fun _ _ _ => some 1
    layoutPath := fun _ _ _ => route
    nodePosition := fun n => ⟨Flt.fin n, Flt.fin 0, Flt.fin 0⟩
    nodeFloor := fun n => n }

/-- The world `portalEnv` whose portal layout has the exterior floor only: there is no floor
mesh for the cell numbers other than 0. -/
def noFloorEnv : Env :=
  { portalEnv (some [0, 1]) with
    floorMesh := fun _ n => if n = 0 then some 0 else none }

/-- The world `houseEnv` in which no point lies in a triangle of any floor. -/
def offFloorEnv : Env :=
  { houseEnv with getTriangle := fun _ _ => none }

/-- The navigation mesh of `meadowEnv` on which the polygon search stops at polygon 2,
short of the goal polygon 1, reporting `found`; the closest point on a polygon to a position
is the position put at height 1 and moved back to `x = 0`. -/
def detourEnv (found : Bool) : Env :=
  { meadowEnv with
    findPolyPath := fun _ _ _ _ _ => (found, [2])
    closestPointOnPoly := fun _ _ p => ⟨Flt.fin 0, Flt.fin 1, p.z⟩ }

/-- A world whose funnel answers the four points `start, (1, 0, 0), (2, 0, 0), goal`. -/
def funnelEnv : Env :=
  { emptyEnv with
    funnel := fun s g _ =>
      [s, ⟨Flt.fin 1, Flt.fin 0, Flt.fin 0⟩, ⟨Flt.fin 2, Flt.fin 0, Flt.fin 0⟩, g] }

/-- The world `portalEnv` with the route `[0, 1]` in which the triangle search between two
triangles finds the corridor `[0, 1]` and the funnel answers the three points
`start, (3, 0, 0), goal`. -/
def corridorEnv : Env :=
  { portalEnv (some [0, 1]) with
    search := fun _ _ _ _ => some [0, 1]
    funnel := fun s g _ => [s, ⟨Flt.fin 3, Flt.fin 0, Flt.fin 0⟩, g] }

/-- Exact comparison of points and coordinates, and a segment whose closest point to any
position is its start. -/
def exactGeometry : SceneGeometry where
  coordinatesEqual := fun a b => decide (a = b)
  vectorEqual := fun a b => decide (a = b)
  closestPointTo := fun start _ _ => start

/-! ## Properties of calls -/

@[simp] theorem pure_out {α : Type} (a : α) : (pure a : M α).out = Outcome.returned a := rfl

@[simp] theorem pure_log {α : Type} (a : α) : (pure a : M α).log = [] := rfl

@[simp] theorem ask_bind {α β : Type} (q : Query) (v : α) (f : α → M β) :
    (ask q v >>= f) = ⟨(f v).out, q :: (f v).log⟩ := rfl

@[simp] theorem pure_bind_M {α β : Type} (a : α) (f : α → M β) : (pure a >>= f) = f a := rfl

@[simp] theorem fault_bind {α β : Type} (f : α → M β) : ((fault : M α) >>= f) = fault := rfl

@[simp] theorem fault_out {α : Type} : (fault : M α).out = Outcome.fault := rfl

/-! ## Input validation (C1, C2) -/

/-- A NaN coordinate on the start ends `findPath` at its first test. -/
theorem findPath_start_nan (env : Env) (zone : Option Zone) (a b : WorldCoordinates)
    (h : hasNaN a = true) : findPath env zone a b = ⟨Outcome.returned none, []⟩ := by
  simp [findPath, h]
  rfl

/-- A NaN coordinate on the goal ends `findPath` at its second test at the latest. -/
theorem findPath_goal_nan (env : Env) (zone : Option Zone) (a b : WorldCoordinates)
    (h : hasNaN b = true) : findPath env zone a b = ⟨Outcome.returned none, []⟩ := by
  unfold findPath
  by_cases ha : hasNaN a = true
  · simp [ha]; rfl
  · simp [ha, h]; rfl

/-- The six coordinates of a pair of endpoints contain a NaN. -/
theorem hasNaN_iff (c : WorldCoordinates) :
    hasNaN c = true ↔ c.point.x = Flt.nan ∨ c.point.y = Flt.nan ∨ c.point.z = Flt.nan := by
  have key : ∀ f : Flt, f.isnan = true ↔ f = Flt.nan := by
    intro f; cases f <;> simp [Flt.isnan]
  simp [hasNaN, key, or_assoc]

/-- C1: when one of the six coordinates of the endpoints is NaN, `findPath` returns `NULL`
and its query log is empty: no zone, cell, template, floor, portal or navmesh lookup was
made, whatever the cells of the endpoints, the zone and the collaborators are. -/
theorem findPath_nan_fails_without_query (env : Env) (zone : Option Zone)
    (a b : WorldCoordinates)
    (h : a.point.x = Flt.nan ∨ a.point.y = Flt.nan ∨ a.point.z = Flt.nan ∨
      b.point.x = Flt.nan ∨ b.point.y = Flt.nan ∨ b.point.z = Flt.nan) :
    (findPath env zone a b).out = Outcome.returned none ∧ (findPath env zone a b).log = [] := by
  have hab : hasNaN a = true ∨ hasNaN b = true := by
    rw [hasNaN_iff, hasNaN_iff]; tauto
  rcases hab with ha | hb
  · rw [findPath_start_nan env zone a b ha]; exact ⟨rfl, rfl⟩
  · rw [findPath_goal_nan env zone a b hb]; exact ⟨rfl, rfl⟩

/-- Witness of C1: a NaN `x` on the start, whose cell is set, in the empty world. -/
theorem findPath_nan_fails_without_query_witness :
    ((⟨⟨Flt.nan, Flt.fin 0, Flt.fin 0⟩, some 7⟩ : WorldCoordinates).point.x = Flt.nan) ∧
    (findPath emptyEnv none ⟨⟨Flt.nan, Flt.fin 0, Flt.fin 0⟩, some 7⟩ (worldPoint 1 2 3)).out
      = Outcome.returned none ∧
    (findPath emptyEnv none ⟨⟨Flt.nan, Flt.fin 0, Flt.fin 0⟩, some 7⟩ (worldPoint 1 2 3)).log
      = [] :=
  ⟨rfl, findPath_nan_fails_without_query emptyEnv none
    ⟨⟨Flt.nan, Flt.fin 0, Flt.fin 0⟩, some 7⟩ (worldPoint 1 2 3) (Or.inl rfl)⟩

/-! ## The outdoor search always returns -/

/-- The outcome of a sequence that returns. -/
theorem bind_out {α β : Type} (m : M α) (f : α → M β) (a : α)
    (h : m.out = Outcome.returned a) : (m >>= f).out = (f a).out := by
  show (M.bind m f).out = (f a).out
  unfold M.bind
  rw [h]

/-- A sequence that returns: its first call returned, and so did the rest. -/
theorem bind_returned {α β : Type} {m : M α} {f : α → M β} {b : β}
    (h : (m >>= f).out = Outcome.returned b) :
    ∃ a, m.out = Outcome.returned a ∧ (f a).out = Outcome.returned b := by
  cases hm : m.out with
  | fault =>
    have hf : (m >>= f).out = Outcome.fault := by
      show (M.bind m f).out = _
      unfold M.bind
      rw [hm]
    rw [hf] at h
    cases h
  | returned a =>
    rw [bind_out m f a hm] at h
    exact ⟨a, rfl, h⟩

/-- The waypoints are appended to the path. -/
theorem addPathPoints_fst (pts : List Vector3) (path : Path) (len : Flt) :
    (addPathPoints pts path len).1 =
      path ++ pts.map (fun p => (⟨⟨p.x, -p.z, p.y⟩, none⟩ : WorldCoordinates)) := by
  induction pts generalizing path len with
  | nil => simp [addPathPoints]
  | cons p ps ih => simp [addPathPoints, ih]

/-- The second half of a leg returns, and a successful one extends the path. -/
theorem stringPath_returns (env : Env) (mesh : RecastNavMesh) (target polyStart polyEnd : Vector3)
    (endPoly : PolyRef) (corridor : List PolyRef) (path : Path) (len : Flt) (allowPartial : Bool) :
    ∃ r, (stringPath env mesh target polyStart polyEnd endPoly corridor path len
        allowPartial).out = Outcome.returned r ∧
      ∀ p l, r = some (p, l) → ∃ ext, p = path ++ ext := by
  unfold stringPath
  split
  · exact ⟨_, rfl, fun p l h => ⟨[], by simp at h; simp [h.1]⟩⟩
  · split
    · split
      · refine ⟨_, rfl, fun p l h => ?_⟩
        simp only [Option.some.injEq] at h
        have hp := congrArg Prod.fst h
        rw [addPathPoints_fst] at hp
        exact ⟨_, hp.symm⟩
      · exact ⟨none, rfl, fun p l h => by simp at h⟩
    · refine ⟨_, rfl, fun p l h => ?_⟩
      simp only [Option.some.injEq] at h
      have hp := congrArg Prod.fst h
      rw [addPathPoints_fst] at hp
      exact ⟨_, hp.symm⟩

/-- One leg returns (it never faults), and a successful leg extends the path it was given. -/
theorem getRecastPath_returns (env : Env) (start end_ : Vector3) (region : NavMeshRegion)
    (path : Path) (len : Flt) (allowPartial : Bool) :
    ∃ r, (getRecastPath env start end_ region path len allowPartial).out = Outcome.returned r ∧
      ∀ p l, r = some (p, l) → ∃ ext, p = path ++ ext := by
  unfold getRecastPath
  simp only [ask_bind]
  split
  · exact ⟨none, rfl, fun p l h => by simp at h⟩
  · split
    · exact ⟨none, rfl, fun p l h => by simp at h⟩
    · split
      · simp only [ask_bind]
        split
        · exact ⟨none, rfl, fun p l h => by simp at h⟩
        · simp only [ask_bind]
          split
          · exact ⟨none, rfl, fun p l h => by simp at h⟩
          · simp only [ask_bind]
            split
            · exact ⟨none, rfl, fun p l h => by simp at h⟩
            · exact stringPath_returns _ _ _ _ _ _ _ _ _ _
      · exact ⟨_, rfl, fun p l h => ⟨[], by simp at h; simp [h.1]⟩⟩

/-- The loop over the regions returns. -/
theorem insideNavMesh_returns (env : Env) (startTemp targetTemp : Vector3) (allowPartial : Bool)
    (regions : List NavMeshRegion) (path : Path) (len : Flt) (finalpath : Path)
    (finalLengthSq : Flt) :
    ∃ best, (insideNavMesh env startTemp targetTemp allowPartial regions path len finalpath
      finalLengthSq).out = Outcome.returned best := by
  induction regions generalizing path len finalpath finalLengthSq with
  | nil => exact ⟨_, rfl⟩
  | cons region rest ih =>
    obtain ⟨r, hr, -⟩ := getRecastPath_returns env startTemp targetTemp region path len
      allowPartial
    unfold insideNavMesh
    rw [bind_out _ _ r hr]
    cases r with
    | none => exact ih _ _ _ _
    | some pl =>
      obtain ⟨p, l⟩ := pl
      dsimp only
      split
      · exact ih _ _ _ _
      · exact ih _ _ _ _

/-- The world position of a point returns. -/
theorem getWorldPosition_returns (env : Env) (c : WorldCoordinates) :
    ∃ v, (getWorldPosition env c).out = Outcome.returned v := by
  unfold getWorldPosition
  split
  · exact ⟨_, rfl⟩
  · exact ⟨_, rfl⟩

/-- The world position of a point outside every cell is the point, without query. -/
theorem getWorldPosition_world (env : Env) (c : WorldCoordinates) (h : c.cell = none) :
    getWorldPosition env c = pure c.point := by
  unfold getWorldPosition
  rw [h]

/-- The step for one goal returns when the zone is present. -/
theorem goalStep_returns (env : Env) (z : Zone) (pointA : WorldCoordinates) (allowPartial : Bool)
    (pointB : WorldCoordinates) (finalpath : Path) (finalLengthSq : Flt) :
    ∃ best, (goalStep env (some z) pointA allowPartial pointB finalpath finalLengthSq).out
      = Outcome.returned best := by
  obtain ⟨sW, hsW⟩ := getWorldPosition_returns env pointA
  obtain ⟨eW, heW⟩ := getWorldPosition_returns env pointB
  unfold goalStep
  simp only [ask_bind]
  rw [bind_out _ _ sW hsW, bind_out _ _ eW heW]
  split
  · rename_i collision _
    obtain ⟨r, hr, -⟩ := getRecastPath_returns env
      (Vector3.setZ collision.position
        (z.getHeightNoCache collision.position.x collision.position.y))
      pointB.point collision.region [pointA] (Flt.fin 0) allowPartial
    simp only [ask_bind]
    rw [bind_out _ _ r hr]
    cases r with
    | none => exact ⟨_, rfl⟩
    | some pl =>
      obtain ⟨p, l⟩ := pl
      dsimp only
      split
      · exact ⟨_, rfl⟩
      · exact ⟨_, rfl⟩
  · exact insideNavMesh_returns _ _ _ _ _ _ _ _ _

/-- The loop over the goals returns when the zone is present. -/
theorem goalLoop_returns (env : Env) (z : Zone) (pointA : WorldCoordinates) (allowPartial : Bool)
    (goals : List WorldCoordinates) (finalpath : Path) (finalLengthSq : Flt) :
    ∃ best, (goalLoop env (some z) pointA allowPartial goals finalpath finalLengthSq).out
      = Outcome.returned best := by
  induction goals generalizing finalpath finalLengthSq with
  | nil => exact ⟨_, rfl⟩
  | cons g gs ih =>
    obtain ⟨b, hb⟩ := goalStep_returns env z pointA allowPartial g finalpath finalLengthSq
    unfold goalLoop
    rw [bind_out _ _ b hb]
    exact ih _ _

/-- The result of `findPathFromWorldToWorld` in terms of the candidate kept by the loop. -/
theorem findPathFromWorldToWorld_of_best (env : Env) (zone : Option Zone)
    (pointA g : WorldCoordinates) (gs : List WorldCoordinates) (allowPartial : Bool)
    (best : Path × Flt)
    (h : (goalLoop env zone pointA allowPartial (g :: gs) [] Flt.FLT_MAX).out
      = Outcome.returned best) :
    (findPathFromWorldToWorld env zone pointA (g :: gs) allowPartial).out
      = Outcome.returned (some (if best.1.length < 2 then [pointA, g] else best.1)) := by
  unfold findPathFromWorldToWorld
  rw [bind_out _ _ best h]
  by_cases hlen : best.1.length < 2
  · simp only [hlen, if_true, List.head?_cons]; rfl
  · simp only [hlen, if_false]; rfl

/-! ## The two-point fallback (C4) -/

/-- C4: with a zone and a non-empty goal list `g :: gs`, `findPathFromWorldToWorld` returns
a path (it neither faults nor returns `NULL`): the loop over the goals keeps a candidate
`best`; when that candidate has fewer than two points (in particular when it is still the
empty initial one) the result is exactly `[pointA, g]`, otherwise it is the kept candidate;
in both cases the returned path has at least two points. Without a zone the call faults at
`zone->getInRangeNavMeshes` and returns nothing. -/
theorem findPathFromWorldToWorld_two_points (env : Env) (z : Zone)
    (pointA g : WorldCoordinates) (gs : List WorldCoordinates) (allowPartial : Bool) :
    ∃ best : Path × Flt,
      (goalLoop env (some z) pointA allowPartial (g :: gs) [] Flt.FLT_MAX).out
        = Outcome.returned best ∧
      (findPathFromWorldToWorld env (some z) pointA (g :: gs) allowPartial).out
        = Outcome.returned (some (if best.1.length < 2 then [pointA, g] else best.1)) ∧
      2 ≤ (if best.1.length < 2 then [pointA, g] else best.1).length ∧
      (findPathFromWorldToWorld env none pointA (g :: gs) allowPartial).out = Outcome.fault := by
  obtain ⟨best, hbest⟩ := goalLoop_returns env z pointA allowPartial (g :: gs) [] Flt.FLT_MAX
  refine ⟨best, hbest, findPathFromWorldToWorld_of_best env (some z) pointA g gs allowPartial
    best hbest, ?_, rfl⟩
  by_cases hlen : best.1.length < 2
  · simp [hlen]
  · simp only [hlen, if_false]; omega

/-! ## Infinite coordinates are not rejected (C2) -/

/-- Counterexample to C2: the start `(+inf, 0, 0)` has an infinite coordinate and no NaN;
in a zone without regions `findPath` does not fail: it asks the region index and returns the
two-point path from the start to the goal. -/
theorem findPath_infinite_start_returns_path :
    (findPath emptyEnv (some emptyZone) ⟨⟨Flt.pinf, Flt.fin 0, Flt.fin 0⟩, none⟩
        (worldPoint 0 0 0)).out
      = Outcome.returned
          (some [⟨⟨Flt.pinf, Flt.fin 0, Flt.fin 0⟩, none⟩, worldPoint 0 0 0]) ∧
    (findPath emptyEnv (some emptyZone) ⟨⟨Flt.pinf, Flt.fin 0, Flt.fin 0⟩, none⟩
        (worldPoint 0 0 0)).log = [Query.regionIndex] :=
  ⟨rfl, rfl⟩

/-- C2 (amended): an endpoint with a NaN coordinate makes `findPath` return `NULL` with no
query made; endpoints without NaN, infinite coordinates included, pass the validation and
the call is the regime function selected by the cells of the endpoints. -/
theorem findPath_rejects_nan_only (env : Env) (zone : Option Zone) (a b : WorldCoordinates) :
    (hasNaN a = true ∨ hasNaN b = true →
      (findPath env zone a b).out = Outcome.returned none ∧ (findPath env zone a b).log = []) ∧
    (hasNaN a = false → hasNaN b = false →
      findPath env zone a b =
        match a.cell, b.cell with
        | none, none => findPathFromWorldToWorld1 env zone a b
        | some _, none => findPathFromCellToWorld env zone a b
        | none, some _ => findPathFromWorldToCell env a b
        | some _, some _ => findPathFromCellToCell env a b) := by
  constructor
  · rintro (ha | hb)
    · rw [findPath_start_nan env zone a b ha]; exact ⟨rfl, rfl⟩
    · rw [findPath_goal_nan env zone a b hb]; exact ⟨rfl, rfl⟩
  · intro ha hb
    simp [findPath, ha, hb]

/-- Witness of C2 (amended): the start `(+inf, 0, 0)` passes the validation. -/
theorem findPath_rejects_nan_only_witness :
    hasNaN ⟨⟨Flt.pinf, Flt.fin 0, Flt.fin 0⟩, none⟩ = false ∧
    hasNaN (worldPoint 0 0 0) = false ∧
    findPath emptyEnv (some emptyZone) ⟨⟨Flt.pinf, Flt.fin 0, Flt.fin 0⟩, none⟩
        (worldPoint 0 0 0)
      = findPathFromWorldToWorld1 emptyEnv (some emptyZone)
          ⟨⟨Flt.pinf, Flt.fin 0, Flt.fin 0⟩, none⟩ (worldPoint 0 0 0) :=
  ⟨rfl, rfl, (findPath_rejects_nan_only emptyEnv (some emptyZone)
    ⟨⟨Flt.pinf, Flt.fin 0, Flt.fin 0⟩, none⟩ (worldPoint 0 0 0)).2 rfl rfl⟩

/-! ## Same triangle (C5) and two buildings (C6) -/

/-- C5: when the two endpoints (without NaN) carry the same cell `c`, the floor mesh `f` of
that cell exists (building, template, portal layout present) and `getTriangle` resolves both
points to the same triangle `t` of `f`, `findPath` returns exactly `[a, b]`; the queries made
are the structural lookups and the two triangle lookups: no A* search, no funnel and no
portal-graph query. -/
theorem findPath_same_triangle (env : Env) (zone : Option Zone) (a b : WorldCoordinates)
    (c : CellRef) (building : BuildingRef) (tmpl : TemplateRef) (layout : LayoutRef)
    (f : FloorRef) (t : TriRef)
    (ha : hasNaN a = false) (hb : hasNaN b = false)
    (hca : a.cell = some c) (hcb : b.cell = some c)
    (hparent : env.cellParent c = some building)
    (htmpl : env.objectTemplate building = some tmpl)
    (hlayout : env.portalLayout tmpl = some layout)
    (hfloor : env.floorMesh layout (env.cellNumber c) = some f)
    (hta : env.getTriangle a.point f = some t) (htb : env.getTriangle b.point f = some t) :
    findPath env zone a b =
      ⟨Outcome.returned (some [a, b]),
        [Query.cellNumber, Query.cellParent, Query.objectTemplate, Query.portalLayout,
          Query.floorMesh, Query.pathGraph, Query.triangle, Query.triangle]⟩ := by
  simp only [findPath, ha, hb, hca, hcb, findPathFromCellToCell, ne_eq, not_true_eq_false,
    if_false, ask_bind, hparent, htmpl, hlayout, hfloor, getFloorPath, hta, htb, if_true,
    Bool.false_eq_true]
  rfl

/-- Witness of C5: two points of the triangle `x < 5` of cell 11 (building 1). -/
theorem findPath_same_triangle_witness :
    findPath houseEnv none (cellPoint 1 1 0 11) (cellPoint 2 3 0 11) =
      ⟨Outcome.returned (some [cellPoint 1 1 0 11, cellPoint 2 3 0 11]),
        [Query.cellNumber, Query.cellParent, Query.objectTemplate, Query.portalLayout,
          Query.floorMesh, Query.pathGraph, Query.triangle, Query.triangle]⟩ :=
  findPath_same_triangle houseEnv none (cellPoint 1 1 0 11) (cellPoint 2 3 0 11) 11 1 0 0 1 0
    rfl rfl rfl rfl rfl rfl rfl rfl (by decide) (by decide)

/-- C6: when both endpoints carry a cell and the two cells belong to two different
buildings, `findPath` returns `NULL`, and every query it made reads a cell number or a cell
parent: nothing was asked of a template, a floor mesh, a triangle or the portal graph. -/
theorem findPath_two_buildings_fails (env : Env) (zone : Option Zone) (a b : WorldCoordinates)
    (c1 c2 : CellRef) (b1 b2 : BuildingRef)
    (hca : a.cell = some c1) (hcb : b.cell = some c2)
    (hp1 : env.cellParent c1 = some b1) (hp2 : env.cellParent c2 = some b2)
    (hne : b1 ≠ b2) :
    (findPath env zone a b).out = Outcome.returned none ∧
      ∀ q ∈ (findPath env zone a b).log, q = Query.cellNumber ∨ q = Query.cellParent := by
  have hcell : c1 ≠ c2 := by
    rintro rfl
    rw [hp1] at hp2
    exact hne (Option.some.inj hp2)
  by_cases ha : hasNaN a = true
  · rw [findPath_start_nan env zone a b ha]; simp
  by_cases hb : hasNaN b = true
  · rw [findPath_goal_nan env zone a b hb]; simp
  have hrun : findPath env zone a b =
      ⟨Outcome.returned none,
        [Query.cellNumber, Query.cellNumber, Query.cellParent, Query.cellParent]⟩ := by
    simp only [findPath, ha, hb, hca, hcb, findPathFromCellToCell, ne_eq, Option.some.injEq,
      hcell, not_false_eq_true, if_true, findPathFromCellToDifferentCell, ask_bind, hp1, hp2,
      hne, if_false, Bool.false_eq_true]
    rfl
  rw [hrun]
  simp

/-- Witness of C6: cell 11 of building 1 and cell 22 of building 2. -/
theorem findPath_two_buildings_fails_witness :
    (findPath houseEnv none (cellPoint 1 1 0 11) (cellPoint 2 3 0 22)).out
        = Outcome.returned none ∧
      ∀ q ∈ (findPath houseEnv none (cellPoint 1 1 0 11) (cellPoint 2 3 0 22)).log,
        q = Query.cellNumber ∨ q = Query.cellParent :=
  findPath_two_buildings_fails houseEnv none (cellPoint 1 1 0 11) (cellPoint 2 3 0 22) 11 22 1 2
    rfl rfl rfl rfl (by decide)

/-! ## The collision list is sorted by distance (C7) -/

/-- A value that compares greater than another is not NaN. -/
theorem Flt.isnan_of_lt {a b : Flt} (h : Flt.lt a b = true) : b.isnan = false := by
  cases a <;> cases b <;> simp_all [Flt.lt, Flt.isnan]

/-- `a < b` gives `a <= b`. -/
theorem Flt.le_of_lt_true {a b : Flt} (h : Flt.lt a b = true) : Flt.le a b = true := by
  cases a <;> cases b <;> simp_all [Flt.lt, Flt.le]
  exact h.le

/-- Away from NaN the order is total: when `a < b` fails, `b <= a` holds. -/
theorem Flt.le_of_lt_false {a b : Flt} (ha : a.isnan = false) (hb : b.isnan = false)
    (h : Flt.lt a b = false) : Flt.le b a = true := by
  cases a <;> cases b <;> simp_all [Flt.lt, Flt.le, Flt.isnan]

/-- The comparison `<=` is transitive. -/
theorem Flt.le_trans_true {a b c : Flt} (hab : Flt.le a b = true) (hbc : Flt.le b c = true) :
    Flt.le a c = true := by
  cases a <;> cases b <;> cases c <;> simp_all [Flt.le]
  exact hab.trans hbc

/-- The collisions of a list after `put`: the new one and the old ones. -/
theorem mem_put (c x : NavCollision) (l : List NavCollision) :
    x ∈ put c l ↔ x = c ∨ x ∈ l := by
  induction l with
  | nil => simp [put]
  | cons d ds ih =>
    unfold put
    split
    · simp
    · simp only [List.mem_cons, ih]
      tauto

/-- The method `put` keeps the list sorted when the new distance is not NaN. -/
theorem put_sorted (c : NavCollision) (l : List NavCollision) (hc : c.distance.isnan = false)
    (hl : SortedByDistance l) : SortedByDistance (put c l) := by
  induction l with
  | nil =>
    refine ⟨by simp [put], fun x hx => ?_⟩
    simp only [put, List.mem_singleton] at hx
    rw [hx]; exact hc
  | cons d ds ih =>
    obtain ⟨hsorted, hnan⟩ := hl
    have hd : d.distance.isnan = false := hnan d (List.mem_cons_self _ _)
    have htail : SortedByDistance ds :=
      ⟨(List.pairwise_cons.mp hsorted).2, fun x hx => hnan x (List.mem_cons_of_mem _ hx)⟩
    have hdle : ∀ e ∈ ds, Flt.le d.distance e.distance = true :=
      (List.pairwise_cons.mp hsorted).1
    constructor
    · unfold put
      split
      · rename_i hlt
        refine List.pairwise_cons.mpr ⟨fun e he => ?_, hsorted⟩
        rcases List.mem_cons.mp he with rfl | he
        · exact Flt.le_of_lt_true hlt
        · exact Flt.le_trans_true (Flt.le_of_lt_true hlt) (hdle e he)
      · rename_i hlt
        refine List.pairwise_cons.mpr ⟨fun e he => ?_, (ih htail).1⟩
        rcases (mem_put c e ds).mp he with rfl | he
        · exact Flt.le_of_lt_false hc hd (by simpa using hlt)
        · exact hdle e he
    · intro x hx
      rcases (mem_put c x (d :: ds)).mp hx with rfl | hx
      · exact hc
      · exact hnan x hx

/-- A guarded `put` keeps the list sorted when the guard excludes a NaN distance. -/
theorem putCrossing_sorted (guard : Bool) (start dir : Vector3) (t : Flt)
    (region : NavMeshRegion) (collisions : List NavCollision)
    (ht : guard = true → t.isnan = false) (h : SortedByDistance collisions) :
    SortedByDistance (putCrossing guard start dir t region collisions) := by
  unfold putCrossing
  split
  · rename_i hg
    exact put_sorted _ _ (ht hg) h
  · exact h

/-- The collisions of one region keep the list sorted. -/
theorem regionCollisions_sorted (r : ℚ → ℚ) (start dir : Vector3) (maxT : Flt)
    (collisions : List NavCollision) (region : NavMeshRegion)
    (h : SortedByDistance collisions) :
    SortedByDistance (regionCollisions r start dir maxT collisions region) := by
  unfold regionCollisions
  dsimp only
  split
  · exact h
  · split
    · exact h
    · apply putCrossing_sorted
      · intro hg
        simp only [Bool.and_eq_true] at hg
        exact Flt.isnan_of_lt hg.1
      · apply putCrossing_sorted
        · intro hg
          simp only [Bool.and_eq_true] at hg
          exact Flt.isnan_of_lt hg.1.2
        · exact h

/-- The collisions of the regions keep the list sorted. -/
theorem foldl_regionCollisions_sorted (r : ℚ → ℚ) (start dir : Vector3) (maxT : Flt)
    (regions : List NavMeshRegion) (collisions : List NavCollision)
    (h : SortedByDistance collisions) :
    SortedByDistance (regions.foldl (regionCollisions r start dir maxT) collisions) := by
  induction regions generalizing collisions with
  | nil => exact h
  | cons region rest ih => exact ih _ (regionCollisions_sorted r start dir maxT _ region h)

/-- C7: for every segment and every list of candidate regions, the collision list filled
by `getNavMeshCollisions` from the empty list (as `findPathFromWorldToWorld` does), read from
index 0 upwards, is sorted by non-decreasing distance: for `i < j` the distance of
`collisions[i]` is `<=` that of `collisions[j]`. The order kept by `put` is the one the spec
gives to `NavCollision`. -/
theorem getNavMeshCollisions_sorted (r : ℚ → ℚ) (regions : List NavMeshRegion)
    (start end_ : Vector3) :
    (getNavMeshCollisions r [] regions start end_).Pairwise
      (fun c d => Flt.le c.distance d.distance = true) := by
  unfold getNavMeshCollisions
  exact (foldl_regionCollisions_sorted r start _ _ regions []
    ⟨List.Pairwise.nil, fun c hc => by simp at hc⟩).1

/-! ## The transform to model space (C8) -/

@[simp] theorem Flt.fin_add (a b : ℚ) : Flt.fin a + Flt.fin b = Flt.fin (a + b) := rfl

@[simp] theorem Flt.fin_mul (a b : ℚ) : Flt.fin a * Flt.fin b = Flt.fin (a * b) := rfl

@[simp] theorem Flt.fin_neg (a : ℚ) : -Flt.fin a = Flt.fin (-a) := rfl

@[simp] theorem Flt.fin_sub (a b : ℚ) : Flt.fin a - Flt.fin b = Flt.fin (a - b) := by
  show Flt.fin (a + -b) = Flt.fin (a - b)
  rw [sub_eq_add_neg]

/-- The transform of a finite point for a building at a finite position: the point with
`y` and `z` exchanged, minus the position with `y` and `z` exchanged, then rotated by the
matrix of cosine `c` and sine `s` of the negated yaw. -/
theorem transformToModelSpace_finite (env : Env) (building : BuildingRef)
    (px py pz bx by_ bz c s : ℚ)
    (hpos : env.buildingPosition building = ⟨Flt.fin bx, Flt.fin by_, Flt.fin bz⟩)
    (hc : env.cosF (-(env.buildingRadians building)) = Flt.fin c)
    (hs : env.sinF (-(env.buildingRadians building)) = Flt.fin s) :
    transformToModelSpace env ⟨Flt.fin px, Flt.fin py, Flt.fin pz⟩ building =
      ⟨Flt.fin ((px - bx) * c + (py - by_) * s), Flt.fin (pz - bz),
        Flt.fin ((py - by_) * c - (px - bx) * s)⟩ := by
  simp only [transformToModelSpace, hpos, hc, hs, Matrix4.apply, Matrix4.mul,
    Matrix4.translation, Matrix4.rotation, Matrix4.identity, Flt.fin_add, Flt.fin_mul,
    Flt.fin_neg, Vector3.mk.injEq, Flt.fin.injEq]
  refine ⟨?_, ?_, ?_⟩ <;> ring

/-- C8: for a building at a finite world position `(bx, by, bz)` whose negated yaw has the
finite cosine `c` and sine `s`, `transformToModelSpace` sends the building's own position to
the origin `(0, 0, 0)`; and it sends every finite point `(px, py, pz)` to the point obtained
by exchanging `y` and `z`, subtracting the building position with the same exchange and then
rotating: `((px - bx) c + (py - by) s, pz - bz, (py - by) c - (px - bx) s)`. -/
theorem transformToModelSpace_own_position (env : Env) (building : BuildingRef)
    (bx by_ bz c s : ℚ)
    (hpos : env.buildingPosition building = ⟨Flt.fin bx, Flt.fin by_, Flt.fin bz⟩)
    (hc : env.cosF (-(env.buildingRadians building)) = Flt.fin c)
    (hs : env.sinF (-(env.buildingRadians building)) = Flt.fin s) :
    transformToModelSpace env (env.buildingPosition building) building
        = ⟨Flt.fin 0, Flt.fin 0, Flt.fin 0⟩ ∧
      ∀ px py pz : ℚ,
        transformToModelSpace env ⟨Flt.fin px, Flt.fin py, Flt.fin pz⟩ building =
          ⟨Flt.fin ((px - bx) * c + (py - by_) * s), Flt.fin (pz - bz),
            Flt.fin ((py - by_) * c - (px - bx) * s)⟩ := by
  refine ⟨?_, fun px py pz =>
    transformToModelSpace_finite env building px py pz bx by_ bz c s hpos hc hs⟩
  have h := transformToModelSpace_finite env building bx by_ bz bx by_ bz c s hpos hc hs
  rw [← hpos] at h
  rw [h]
  simp

/-- Witness of C8: a building at `(3, 4, 5)` with cosine `3 / 5` and sine `4 / 5`. -/
theorem transformToModelSpace_own_position_witness :
    transformToModelSpace (towerEnv emptyEnv) ((towerEnv emptyEnv).buildingPosition 1) 1
        = ⟨Flt.fin 0, Flt.fin 0, Flt.fin 0⟩ ∧
      ∀ px py pz : ℚ,
        transformToModelSpace (towerEnv emptyEnv) ⟨Flt.fin px, Flt.fin py, Flt.fin pz⟩ 1 =
          ⟨Flt.fin ((px - 3) * (3 / 5) + (py - 4) * (4 / 5)), Flt.fin (pz - 5),
            Flt.fin ((py - 4) * (3 / 5) - (px - 3) * (4 / 5))⟩ :=
  transformToModelSpace_own_position (towerEnv emptyEnv) 1 3 4 5 (3 / 5) (4 / 5) rfl rfl rfl

/-! ## The spawn point stays within the radius check (C9) -/

/-- A successful draw passed the radius check of the loop, and its height is the terrain
height at its horizontal position. -/
theorem spawnAttempts_checked (env : Env) (z : Zone) (mesh : RecastNavMesh) (startPoly : PolyRef)
    (polyStart center : Vector3) (radius : Flt) (attempts : List Nat) (point p : Vector3)
    (h : (spawnAttempts env z mesh startPoly polyStart center radius attempts point).out
      = Outcome.returned (true, p)) :
    Flt.gt
        (Flt.fadd (Flt.fmul (Flt.fsub p.x center.x) (Flt.fsub p.x center.x))
          (Flt.fmul (Flt.fsub p.y center.y) (Flt.fsub p.y center.y)))
        (Flt.fmul (Flt.fmul radius radius) (Flt.fin (3 / 2))) = false ∧
      p.z = z.getHeightNoCache p.x p.y := by
  induction attempts generalizing point with
  | nil =>
    simp [spawnAttempts] at h
  | cons i rest ih =>
    unfold spawnAttempts at h
    simp only [ask_bind] at h
    split at h
    · exact ih _ h
    · simp only [ask_bind] at h
      split at h
      · exact ih _ h
      · rename_i hcheck
        simp only [ask_bind] at h
        split at h
        · exact ih _ h
        · simp only [pure_out, Outcome.returned.injEq, Prod.mk.injEq, true_and] at h
          rw [← h]
          exact ⟨by simpa using hcheck, rfl⟩

/-- A successful search over the regions returns a point that passed the radius check. -/
theorem spawnRegions_checked (env : Env) (z : Zone) (center flipped : Vector3) (radius : Flt)
    (regions : List NavMeshRegion) (point p : Vector3)
    (h : (spawnRegions env z center flipped radius regions point).out
      = Outcome.returned (true, p)) :
    Flt.gt
        (Flt.fadd (Flt.fmul (Flt.fsub p.x center.x) (Flt.fsub p.x center.x))
          (Flt.fmul (Flt.fsub p.y center.y) (Flt.fsub p.y center.y)))
        (Flt.fmul (Flt.fmul radius radius) (Flt.fin (3 / 2))) = false ∧
      p.z = z.getHeightNoCache p.x p.y := by
  induction regions generalizing point with
  | nil =>
    simp [spawnRegions] at h
  | cons region rest ih =>
    unfold spawnRegions at h
    simp only [ask_bind] at h
    split at h
    · exact ih _ h
    · split at h
      · exact ih _ h
      · simp only [ask_bind] at h
        split at h
        · exact ih _ h
        · obtain ⟨tried, hout, h⟩ := bind_returned h
          split at h
          · simp only [pure_out, Outcome.returned.injEq] at h
            rw [h] at hout
            exact spawnAttempts_checked env z _ _ _ center radius _ point p hout
          · exact ih _ h

/-! ### The error of the rounded radius check -/

/-- The function `pow2` is the power of 2. -/
theorem pow2_eq_zpow (e : ℤ) : pow2 e = (2 : ℚ) ^ e := by
  unfold pow2
  split
  · rename_i h
    rw [Nat.cast_pow, Nat.cast_ofNat]
    conv_rhs => rw [← Int.toNat_of_nonneg h]
    rw [zpow_natCast]
  · rename_i h
    have h2 : 0 ≤ -e := by omega
    rw [Nat.cast_pow, Nat.cast_ofNat, one_div]
    have : e = -(((-e).toNat : ℤ)) := by rw [Int.toNat_of_nonneg h2]; ring
    conv_rhs => rw [this]
    rw [zpow_neg, zpow_natCast]

theorem pow2_pos (e : ℤ) : 0 < pow2 e := by
  rw [pow2_eq_zpow]
  positivity

/-- With enough fuel `log2Fuel` is the binary logarithm rounded down. -/
theorem log2Fuel_spec (fuel n : Nat) (hn : 0 < n) (hf : n ≤ fuel) :
    2 ^ log2Fuel fuel n ≤ n ∧ n < 2 ^ (log2Fuel fuel n + 1) := by
  induction fuel generalizing n with
  | zero => omega
  | succ fuel ih =>
    unfold log2Fuel
    split
    · rename_i h2
      have hpos : 0 < n / 2 := Nat.div_pos h2 (by decide)
      have hle : n / 2 ≤ fuel := by omega
      obtain ⟨h1, h3⟩ := ih (n / 2) hpos hle
      constructor
      · rw [pow_succ]
        omega
      · rw [pow_succ]
        omega
    · rename_i h2
      constructor
      · simp; omega
      · simp; omega

/-- The nearest integer is within one half. -/
theorem roundHalfEven_err (x : ℚ) : |(roundHalfEven x : ℚ) - x| ≤ 1 / 2 := by
  have h1 : ((Rat.floor x : ℤ) : ℚ) ≤ x := Int.floor_le x
  have h2 : x < ((Rat.floor x : ℤ) : ℚ) + 1 := Int.lt_floor_add_one x
  unfold roundHalfEven
  dsimp only
  split
  · rename_i h
    rw [abs_le]
    constructor <;> linarith
  · rename_i h
    split
    · rename_i h'
      rw [abs_le]
      push_cast
      constructor <;> linarith
    · rename_i h'
      have heq : x - ((Rat.floor x : ℤ) : ℚ) = 1 / 2 := le_antisymm (not_lt.1 h') (not_lt.1 h)
      split
      · rw [abs_le]
        constructor <;> linarith
      · rw [abs_le]
        push_cast
        constructor <;> linarith

theorem roundHalfEven_nonneg (x : ℚ) (hx : 0 ≤ x) : 0 ≤ roundHalfEven x := by
  have h0 : (0 : ℤ) ≤ Rat.floor x := Int.floor_nonneg.2 hx
  unfold roundHalfEven
  dsimp only
  split
  · exact h0
  · split
    · omega
    · split
      · exact h0
      · omega

/-- The power of 2 of the binary exponent is not above the value. -/
theorem binaryExponent_le (a : ℚ) (ha : 0 < a) : pow2 (binaryExponent a) ≤ a := by
  unfold binaryExponent
  dsimp only
  split
  · rename_i hlt
    have hnum : 0 < a.num := Rat.num_pos.2 ha
    have hN : 0 < a.num.natAbs := Int.natAbs_pos.2 (ne_of_gt hnum)
    have hD : 0 < a.den := a.den_pos
    obtain ⟨h1, -⟩ := log2Fuel_spec a.num.natAbs a.num.natAbs hN (le_refl _)
    obtain ⟨-, h2⟩ := log2Fuel_spec a.den a.den hD (le_refl _)
    rw [pow2_eq_zpow]
    have ha' : a = (a.num.natAbs : ℚ) / (a.den : ℚ) := by
      have hcast : ((a.num.natAbs : ℕ) : ℚ) = ((a.num : ℤ) : ℚ) := by
        rw [← Int.cast_natCast, Int.natAbs_of_nonneg (le_of_lt hnum)]
      rw [hcast]
      exact (Rat.num_div_den a).symm
    have e1 : ((log2Fuel a.num.natAbs a.num.natAbs : ℤ) - (log2Fuel a.den a.den : ℤ) - 1)
        = (log2Fuel a.num.natAbs a.num.natAbs : ℤ) - ((log2Fuel a.den a.den + 1 : ℕ) : ℤ) := by
      push_cast; ring
    rw [e1, zpow_sub₀ (by norm_num : (2 : ℚ) ≠ 0), zpow_natCast, zpow_natCast]
    have h1q : (2 : ℚ) ^ log2Fuel a.num.natAbs a.num.natAbs ≤ (a.num.natAbs : ℚ) := by
      exact_mod_cast h1
    have h2q : (a.den : ℚ) ≤ (2 : ℚ) ^ (log2Fuel a.den a.den + 1) := by
      exact_mod_cast le_of_lt h2
    have hDq : (0 : ℚ) < a.den := by exact_mod_cast hD
    calc (2 : ℚ) ^ log2Fuel a.num.natAbs a.num.natAbs / 2 ^ (log2Fuel a.den a.den + 1)
        ≤ (a.num.natAbs : ℚ) / 2 ^ (log2Fuel a.den a.den + 1) := by gcongr
      _ ≤ (a.num.natAbs : ℚ) / (a.den : ℚ) := by gcongr
      _ = a := ha'.symm
  · rename_i hlt
    exact not_lt.1 hlt

/-- The last step of a rounding: the mantissa `n` times the spacing `P`, with its sign, or
an infinity. -/
theorem round32_core (q P T : ℚ) (n : ℤ) (h0 : q ≠ 0) (hP : 0 < P)
    (hPle : P ≤ 1 / 2 ^ 23 * abs q + 1 / 2 ^ 149) (hn0 : 0 ≤ n)
    (herr : abs ((n : ℚ) - abs q / P) ≤ 1 / 2) :
    (∃ m, (if T ≤ (n : ℚ) * P then Flt.signedInf (decide (0 < q))
        else Flt.fin (if 0 < q then (n : ℚ) * P else -((n : ℚ) * P))) = Flt.fin m ∧
      abs (m - q) ≤ 1 / 2 ^ 24 * abs q + 1 / 2 ^ 150 ∧
      (0 ≤ q → 0 ≤ m) ∧ (q ≤ 0 → m ≤ 0)) ∨
    ((if T ≤ (n : ℚ) * P then Flt.signedInf (decide (0 < q))
        else Flt.fin (if 0 < q then (n : ℚ) * P else -((n : ℚ) * P))) = Flt.pinf ∧ 0 < q) ∨
    ((if T ≤ (n : ℚ) * P then Flt.signedInf (decide (0 < q))
        else Flt.fin (if 0 < q then (n : ℚ) * P else -((n : ℚ) * P))) = Flt.ninf ∧ q < 0) := by
  have hnq : (0 : ℚ) ≤ (n : ℚ) := by exact_mod_cast hn0
  have hm0 : (0 : ℚ) ≤ (n : ℚ) * P := by positivity
  have hma : abs ((n : ℚ) * P - abs q) ≤ P / 2 := by
    have e : (n : ℚ) * P - abs q = ((n : ℚ) - abs q / P) * P := by
      field_simp
    rw [e, abs_mul, abs_of_pos hP]
    calc abs ((n : ℚ) - abs q / P) * P ≤ 1 / 2 * P := by gcongr
      _ = P / 2 := by ring
  have hbound : abs ((n : ℚ) * P - abs q) ≤ 1 / 2 ^ 24 * abs q + 1 / 2 ^ 150 := by
    calc abs ((n : ℚ) * P - abs q) ≤ P / 2 := hma
      _ ≤ (1 / 2 ^ 23 * abs q + 1 / 2 ^ 149) / 2 := by gcongr
      _ = 1 / 2 ^ 24 * abs q + 1 / 2 ^ 150 := by ring
  by_cases hT : T ≤ (n : ℚ) * P
  · rw [if_pos hT]
    rcases lt_or_gt_of_ne h0 with hneg | hpos
    · refine Or.inr (Or.inr ⟨?_, hneg⟩)
      simp [Flt.signedInf, not_lt.2 (le_of_lt hneg)]
    · refine Or.inr (Or.inl ⟨?_, hpos⟩)
      simp [Flt.signedInf, hpos]
  · rw [if_neg hT]
    rcases lt_or_gt_of_ne h0 with hneg | hpos
    · refine Or.inl ⟨_, rfl, ?_, fun h => absurd hneg (not_lt.2 h), fun _ => ?_⟩
      · rw [if_neg (not_lt.2 (le_of_lt hneg))]
        have hq : abs q = -q := abs_of_neg hneg
        have e2 : -((n : ℚ) * P) - q = -((n : ℚ) * P - abs q) := by rw [hq]; ring
        rw [e2, abs_neg]
        exact hbound
      · rw [if_neg (not_lt.2 (le_of_lt hneg))]
        linarith
    · refine Or.inl ⟨_, rfl, ?_, fun _ => ?_, fun h => absurd hpos (not_lt.2 h)⟩
      · rw [if_pos hpos]
        have hq : abs q = q := abs_of_pos hpos
        have e2 : (n : ℚ) * P - q = (n : ℚ) * P - abs q := by rw [hq]
        rw [e2]
        exact hbound
      · rw [if_pos hpos]
        exact hm0

/-- The error of one rounding: a finite result is within `2 ^ -24` of the value, relatively,
or within `2 ^ -150`, and has the sign of the value; an infinite result has its sign. -/
theorem round32Q_err (q : ℚ) :
    (∃ m, round32Q q = Flt.fin m ∧ abs (m - q) ≤ 1 / 2 ^ 24 * abs q + 1 / 2 ^ 150 ∧
      (0 ≤ q → 0 ≤ m) ∧ (q ≤ 0 → m ≤ 0)) ∨
    (round32Q q = Flt.pinf ∧ 0 < q) ∨ (round32Q q = Flt.ninf ∧ q < 0) := by
  unfold round32Q
  split
  · rename_i h0
    subst h0
    exact Or.inl ⟨0, rfl, by norm_num, fun _ => le_refl _, fun _ => le_refl _⟩
  · rename_i h0
    have ha : 0 < abs q := abs_pos.2 h0
    dsimp only
    have hP : 0 < pow2 (max (binaryExponent (abs q) - 23) (-149)) := pow2_pos _
    have hPle : pow2 (max (binaryExponent (abs q) - 23) (-149))
        ≤ 1 / 2 ^ 23 * abs q + 1 / 2 ^ 149 := by
      rcases le_total (binaryExponent (abs q) - 23) (-149) with hk | hk
      · rw [max_eq_right hk, pow2_eq_zpow]
        have : (2 : ℚ) ^ (-149 : ℤ) = 1 / 2 ^ 149 := by
          rw [zpow_neg, one_div]; norm_cast
        rw [this]
        have : 0 ≤ 1 / 2 ^ 23 * abs q := by positivity
        linarith
      · rw [max_eq_left hk, pow2_eq_zpow, zpow_sub₀ (by norm_num : (2 : ℚ) ≠ 0)]
        have hb := binaryExponent_le (abs q) ha
        rw [pow2_eq_zpow] at hb
        have h23 : (2 : ℚ) ^ (23 : ℤ) = 2 ^ 23 := by norm_cast
        rw [h23, div_eq_mul_one_div, mul_comm]
        have : (0 : ℚ) ≤ 1 / 2 ^ 149 := by positivity
        have h3 : 1 / 2 ^ 23 * (2 : ℚ) ^ binaryExponent (abs q) ≤ 1 / 2 ^ 23 * abs q := by
          gcongr
        linarith
    exact round32_core q _ (pow2 128) _ h0 hP hPle
      (roundHalfEven_nonneg _ (by positivity)) (roundHalfEven_err _)

/-- A rounded value `t` of `d` bounds the square of `d` by the square of `t`. -/
theorem sq_of_rounded (d t : ℚ) (h : abs (t - d) ≤ 1 / 2 ^ 24 * abs d + 1 / 2 ^ 150) :
    (1 - 1 / 2 ^ 24) ^ 2 * (d * d) ≤ (1 + 1 / 2 ^ 24) * (t * t) + 1 / 2 ^ 275 := by
  have h1 : abs d - abs t ≤ abs (t - d) := by
    have := abs_sub_abs_le_abs_sub d t
    rwa [abs_sub_comm d t] at this
  have hd : 0 ≤ abs d := abs_nonneg d
  have ht : 0 ≤ abs t := abs_nonneg t
  have h2 : (1 - 1 / 2 ^ 24) * abs d ≤ abs t + 1 / 2 ^ 150 := by linarith
  have h3 : 0 ≤ (1 - 1 / 2 ^ 24) * abs d := by
    have : (0 : ℚ) ≤ 1 - 1 / 2 ^ 24 := by norm_num
    positivity
  have h4 : ((1 - 1 / 2 ^ 24) * abs d) ^ 2 ≤ (abs t + 1 / 2 ^ 150) ^ 2 :=
    pow_le_pow_left₀ h3 h2 2
  have hdd : abs d * abs d = d * d := abs_mul_abs_self d
  have htt : abs t * abs t = t * t := abs_mul_abs_self t
  have h5 := sq_nonneg (1 / 2 ^ 24 * abs t - 1 / 2 ^ 150)
  have e1 : ((1 - 1 / 2 ^ 24) * abs d) ^ 2 = (1 - 1 / 2 ^ 24) ^ 2 * (d * d) := by
    rw [← hdd]; ring
  have e2 : (abs t + 1 / 2 ^ 150) ^ 2 = t * t + 2 * (1 / 2 ^ 150) * abs t + (1 / 2 ^ 150) ^ 2 := by
    rw [← htt]; ring
  have e3 : (1 / 2 ^ 24 * abs t - 1 / 2 ^ 150) ^ 2
      = (1 / 2 ^ 24) ^ 2 * (t * t) - 2 * (1 / 2 ^ 24) * (1 / 2 ^ 150) * abs t
        + (1 / 2 ^ 150) ^ 2 := by
    rw [← htt]; ring
  rw [e1, e2] at h4
  rw [e3] at h5
  have h6 : 2 * (1 / 2 ^ 150) * abs t ≤ 1 / 2 ^ 24 * (t * t) + 2 ^ 24 * (1 / 2 ^ 150) ^ 2 := by
    have : 2 * (1 / 2 ^ 150) * abs t
        = 2 ^ 24 * (2 * (1 / 2 ^ 24) * (1 / 2 ^ 150) * abs t) := by ring
    have h7 : (2 : ℚ) ^ 24 * (2 * (1 / 2 ^ 24) * (1 / 2 ^ 150) * abs t)
        ≤ 2 ^ 24 * ((1 / 2 ^ 24) ^ 2 * (t * t) + (1 / 2 ^ 150) ^ 2) := by
      have : (0 : ℚ) ≤ 2 ^ 24 := by positivity
      apply mul_le_mul_of_nonneg_left _ this
      linarith
    rw [this]
    calc _ ≤ _ := h7
      _ = _ := by ring
  have h8 : (2 : ℚ) ^ 24 * (1 / 2 ^ 150) ^ 2 + (1 / 2 ^ 150) ^ 2 ≤ 1 / 2 ^ 275 := by norm_num
  linarith

/-- The radius check in exact terms: from the rounding errors of the seven `float` operations,
the squared horizontal distance is below `1.5 r^2` up to a relative `2 ^ -21` and an absolute
`2 ^ -147`. -/
theorem radius_check_exact (dx dy tx ty x y s rho beta r : ℚ)
    (htx : abs (tx - dx) ≤ 1 / 2 ^ 24 * abs dx + 1 / 2 ^ 150)
    (hty : abs (ty - dy) ≤ 1 / 2 ^ 24 * abs dy + 1 / 2 ^ 150)
    (hx : abs (x - tx * tx) ≤ 1 / 2 ^ 24 * abs (tx * tx) + 1 / 2 ^ 150)
    (hy : abs (y - ty * ty) ≤ 1 / 2 ^ 24 * abs (ty * ty) + 1 / 2 ^ 150)
    (hx0 : 0 ≤ x) (hy0 : 0 ≤ y)
    (hs : abs (s - (x + y)) ≤ 1 / 2 ^ 24 * abs (x + y) + 1 / 2 ^ 150)
    (hsb : s ≤ beta)
    (hrho : abs (rho - r * r) ≤ 1 / 2 ^ 24 * abs (r * r) + 1 / 2 ^ 150) (hrho0 : 0 ≤ rho)
    (hbeta : abs (beta - rho * (3 / 2)) ≤ 1 / 2 ^ 24 * abs (rho * (3 / 2)) + 1 / 2 ^ 150) :
    dx * dx + dy * dy ≤ 3 / 2 * (r * r) * (1 + 1 / 2 ^ 21) + 1 / 2 ^ 147 := by
  have h1 := sq_of_rounded dx tx htx
  have h2 := sq_of_rounded dy ty hty
  rw [abs_of_nonneg (mul_self_nonneg tx)] at hx
  rw [abs_of_nonneg (mul_self_nonneg ty)] at hy
  rw [abs_of_nonneg (add_nonneg hx0 hy0)] at hs
  rw [abs_of_nonneg (mul_self_nonneg r)] at hrho
  rw [abs_of_nonneg (mul_nonneg hrho0 (by norm_num : (0 : ℚ) ≤ 3 / 2))] at hbeta
  have hx' := (abs_le.1 hx).1
  have hy' := (abs_le.1 hy).1
  have hs' := (abs_le.1 hs).1
  have hrho' := (abs_le.1 hrho).2
  have hbeta' := (abs_le.1 hbeta).2
  have hT1 : 0 ≤ tx * tx := mul_self_nonneg tx
  have hT2 : 0 ≤ ty * ty := mul_self_nonneg ty
  have hD1 : 0 ≤ dx * dx := mul_self_nonneg dx
  have hD2 : 0 ≤ dy * dy := mul_self_nonneg dy
  have hR : 0 ≤ r * r := mul_self_nonneg r
  norm_num at h1 h2 hx' hy' hs' hrho' hbeta' ⊢
  linarith

/-- The square of a rounded difference: finite with the two rounding errors, or `+inf`. -/
theorem fmul_fsub_self_cases (a b : ℚ) :
    (∃ t x, abs (t - (a - b)) ≤ 1 / 2 ^ 24 * abs (a - b) + 1 / 2 ^ 150 ∧
      Flt.fmul (Flt.fsub (Flt.fin a) (Flt.fin b)) (Flt.fsub (Flt.fin a) (Flt.fin b))
        = Flt.fin x ∧ 0 ≤ x ∧
      abs (x - t * t) ≤ 1 / 2 ^ 24 * abs (t * t) + 1 / 2 ^ 150) ∨
    Flt.fmul (Flt.fsub (Flt.fin a) (Flt.fin b)) (Flt.fsub (Flt.fin a) (Flt.fin b))
      = Flt.pinf := by
  have e : Flt.fsub (Flt.fin a) (Flt.fin b) = round32Q (a - b) := by
    show Flt.round32 (Flt.fin a - Flt.fin b) = _
    rw [Flt.fin_sub]
    rfl
  rw [e]
  rcases round32Q_err (a - b) with ⟨t, ht, herr, -, -⟩ | ⟨hinf, -⟩ | ⟨hinf, -⟩
  · rw [ht]
    have e2 : Flt.fmul (Flt.fin t) (Flt.fin t) = round32Q (t * t) := by
      show Flt.round32 (Flt.fin t * Flt.fin t) = _
      rw [Flt.fin_mul]
      rfl
    rw [e2]
    rcases round32Q_err (t * t) with ⟨x, hx, hxerr, hx0, -⟩ | ⟨hinf, -⟩ | ⟨-, hneg⟩
    · exact Or.inl ⟨t, x, herr, hx, hx0 (mul_self_nonneg t), hxerr⟩
    · exact Or.inr hinf
    · exact absurd hneg (not_lt.2 (mul_self_nonneg t))
  · rw [hinf]
    exact Or.inr rfl
  · rw [hinf]
    exact Or.inr rfl

/-- The radius check passed with a finite bound: the exact squared horizontal distance is
below `1.5 r^2` up to the rounding errors. -/
theorem radius_check_bound (px py cx cy r beta : ℚ)
    (hB : Flt.fmul (Flt.fmul (Flt.fin r) (Flt.fin r)) (Flt.fin (3 / 2)) = Flt.fin beta)
    (hcheck : Flt.gt
      (Flt.fadd
        (Flt.fmul (Flt.fsub (Flt.fin px) (Flt.fin cx)) (Flt.fsub (Flt.fin px) (Flt.fin cx)))
        (Flt.fmul (Flt.fsub (Flt.fin py) (Flt.fin cy)) (Flt.fsub (Flt.fin py) (Flt.fin cy))))
      (Flt.fmul (Flt.fmul (Flt.fin r) (Flt.fin r)) (Flt.fin (3 / 2))) = false) :
    (px - cx) * (px - cx) + (py - cy) * (py - cy)
      ≤ 3 / 2 * (r * r) * (1 + 1 / 2 ^ 21) + 1 / 2 ^ 147 := by
  rw [hB] at hcheck
  have eR : Flt.fmul (Flt.fin r) (Flt.fin r) = round32Q (r * r) := by
    show Flt.round32 (Flt.fin r * Flt.fin r) = _
    rw [Flt.fin_mul]
    rfl
  rw [eR] at hB
  rcases round32Q_err (r * r) with ⟨rho, hrho, hrhoerr, hrho0, -⟩ | ⟨hinf, -⟩ | ⟨hinf, -⟩
  · rw [hrho] at hB
    have eB : Flt.fmul (Flt.fin rho) (Flt.fin (3 / 2)) = round32Q (rho * (3 / 2)) := by
      show Flt.round32 (Flt.fin rho * Flt.fin (3 / 2)) = _
      rw [Flt.fin_mul]
      rfl
    rw [eB] at hB
    rcases round32Q_err (rho * (3 / 2)) with ⟨b2, hb2, hb2err, -, -⟩ | ⟨hinf, -⟩ | ⟨hinf, -⟩
    · rw [hb2] at hB
      have hbeta : b2 = beta := Flt.fin.inj hB
      subst hbeta
      rcases fmul_fsub_self_cases px cx with ⟨tx, x, htx, hX, hx0, hxerr⟩ | hX
      · rcases fmul_fsub_self_cases py cy with ⟨ty, y, hty, hY, hy0, hyerr⟩ | hY
        · rw [hX, hY] at hcheck
          have eS : Flt.fadd (Flt.fin x) (Flt.fin y) = round32Q (x + y) := by
            show Flt.round32 (Flt.fin x + Flt.fin y) = _
            rw [Flt.fin_add]
            rfl
          rw [eS] at hcheck
          rcases round32Q_err (x + y) with ⟨s, hs, hserr, -, -⟩ | ⟨hinf, -⟩ | ⟨-, hneg⟩
          · rw [hs] at hcheck
            have hsb : s ≤ b2 := by
              have : decide (b2 < s) = false := hcheck
              exact not_lt.1 (of_decide_eq_false this)
            exact radius_check_exact (px - cx) (py - cy) tx ty x y s rho b2 r htx hty hxerr
              hyerr hx0 hy0 hserr hsb hrhoerr (hrho0 (mul_self_nonneg r)) hb2err
          · rw [hinf] at hcheck
            cases hcheck
          · exact absurd hneg (not_lt.2 (add_nonneg hx0 hy0))
        · rw [hX, hY] at hcheck
          cases hcheck
      · rcases fmul_fsub_self_cases py cy with ⟨ty, y, hty, hY, hy0, hyerr⟩ | hY
        · rw [hX, hY] at hcheck
          cases hcheck
        · rw [hX, hY] at hcheck
          cases hcheck
    · rw [hinf] at hB; cases hB
    · rw [hinf] at hB; cases hB
  · rw [hinf, show Flt.fmul Flt.pinf (Flt.fin (3 / 2)) = Flt.pinf from by
      with_unfolding_all rfl] at hB
    cases hB
  · rw [hinf, show Flt.fmul Flt.ninf (Flt.fin (3 / 2)) = Flt.ninf from by
      with_unfolding_all rfl] at hB
    cases hB

set_option maxRecDepth 10000 in
/-- Counterexample to C9, at two inputs.
* Around the centre `(0, 0, 0)` with radius 1 the search succeeds with the point `(0, 0, 2)`,
  the drawn point lifted to the terrain height 2; its squared distance to the centre is 4,
  above `1.5 * radius^2 = 1.5`.
* Around the centre `(0, 0, 0)` with radius `0.75` the search succeeds with the point
  `(15410857 / 16777216, 0, 1)`: in `float` the square of its `x` rounds to `0.84375`, which
  is `radius * radius * 1.5f`, so the radius check passes, while the exact horizontal squared
  distance is above `1.5 * radius^2`. -/
theorem getSpawnPointInArea_far_above_centre :
    (getSpawnPointInArea spawnEnv ⟨Flt.fin 0, Flt.fin 0, Flt.fin 0⟩ (Flt.fin 1) (some hillZone)
        ⟨Flt.fin 0, Flt.fin 0, Flt.fin 0⟩).out
      = Outcome.returned (true, ⟨Flt.fin 0, Flt.fin 0, Flt.fin 2⟩) ∧
    Flt.gt
      (Vector3.dotProduct
        (Vector3.sub ⟨Flt.fin 0, Flt.fin 0, Flt.fin 2⟩ ⟨Flt.fin 0, Flt.fin 0, Flt.fin 0⟩)
        (Vector3.sub ⟨Flt.fin 0, Flt.fin 0, Flt.fin 2⟩ ⟨Flt.fin 0, Flt.fin 0, Flt.fin 0⟩))
      (Flt.fin 1 * Flt.fin 1 * Flt.fin (3 / 2)) = true ∧
    (getSpawnPointInArea edgeEnv ⟨Flt.fin 0, Flt.fin 0, Flt.fin 0⟩ (Flt.fin (3 / 4))
        (some meadowZone) ⟨Flt.fin 0, Flt.fin 0, Flt.fin 0⟩).out
      = Outcome.returned (true, ⟨Flt.fin (15410857 / 16777216), Flt.fin 0, Flt.fin 1⟩) ∧
    (3 / 2 : ℚ) * (3 / 4) ^ 2 < (15410857 / 16777216 - 0) ^ 2 + (0 - 0) ^ 2 :=
  ⟨by with_unfolding_all rfl, by with_unfolding_all rfl, by with_unfolding_all rfl,
    by norm_num⟩

/-- C9 (amended): whenever `getSpawnPointInArea` returns `true` with the point `p`, the
horizontal squared distance to the centre `c`, computed in `float` as the code computes it
(`fl(fl(tx * tx) + fl(ty * ty))` with `tx = fl(p.x - c.x)`, `ty = fl(p.y - c.y)`), does not
compare greater than `fl(fl(radius * radius) * 1.5)`: a drawn point that fails this check is
never returned. The height `p.z` is the terrain height at `(p.x, p.y)` and is not bounded.
In exact terms, for finite values and a bound `fl(fl(radius * radius) * 1.5)` that does not
overflow, `(p.x - c.x)^2 + (p.y - c.y)^2 <= 1.5 * radius^2 * (1 + 2^-21) + 2^-147`: the
horizontal bound holds up to the rounding of the seven `float` operations of the check. -/
theorem getSpawnPointInArea_horizontal_bound (env : Env) (center : Vector3) (radius : Flt)
    (zone : Option Zone) (point p : Vector3)
    (h : (getSpawnPointInArea env center radius zone point).out = Outcome.returned (true, p)) :
    Flt.gt
        (Flt.fadd (Flt.fmul (Flt.fsub p.x center.x) (Flt.fsub p.x center.x))
          (Flt.fmul (Flt.fsub p.y center.y) (Flt.fsub p.y center.y)))
        (Flt.fmul (Flt.fmul radius radius) (Flt.fin (3 / 2))) = false ∧
      (∃ z, zone = some z ∧ p.z = z.getHeightNoCache p.x p.y) ∧
      ∀ px py cx cy r beta : ℚ, p.x = Flt.fin px → p.y = Flt.fin py →
        center.x = Flt.fin cx → center.y = Flt.fin cy → radius = Flt.fin r →
        Flt.fmul (Flt.fmul radius radius) (Flt.fin (3 / 2)) = Flt.fin beta →
        (px - cx) * (px - cx) + (py - cy) * (py - cy)
          ≤ 3 / 2 * (r * r) * (1 + 1 / 2 ^ 21) + 1 / 2 ^ 147 := by
  unfold getSpawnPointInArea at h
  cases zone with
  | none => simp at h
  | some z =>
    simp only [ask_bind] at h
    obtain ⟨h1, h2⟩ := spawnRegions_checked env z center _ radius _ point p h
    refine ⟨h1, ⟨z, rfl, h2⟩, fun px py cx cy r beta hx hy hcx hcy hr hB => ?_⟩
    rw [hx, hy, hcx, hcy, hr] at h1
    rw [hr] at hB
    exact radius_check_bound px py cx cy r beta hB h1

set_option maxRecDepth 10000 in
/-- Witness of C9 (amended): the second run of the counterexample. The check compares
`0.84375` with `0.84375`; the exact squared distance is within the stated tolerance. -/
theorem getSpawnPointInArea_horizontal_bound_witness :
    (getSpawnPointInArea edgeEnv ⟨Flt.fin 0, Flt.fin 0, Flt.fin 0⟩ (Flt.fin (3 / 4))
        (some meadowZone) ⟨Flt.fin 0, Flt.fin 0, Flt.fin 0⟩).out
      = Outcome.returned (true, ⟨Flt.fin (15410857 / 16777216), Flt.fin 0, Flt.fin 1⟩) ∧
    Flt.fadd
        (Flt.fmul (Flt.fsub (Flt.fin (15410857 / 16777216)) (Flt.fin 0))
          (Flt.fsub (Flt.fin (15410857 / 16777216)) (Flt.fin 0)))
        (Flt.fmul (Flt.fsub (Flt.fin 0) (Flt.fin 0)) (Flt.fsub (Flt.fin 0) (Flt.fin 0)))
      = Flt.fin (27 / 32) ∧
    Flt.fmul (Flt.fmul (Flt.fin (3 / 4)) (Flt.fin (3 / 4))) (Flt.fin (3 / 2))
      = Flt.fin (27 / 32) ∧
    Flt.gt
        (Flt.fadd
          (Flt.fmul (Flt.fsub (Flt.fin (15410857 / 16777216)) (Flt.fin 0))
            (Flt.fsub (Flt.fin (15410857 / 16777216)) (Flt.fin 0)))
          (Flt.fmul (Flt.fsub (Flt.fin 0) (Flt.fin 0)) (Flt.fsub (Flt.fin 0) (Flt.fin 0))))
        (Flt.fmul (Flt.fmul (Flt.fin (3 / 4)) (Flt.fin (3 / 4))) (Flt.fin (3 / 2))) = false ∧
    ((15410857 / 16777216 : ℚ) - 0) * (15410857 / 16777216 - 0) + (0 - 0) * (0 - 0)
      ≤ 3 / 2 * (3 / 4 * (3 / 4)) * (1 + 1 / 2 ^ 21) + 1 / 2 ^ 147 :=
  have hrun := getSpawnPointInArea_horizontal_bound edgeEnv ⟨Flt.fin 0, Flt.fin 0, Flt.fin 0⟩
    (Flt.fin (3 / 4)) (some meadowZone) ⟨Flt.fin 0, Flt.fin 0, Flt.fin 0⟩
    ⟨Flt.fin (15410857 / 16777216), Flt.fin 0, Flt.fin 1⟩ (by with_unfolding_all rfl)
  ⟨by with_unfolding_all rfl, by with_unfolding_all rfl, by with_unfolding_all rfl, hrun.1,
    hrun.2.2 (15410857 / 16777216) 0 0 0 (3 / 4) (27 / 32) rfl rfl rfl rfl rfl
      (by with_unfolding_all rfl)⟩

/-! ## Indoor legs extend the path -/

/-- The traversal of a portal route returns and extends the path. -/
theorem traverse_returns (env : Env) (building : BuildingRef) (via : Option CellRef)
    (nodes : List NodeRef) (path : Path) :
    ∃ ext, (traverse env building via nodes path).out = Outcome.returned (path ++ ext) := by
  induction nodes generalizing path with
  | nil => exact ⟨[], by simp [traverse]⟩
  | cons node rest ih =>
    unfold traverse
    simp only [ask_bind]
    split
    · obtain ⟨v, hv⟩ := getWorldPosition_returns env ⟨env.nodePosition node, via⟩
      rw [bind_out _ _ v hv]
      obtain ⟨ext, hext⟩ := ih (path ++ [⟨v, none⟩])
      exact ⟨[⟨v, none⟩] ++ ext, by rw [hext]; simp⟩
    · simp only [ask_bind]
      obtain ⟨ext, hext⟩ :=
        ih (path ++ [⟨env.nodePosition node, env.buildingCell building _⟩])
      exact ⟨[⟨env.nodePosition node,
        env.buildingCell building (env.floorCellID (env.nodeFloor node))⟩] ++ ext,
        by rw [hext]; simp⟩

/-- The path returned by a traversal extends the path it was given. -/
theorem traverse_extends {env : Env} {building : BuildingRef} {via : Option CellRef}
    {nodes : List NodeRef} {path q : Path}
    (h : (traverse env building via nodes path).out = Outcome.returned q) :
    ∃ ext, q = path ++ ext := by
  obtain ⟨ext, hext⟩ := traverse_returns env building via nodes path
  rw [hext] at h
  exact ⟨ext, (Outcome.returned.inj h).symm⟩

/-- The floor path returns. -/
theorem getFloorPath_returns (env : Env) (pointA pointB : Vector3) (floor : FloorRef) :
    ∃ r, (getFloorPath env pointA pointB floor).out = Outcome.returned r := by
  unfold getFloorPath
  simp only [ask_bind]
  split
  · exact ⟨_, rfl⟩
  · split
    · simp only [ask_bind]
      split
      · exact ⟨_, rfl⟩
      · exact ⟨_, rfl⟩
    · exact ⟨_, rfl⟩

/-- The funnel edges are appended to the path. -/
theorem addTriangleNodeEdges_out (env : Env) (source goal : Vector3) (trianglePath : List TriRef)
    (path : Path) (cell : Option CellRef) :
    (addTriangleNodeEdges env source goal trianglePath path cell).out =
      Outcome.returned (path ++
        (interior (env.funnel ⟨source.x, source.z, source.y⟩ ⟨goal.x, goal.z, goal.y⟩
          trianglePath)).map (fun p => (⟨p, cell⟩ : WorldCoordinates))) := rfl

/-- A floor leg returns and extends the path. -/
theorem floorLeg_returns (env : Env) (a b : Vector3) (floor : FloorRef) (path : Path)
    (cell : Option CellRef) :
    ∃ ext, (floorLeg env a b floor path cell).out = Outcome.returned (path ++ ext) := by
  obtain ⟨r, hr⟩ := getFloorPath_returns env a b floor
  unfold floorLeg
  rw [bind_out _ _ r hr]
  split
  · split
    · exact ⟨_, addTriangleNodeEdges_out _ _ _ _ _ _⟩
    · exact ⟨[], by simp⟩
  · exact ⟨[], by simp⟩

/-- The path returned by a floor leg extends the path it was given. -/
theorem floorLeg_extends {env : Env} {a b : Vector3} {floor : FloorRef} {path q : Path}
    {cell : Option CellRef}
    (h : (floorLeg env a b floor path cell).out = Outcome.returned q) :
    ∃ ext, q = path ++ ext := by
  obtain ⟨ext, hext⟩ := floorLeg_returns env a b floor path cell
  rw [hext] at h
  exact ⟨ext, (Outcome.returned.inj h).symm⟩

/-- The last point of a path that begins with `a` is read without fault. -/
theorem lastPoint_returns (a : WorldCoordinates) (rest : Path) :
    ∃ v, lastPoint (a :: rest) = pure v := by
  unfold lastPoint
  cases h : (a :: rest).getLast? with
  | none => simp at h
  | some c => exact ⟨c.point, rfl⟩

/-- A path that begins with `a` and ends with `b`. -/
theorem head_getLast_of_eq (a b : WorldCoordinates) (mid p : Path) (h : p = a :: (mid ++ [b])) :
    p.head? = some a ∧ p.getLast? = some b := by
  subst h
  refine ⟨rfl, ?_⟩
  rw [← List.cons_append, List.getLast?_append]
  simp

/-- A path returned by `findPathFromWorldToCell` begins with the start and ends with the
goal. -/
theorem findPathFromWorldToCell_ends (env : Env) (a b : WorldCoordinates) (p : Path)
    (h : (findPathFromWorldToCell env a b).out = Outcome.returned (some p)) :
    ∃ mid, p = a :: (mid ++ [b]) := by
  unfold findPathFromWorldToCell at h
  repeat' first
    | simp only [ask_bind, pure_out, fault_out, Outcome.returned.injEq, reduceCtorEq] at h
    | split at h
  obtain ⟨q, hq, h⟩ := bind_returned h
  obtain ⟨ext, rfl⟩ := traverse_extends hq
  obtain ⟨v, -, h⟩ := bind_returned h
  obtain ⟨q2, hq2, h⟩ := bind_returned h
  obtain ⟨ext2, rfl⟩ := floorLeg_extends hq2
  simp only [pure_out, Outcome.returned.injEq, Option.some.injEq] at h
  exact ⟨ext ++ ext2, by rw [← h]; simp⟩

/-- A path returned by the route through the cells of a building begins with the start and
ends with the goal. -/
theorem routeThroughCells_ends (env : Env) (a b : WorldCoordinates) (ourCell targetCell : CellRef)
    (building1 : BuildingRef) (floorMesh1 floorMesh2 : FloorRef) (source : NodeRef)
    (nodes : List NodeRef) (p : Path)
    (h : (routeThroughCells env a b ourCell targetCell building1 floorMesh1 floorMesh2 source
      nodes).out = Outcome.returned (some p)) :
    ∃ mid, p = a :: (mid ++ [b]) := by
  unfold routeThroughCells at h
  split at h
  · simp at h
  · simp at h
  · obtain ⟨q, hq, h⟩ := bind_returned h
    obtain ⟨ext, rfl⟩ := floorLeg_extends hq
    obtain ⟨q2, hq2, h⟩ := bind_returned h
    obtain ⟨ext2, rfl⟩ := traverse_extends hq2
    obtain ⟨v, -, h⟩ := bind_returned h
    obtain ⟨q3, hq3, h⟩ := bind_returned h
    obtain ⟨ext3, rfl⟩ := floorLeg_extends hq3
    simp only [pure_out, Outcome.returned.injEq, Option.some.injEq] at h
    exact ⟨ext ++ [⟨env.nodePosition source, some ourCell⟩] ++ ext2 ++ ext3,
      by rw [← h]; simp⟩

/-- A path returned by `findPathFromCellToDifferentCell` begins with the start and ends with
the goal. -/
theorem findPathFromCellToDifferentCell_ends (env : Env) (a b : WorldCoordinates) (p : Path)
    (h : (findPathFromCellToDifferentCell env a b).out = Outcome.returned (some p)) :
    ∃ mid, p = a :: (mid ++ [b]) := by
  unfold findPathFromCellToDifferentCell at h
  repeat' first
    | simp only [ask_bind, pure_out, fault_out, Outcome.returned.injEq, reduceCtorEq] at h
    | split at h
  exact routeThroughCells_ends _ _ _ _ _ _ _ _ _ _ _ h

/-- A path returned by `findPathFromCellToCell` begins with the start and ends with the
goal. -/
theorem findPathFromCellToCell_ends (env : Env) (a b : WorldCoordinates) (p : Path)
    (h : (findPathFromCellToCell env a b).out = Outcome.returned (some p)) :
    ∃ mid, p = a :: (mid ++ [b]) := by
  unfold findPathFromCellToCell at h
  split at h
  · exact findPathFromCellToDifferentCell_ends env a b p h
  · split at h
    · simp at h
    · simp only [ask_bind] at h
      split at h
      · simp at h
      · simp only [ask_bind] at h
        split at h
        · simp at h
        · simp only [ask_bind] at h
          split at h
          · simp at h
          · simp only [ask_bind] at h
            split at h
            · simp at h
            · simp only [ask_bind] at h
              obtain ⟨res, -, h⟩ := bind_returned h
              split at h
              · simp only [pure_out, Outcome.returned.injEq, Option.some.injEq] at h
                exact ⟨[], by rw [← h]; simp⟩
              · split at h
                · exact findPathFromCellToDifferentCell_ends env a b p h
                · obtain ⟨q, hq, h⟩ := bind_returned h
                  rw [addTriangleNodeEdges_out] at hq
                  simp only [pure_out, Outcome.returned.injEq, Option.some.injEq] at h hq
                  subst hq
                  subst h
                  exact ⟨_, rfl⟩

/-- A path returned by `findPathFromCellToWorld` begins with the start. -/
theorem findPathFromCellToWorld_head (env : Env) (zone : Option Zone) (a b : WorldCoordinates)
    (p : Path) (h : (findPathFromCellToWorld env zone a b).out = Outcome.returned (some p)) :
    ∃ rest, p = a :: rest := by
  unfold findPathFromCellToWorld at h
  repeat' first
    | simp only [ask_bind, pure_out, fault_out, Outcome.returned.injEq, reduceCtorEq] at h
    | split at h
  obtain ⟨q, hq, h⟩ := bind_returned h
  obtain ⟨ext, rfl⟩ := floorLeg_extends hq
  obtain ⟨q2, hq2, h⟩ := bind_returned h
  obtain ⟨ext2, rfl⟩ := traverse_extends hq2
  split at h
  · simp only [pure_out, Outcome.returned.injEq, Option.some.injEq] at h
    exact ⟨_, by rw [← h]; simp; rfl⟩
  · obtain ⟨newPath, -, h⟩ := bind_returned h
    split at h
    · simp only [pure_out, Outcome.returned.injEq, Option.some.injEq] at h
      exact ⟨_, by rw [← h]; simp; rfl⟩
    · simp only [pure_out, Outcome.returned.injEq, Option.some.injEq] at h
      exact ⟨_, by rw [← h]; simp; rfl⟩

/-! ## The endpoints of a returned path (C3) -/

/-- With one goal the loop over the goals is its single step. -/
theorem goalLoop_single (env : Env) (zone : Option Zone) (a b : WorldCoordinates)
    (allowPartial : Bool) (finalpath : Path) (finalLengthSq : Flt) :
    (goalLoop env zone a allowPartial [b] finalpath finalLengthSq).out
      = (goalStep env zone a allowPartial b finalpath finalLengthSq).out := by
  unfold goalLoop
  show (M.bind _ _).out = _
  unfold M.bind
  cases (goalStep env zone a allowPartial b finalpath finalLengthSq).out with
  | fault => rfl
  | returned best => rfl

/-- The step for one goal when the segment has exactly one collision: the kept candidate is
unchanged, or it is the new candidate, which begins with the start. -/
theorem goalStep_entering (env : Env) (z : Zone) (a b : WorldCoordinates) (allowPartial : Bool)
    (finalpath : Path) (finalLengthSq : Flt) (c : NavCollision)
    (ha : a.cell = none) (hb : b.cell = none)
    (hc : getNavMeshCollisions env.sqrtQ [] (candidateRegions env z a b) a.point b.point = [c]) :
    ∃ best, (goalStep env (some z) a allowPartial b finalpath finalLengthSq).out
        = Outcome.returned best ∧
      (best = (finalpath, finalLengthSq) ∨ ∃ ext, best.1 = a :: ext) := by
  unfold goalStep
  simp only [ask_bind, getWorldPosition_world env a ha, getWorldPosition_world env b hb,
    pure_bind_M, hc]
  obtain ⟨r, hr, hext⟩ := getRecastPath_returns env
    (Vector3.setZ c.position (z.getHeightNoCache c.position.x c.position.y))
    b.point c.region [a] (Flt.fin 0) allowPartial
  rw [bind_out _ _ r hr]
  cases r with
  | none => exact ⟨_, rfl, Or.inl rfl⟩
  | some pl =>
    obtain ⟨p, l⟩ := pl
    obtain ⟨ext, hp⟩ := hext p l rfl
    dsimp only
    split
    · exact ⟨_, rfl, Or.inr ⟨ext, hp⟩⟩
    · exact ⟨_, rfl, Or.inl rfl⟩

/-- A call of `findPath` that returns a path passed the validation. -/
theorem findPath_dispatch (env : Env) (zone : Option Zone) (a b : WorldCoordinates) (p : Path)
    (h : (findPath env zone a b).out = Outcome.returned (some p)) :
    findPath env zone a b =
      match a.cell, b.cell with
      | none, none => findPathFromWorldToWorld1 env zone a b
      | some _, none => findPathFromCellToWorld env zone a b
      | none, some _ => findPathFromWorldToCell env a b
      | some _, some _ => findPathFromCellToCell env a b := by
  by_cases ha : hasNaN a = true
  · rw [findPath_start_nan env zone a b ha] at h; simp at h
  by_cases hb : hasNaN b = true
  · rw [findPath_goal_nan env zone a b hb] at h; simp at h
  simp [findPath, ha, hb]

/-- Counterexample to C3: a world to world query from `(0, 0, 0)` to `(1, 0, 0)` inside the
region `meadow`, whose mesh lies at height 1. The segment has no collision, the leg of the
branch "already inside a navmesh" yields the two waypoints of the mesh, and the returned
path is `[(0, 0, 1), (1, 0, 1)]`: its first element is not the start and its last element is
not the goal. -/
theorem findPath_inside_navmesh_misses_endpoints :
    (findPath meadowEnv (some meadowZone) (worldPoint 0 0 0) (worldPoint 1 0 0)).out
      = Outcome.returned (some [worldPoint 0 0 1, worldPoint 1 0 1]) ∧
    worldPoint 0 0 1 ≠ worldPoint 0 0 0 ∧ worldPoint 1 0 1 ≠ worldPoint 1 0 0 :=
  ⟨by with_unfolding_all rfl, by decide, by decide⟩

/-- C3 (amended): let `findPath` return the path `p` for the query `(a, b)`.
* When the goal carries a cell (world to cell, cell to cell), the first element of `p` is
  `a` and the last is `b`.
* When the start carries a cell (cell to world included), the first element of `p` is `a`.
* World to world: when the candidate kept by the search has fewer than two points, `p` is
  the straight line `[a, b]`; and when the segment has exactly one collision (the branch
  "entering a navmesh"), the first element of `p` is `a`.
Nothing is stated about the last element of a world to world path built from navmesh
waypoints, nor about the first element of one built in the branch "already inside". -/
theorem findPath_endpoints (env : Env) (zone : Option Zone) (a b : WorldCoordinates) (p : Path)
    (h : (findPath env zone a b).out = Outcome.returned (some p)) :
    (b.cell ≠ none → p.head? = some a ∧ p.getLast? = some b) ∧
    (a.cell ≠ none → p.head? = some a) ∧
    (a.cell = none → b.cell = none →
      (∀ best, (goalLoop env zone a true [b] [] Flt.FLT_MAX).out = Outcome.returned best →
        best.1.length < 2 → p = [a, b]) ∧
      (∀ z c, zone = some z →
        getNavMeshCollisions env.sqrtQ [] (candidateRegions env z a b) a.point b.point = [c] →
        p.head? = some a)) := by
  rw [findPath_dispatch env zone a b p h] at h
  refine ⟨fun hb => ?_, fun ha => ?_, fun ha hb => ⟨fun best hbest hlen => ?_,
    fun z c hz hc => ?_⟩⟩
  · cases hcb : b.cell with
    | none => exact absurd hcb hb
    | some cb =>
      cases hca : a.cell with
      | none =>
        rw [hca, hcb] at h
        obtain ⟨mid, hmid⟩ := findPathFromWorldToCell_ends env a b p h
        exact head_getLast_of_eq a b mid p hmid
      | some ca =>
        rw [hca, hcb] at h
        obtain ⟨mid, hmid⟩ := findPathFromCellToCell_ends env a b p h
        exact head_getLast_of_eq a b mid p hmid
  · cases hca : a.cell with
    | none => exact absurd hca ha
    | some ca =>
      cases hcb : b.cell with
      | none =>
        rw [hca, hcb] at h
        obtain ⟨rest, hrest⟩ := findPathFromCellToWorld_head env zone a b p h
        rw [hrest]; rfl
      | some cb =>
        rw [hca, hcb] at h
        obtain ⟨mid, hmid⟩ := findPathFromCellToCell_ends env a b p h
        exact (head_getLast_of_eq a b mid p hmid).1
  · rw [ha, hb] at h
    have hres := findPathFromWorldToWorld_of_best env zone a b [] true best hbest
    unfold findPathFromWorldToWorld1 at h
    rw [hres] at h
    simp only [hlen, if_true, Outcome.returned.injEq, Option.some.injEq] at h
    exact h.symm
  · rw [ha, hb] at h
    subst hz
    obtain ⟨best, hbest, hshape⟩ :=
      goalStep_entering env z a b true [] Flt.FLT_MAX c ha hb hc
    rw [← goalLoop_single] at hbest
    have hres := findPathFromWorldToWorld_of_best env (some z) a b [] true best hbest
    unfold findPathFromWorldToWorld1 at h
    rw [hres] at h
    simp only [Outcome.returned.injEq, Option.some.injEq] at h
    rw [← h]
    rcases hshape with hsame | ⟨ext, hext⟩
    · rw [hsame]; rfl
    · by_cases hlen : best.1.length < 2
      · simp [hlen]
      · rw [if_neg hlen, hext]; rfl

/-- Witness of C3 (amended): two points of one triangle of cell 11. -/
theorem findPath_endpoints_witness :
    (findPath houseEnv none (cellPoint 1 1 0 11) (cellPoint 2 3 0 11)).out
        = Outcome.returned (some [cellPoint 1 1 0 11, cellPoint 2 3 0 11]) ∧
      [cellPoint 1 1 0 11, cellPoint 2 3 0 11].head? = some (cellPoint 1 1 0 11) ∧
      [cellPoint 1 1 0 11, cellPoint 2 3 0 11].getLast? = some (cellPoint 2 3 0 11) :=
  ⟨rfl, (findPath_endpoints houseEnv none (cellPoint 1 1 0 11) (cellPoint 2 3 0 11)
    [cellPoint 1 1 0 11, cellPoint 2 3 0 11] rfl).1 (by decide)⟩

/-! ## Zero-length queries (C10) -/

/-- A value minus itself is zero when it is finite and NaN otherwise. -/
theorem Flt.sub_self_cases (f : Flt) : f - f = Flt.fin 0 ∨ f - f = Flt.nan := by
  cases f with
  | nan => exact Or.inr rfl
  | ninf => exact Or.inr rfl
  | fin q => exact Or.inl (by rw [Flt.fin_sub, sub_self])
  | pinf => exact Or.inr rfl

/-- The length of the zero-length segment is zero or NaN, for a square root with
`sqrt 0 = 0`. -/
theorem length_sub_self (r : ℚ → ℚ) (hr : r 0 = 0) (s : Vector3) :
    Vector3.length r (Vector3.sub s s) = Flt.fin 0 ∨
      Vector3.length r (Vector3.sub s s) = Flt.nan := by
  unfold Vector3.length Vector3.sub
  dsimp only
  rcases Flt.sub_self_cases s.x with hx | hx <;>
  rcases Flt.sub_self_cases s.y with hy | hy <;>
  rcases Flt.sub_self_cases s.z with hz | hz <;>
  rw [hx, hy, hz]
  · left
    simp [Flt.sqrt, hr]
  all_goals exact Or.inr rfl

/-- No distance is both positive and below a length that is zero or NaN. -/
theorem no_crossing (maxT t : Flt) (h : maxT = Flt.fin 0 ∨ maxT = Flt.nan) :
    (Flt.gt t (Flt.fin 0) && Flt.lt t maxT) = false := by
  rcases h with h | h <;> subst h <;> cases t <;> simp [Flt.gt, Flt.lt]
  intro h0
  exact le_of_lt h0

/-- A region adds no collision to a segment whose length is zero or NaN. -/
theorem regionCollisions_short (r : ℚ → ℚ) (start dir : Vector3) (maxT : Flt)
    (collisions : List NavCollision) (region : NavMeshRegion)
    (h : maxT = Flt.fin 0 ∨ maxT = Flt.nan) :
    regionCollisions r start dir maxT collisions region = collisions := by
  unfold regionCollisions
  dsimp only
  split
  · rfl
  · split
    · rfl
    · rw [no_crossing maxT _ h, Bool.and_assoc, no_crossing maxT _ h]
      simp [putCrossing]

/-- The zero-length segment crosses no region. -/
theorem getNavMeshCollisions_zero_length (r : ℚ → ℚ) (hr : r 0 = 0)
    (collisions : List NavCollision) (regions : List NavMeshRegion) (s : Vector3) :
    getNavMeshCollisions r collisions regions s s = collisions := by
  unfold getNavMeshCollisions
  dsimp only
  have hlen : (Vector3.normalize r (Vector3.sub s s)).2 = Flt.fin 0 ∨
      (Vector3.normalize r (Vector3.sub s s)).2 = Flt.nan := length_sub_self r hr s
  induction regions generalizing collisions with
  | nil => rfl
  | cons region rest ih =>
    rw [List.foldl_cons, regionCollisions_short r s _ _ collisions region hlen]
    exact ih collisions

/-- Counterexample to C10: the zero-length query at `(1, 0, 0)` inside the region `meadow`,
whose mesh lies at height 1, returns `[(1, 0, 1), (1, 0, 1)]`: the path comes from the branch
"already inside a navmesh" and its first point is not the query point. -/
theorem findPath_zero_length_first_point_differs :
    (findPath meadowEnv (some meadowZone) (worldPoint 1 0 0) (worldPoint 1 0 0)).out
      = Outcome.returned (some [worldPoint 1 0 1, worldPoint 1 0 1]) ∧
    worldPoint 1 0 1 ≠ worldPoint 1 0 0 :=
  ⟨by with_unfolding_all rfl, by decide⟩

/-- C10 (amended): for every point `s` without NaN coordinate,
* the zero-length segment produces no collision (for a square root with `sqrt 0 = 0`), so
  that the step of `findPathFromWorldToWorld` for the goal `s` is the region query followed
  by the loop of the branch "already inside a navmesh";
* world to world with a zone, `findPath(s, s)` does not fault and returns a path of at least
  two points, which is `[s, s]` when the candidate kept by the loop has fewer than two points;
* when `s` carries a cell whose building, template, portal layout and floor mesh are
  present, `findPath(s, s)` returns exactly `[s, s]`.
Nothing is stated about the first point of a path built from navmesh waypoints. -/
theorem findPath_zero_length (env : Env) (s : WorldCoordinates) (hs : hasNaN s = false) :
    (env.sqrtQ 0 = 0 → s.cell = none → ∀ (z : Zone) (finalpath : Path) (finalLengthSq : Flt),
      getNavMeshCollisions env.sqrtQ [] (candidateRegions env z s s) s.point s.point = [] ∧
      goalStep env (some z) s true s finalpath finalLengthSq =
        (ask Query.regionIndex (candidateRegions env z s s) >>= fun regions =>
          insideNavMesh env s.point s.point true regions [] (Flt.fin 0) finalpath
            finalLengthSq)) ∧
    (s.cell = none → ∀ z : Zone, ∃ best p,
      (goalLoop env (some z) s true [s] [] Flt.FLT_MAX).out = Outcome.returned best ∧
      (findPath env (some z) s s).out = Outcome.returned (some p) ∧
      2 ≤ p.length ∧ (best.1.length < 2 → p = [s, s])) ∧
    (∀ (c : CellRef) (building : BuildingRef) (tmpl : TemplateRef) (layout : LayoutRef)
      (f : FloorRef) (zone : Option Zone), s.cell = some c →
      env.cellParent c = some building → env.objectTemplate building = some tmpl →
      env.portalLayout tmpl = some layout → env.floorMesh layout (env.cellNumber c) = some f →
      (findPath env zone s s).out = Outcome.returned (some [s, s])) := by
  refine ⟨fun hr hcell z finalpath finalLengthSq => ?_, fun hcell z => ?_,
    fun c building tmpl layout f zone hc hparent htmpl hlayout hfloor => ?_⟩
  · have hnone := getNavMeshCollisions_zero_length env.sqrtQ hr [] (candidateRegions env z s s)
      s.point
    refine ⟨hnone, ?_⟩
    unfold goalStep
    simp only [ask_bind, getWorldPosition_world env s hcell, pure_bind_M, hnone]
  · obtain ⟨best, hbest⟩ := goalLoop_returns env z s true [s] [] Flt.FLT_MAX
    have hres := findPathFromWorldToWorld_of_best env (some z) s s [] true best hbest
    refine ⟨best, if best.1.length < 2 then [s, s] else best.1, hbest, ?_, ?_,
      fun hlen => if_pos hlen⟩
    · simp only [findPath, hs, hcell, Bool.false_eq_true, if_false, findPathFromWorldToWorld1]
      exact hres
    · by_cases hlen : best.1.length < 2
      · simp [hlen]
      · rw [if_neg hlen]; omega
  · simp only [findPath, hs, hc, findPathFromCellToCell, ne_eq, not_true_eq_false, if_false,
      ask_bind, hparent, htmpl, hlayout, hfloor, getFloorPath, if_true, Bool.false_eq_true]
    rfl

/-- Witness of C10 (amended): the zero-length query at a point of cell 11. -/
theorem findPath_zero_length_witness :
    hasNaN (cellPoint 1 1 0 11) = false ∧
    (findPath houseEnv none (cellPoint 1 1 0 11) (cellPoint 1 1 0 11)).out
      = Outcome.returned (some [cellPoint 1 1 0 11, cellPoint 1 1 0 11]) :=
  ⟨rfl, (findPath_zero_length houseEnv (cellPoint 1 1 0 11) rfl).2.2 11 1 0 0 1 none
    rfl rfl rfl rfl rfl⟩

/-! ## The candidate kept among goals and regions (C11) -/

/-- C11 (the code at the failing input): from `(3, 0, 0)` with the goals `(-3, 0, 0)` and
`(5, 0, 0)` inside the region `plain`, the leg to the first goal yields the candidate
`[(3, 0, 1), (-3, 0, 1)]` with accumulated `len = 18` and the leg to the second goal the
candidate `[(3, 0, 1), (5, 0, 1)]` with `len = 34`: `len` adds `x * x + z * z` of every
waypoint. The call keeps and returns the first candidate, whose polyline has squared length
36, although the polyline of the second has squared length 4. -/
theorem findPathFromWorldToWorld_keeps_longer_polyline :
    (goalLoop meadowEnv (some plainZone) (worldPoint 3 0 0) true [worldPoint (-3) 0 0] []
        Flt.FLT_MAX).out
      = Outcome.returned ([worldPoint 3 0 1, worldPoint (-3) 0 1], Flt.fin 18) ∧
    (goalLoop meadowEnv (some plainZone) (worldPoint 3 0 0) true [worldPoint 5 0 0] []
        Flt.FLT_MAX).out
      = Outcome.returned ([worldPoint 3 0 1, worldPoint 5 0 1], Flt.fin 34) ∧
    (findPathFromWorldToWorld meadowEnv (some plainZone) (worldPoint 3 0 0)
        [worldPoint (-3) 0 0, worldPoint 5 0 0] true).out
      = Outcome.returned (some [worldPoint 3 0 1, worldPoint (-3) 0 1]) ∧
    Vector3.dotProduct
        (Vector3.sub (worldPoint (-3) 0 1).point (worldPoint 3 0 1).point)
        (Vector3.sub (worldPoint (-3) 0 1).point (worldPoint 3 0 1).point) = Flt.fin 36 ∧
    Vector3.dotProduct
        (Vector3.sub (worldPoint 5 0 1).point (worldPoint 3 0 1).point)
        (Vector3.sub (worldPoint 5 0 1).point (worldPoint 3 0 1).point) = Flt.fin 4 :=
  ⟨by with_unfolding_all rfl, by with_unfolding_all rfl, by with_unfolding_all rfl,
    by with_unfolding_all rfl, by with_unfolding_all rfl⟩

/-! ## The regimes up to the portal route -/

/-- When the lookups before the router succeed, `findPathFromWorldToCell` continues with the
answer of `portalLayout->getPath(entrance, target)`. -/
theorem findPathFromWorldToCell_route {env : Env} {a b : WorldCoordinates} {targetCell : CellRef}
    {building : BuildingRef} {layout : LayoutRef} {targetFloorMesh : FloorRef}
    {entrance target : NodeRef}
    (h : ReachesRouterWorldToCell env a b targetCell building layout targetFloorMesh entrance
      target) :
    (findPathFromWorldToCell env a b).out =
      (worldToCellRoute env a b targetCell building targetFloorMesh
        (env.layoutPath layout entrance target)).out := by
  obtain ⟨hb, hparent, tmpl, exterior, graph, triangle, htmpl, hlayout, hext, hgraph, hfloor,
    hentrance, htri, htarget⟩ := h
  simp only [findPathFromWorldToCell, hb, ask_bind, hparent, htmpl, hlayout, hext, hgraph,
    hfloor, hentrance, htri, htarget]
  cases env.layoutPath layout entrance target <;> rfl

/-- When the lookups before the router succeed, `findPathFromCellToWorld` continues with the
answer of `portalLayout->getPath(exitNode, exteriorNode)`. -/
theorem findPathFromCellToWorld_route {env : Env} {zone : Option Zone} {a b : WorldCoordinates}
    {ourCell : CellRef} {building : BuildingRef} {layout : LayoutRef}
    {sourceFloorMesh : FloorRef} {exitNode exteriorNode : NodeRef}
    (h : ReachesRouterCellToWorld env a b ourCell building layout sourceFloorMesh exitNode
      exteriorNode) :
    (findPathFromCellToWorld env zone a b).out =
      (cellToWorldRoute env zone a b ourCell building sourceFloorMesh exitNode
        (env.layoutPath layout exitNode exteriorNode)).out := by
  obtain ⟨ha, hparent, tmpl, sourceGraph, exterior, graph, triangle, htmpl, hlayout, hfloor,
    hsgraph, hext, hgraph, htri, hexit, hexterior⟩ := h
  simp only [findPathFromCellToWorld, ha, ask_bind, hparent, htmpl, hlayout, hfloor, hsgraph,
    hext, hgraph, htri, hexit, hexterior]
  cases env.layoutPath layout exitNode exteriorNode <;> rfl

/-- When the lookups before the router succeed, `findPathFromCellToDifferentCell` continues
with the answer of `portalLayout->getPath(source, target)`. -/
theorem findPathFromCellToDifferentCell_route {env : Env} {a b : WorldCoordinates}
    {ourCell targetCell : CellRef} {building1 : BuildingRef} {layout : LayoutRef}
    {floorMesh1 floorMesh2 : FloorRef} {source target : NodeRef}
    (h : ReachesRouterDifferentCell env a b ourCell targetCell building1 layout floorMesh1
      floorMesh2 source target) :
    (findPathFromCellToDifferentCell env a b).out =
      (differentCellRoute env a b ourCell targetCell building1 floorMesh1 floorMesh2 source
        (env.layoutPath layout source target)).out := by
  obtain ⟨ha, hb, hp1, hp2, tmpl, triangle1, triangle2, htmpl, hlayout, hf1, hf2, ht1, hsource,
    ht2, htarget⟩ := h
  simp only [findPathFromCellToDifferentCell, ha, hb, ask_bind, hp1, hp2, ne_eq,
    not_true_eq_false, if_false, htmpl, hlayout, hf1, hf2, ht1, hsource, ht2, htarget]
  cases env.layoutPath layout source target <;> rfl

/-- A floor leg returns the path followed by points of the given cell: none, or the interior
points of the funnel over a triangle corridor. -/
theorem floorLeg_points (env : Env) (a b : Vector3) (floor : FloorRef) (path : Path)
    (cell : Option CellRef) :
    ∃ pts : List Vector3,
      (floorLeg env a b floor path cell).out
        = Outcome.returned (path ++ pts.map (fun p => (⟨p, cell⟩ : WorldCoordinates))) ∧
      (pts = [] ∨ ∃ corridor,
        pts = interior (env.funnel ⟨a.x, a.z, a.y⟩ ⟨b.x, b.z, b.y⟩ corridor)) := by
  obtain ⟨r, hr⟩ := getFloorPath_returns env a b floor
  unfold floorLeg
  rw [bind_out _ _ r hr]
  split
  · rename_i trianglePath _
    split
    · exact ⟨_, addTriangleNodeEdges_out _ _ _ _ _ _, Or.inr ⟨trianglePath, rfl⟩⟩
    · exact ⟨[], by simp, Or.inl rfl⟩
  · exact ⟨[], by simp, Or.inl rfl⟩

/-! ## A null or empty portal route (C12) -/

/-- Counterexample to C12: world to cell, the portal router answers the empty node list.
The query from `(0, 0, 0)` to `(1, 1, 0)` in cell 11 does not fail: it returns the two-point
path `[start, goal]`. -/
theorem findPath_empty_route_returns_path :
    (findPath (portalEnv (some [])) none (worldPoint 0 0 0) (cellPoint 1 1 0 11)).out
      = Outcome.returned (some [worldPoint 0 0 0, cellPoint 1 1 0 11]) := by
  with_unfolding_all rfl

/-- C12 (amended): in each of the three regimes that consult the portal router, when every
lookup before it succeeds and `getPath` returns `NULL`, the regime returns `NULL`. When it
returns the empty list in the world to cell regime, no node is indexed and the regime does
not fail: it returns `[start]`, then funnel points tagged with the target cell (possibly
none), then `[goal]`. -/
theorem portal_route_null_fails (env : Env) (zone : Option Zone) (a b : WorldCoordinates) :
    (∀ targetCell building layout targetFloorMesh entrance target,
      ReachesRouterWorldToCell env a b targetCell building layout targetFloorMesh entrance
        target →
      env.layoutPath layout entrance target = none →
      (findPathFromWorldToCell env a b).out = Outcome.returned none) ∧
    (∀ ourCell building layout sourceFloorMesh exitNode exteriorNode,
      ReachesRouterCellToWorld env a b ourCell building layout sourceFloorMesh exitNode
        exteriorNode →
      env.layoutPath layout exitNode exteriorNode = none →
      (findPathFromCellToWorld env zone a b).out = Outcome.returned none) ∧
    (∀ ourCell targetCell building1 layout floorMesh1 floorMesh2 source target,
      ReachesRouterDifferentCell env a b ourCell targetCell building1 layout floorMesh1
        floorMesh2 source target →
      env.layoutPath layout source target = none →
      (findPathFromCellToDifferentCell env a b).out = Outcome.returned none) ∧
    (∀ targetCell building layout targetFloorMesh entrance target,
      ReachesRouterWorldToCell env a b targetCell building layout targetFloorMesh entrance
        target →
      env.layoutPath layout entrance target = some [] →
      ∃ pts : List Vector3,
        (findPathFromWorldToCell env a b).out = Outcome.returned
          (some ([a] ++ pts.map (fun p => (⟨p, some targetCell⟩ : WorldCoordinates))
            ++ [b]))) := by
  refine ⟨?_, ?_, ?_, ?_⟩
  · intro targetCell building layout targetFloorMesh entrance target hreach hnull
    rw [findPathFromWorldToCell_route hreach, hnull]
    rfl
  · intro ourCell building layout sourceFloorMesh exitNode exteriorNode hreach hnull
    rw [findPathFromCellToWorld_route hreach, hnull]
    rfl
  · intro ourCell targetCell building1 layout floorMesh1 floorMesh2 source target hreach hnull
    rw [findPathFromCellToDifferentCell_route hreach, hnull]
    rfl
  · intro targetCell building layout targetFloorMesh entrance target hreach hempty
    rw [findPathFromWorldToCell_route hreach, hempty]
    obtain ⟨pts, hpts, -⟩ := floorLeg_points env a.point b.point targetFloorMesh [a]
      (some targetCell)
    refine ⟨pts, ?_⟩
    simp only [worldToCellRoute, traverse, pure_bind_M, lastPoint, List.getLast?_singleton]
    rw [bind_out _ _ _ hpts]
    rfl

/-- Witness of C12 (amended): the router answers `NULL` to a world to cell query. -/
theorem portal_route_null_fails_witness :
    ReachesRouterWorldToCell (portalEnv none) (worldPoint 0 0 0) (cellPoint 1 1 0 11) 11 1 0 1
        0 1 ∧
      (portalEnv none).layoutPath 0 0 1 = none ∧
      (findPathFromWorldToCell (portalEnv none) (worldPoint 0 0 0) (cellPoint 1 1 0 11)).out
        = Outcome.returned none :=
  have hreach : ReachesRouterWorldToCell (portalEnv none) (worldPoint 0 0 0)
      (cellPoint 1 1 0 11) 11 1 0 1 0 1 :=
    ⟨rfl, rfl, 0, 0, 0, 0, rfl, rfl, rfl, rfl, rfl, rfl, by decide, rfl⟩
  ⟨hreach, rfl, (portal_route_null_fails (portalEnv none) none (worldPoint 0 0 0)
    (cellPoint 1 1 0 11)).1 11 1 0 1 0 1 hreach rfl⟩

/-! ## A portal route of one node (C13) -/

/-- C13: in the cell to different cell regime (both cells in the same building), when every
lookup before the router succeeds and `getPath` returns a list of exactly one node,
`findPathFromCellToDifferentCell` returns `NULL`, whatever the endpoints and the node are. -/
theorem findPathFromCellToDifferentCell_single_node_fails (env : Env) (a b : WorldCoordinates)
    (ourCell targetCell : CellRef) (building1 : BuildingRef) (layout : LayoutRef)
    (floorMesh1 floorMesh2 : FloorRef) (source target node : NodeRef)
    (hreach : ReachesRouterDifferentCell env a b ourCell targetCell building1 layout floorMesh1
      floorMesh2 source target)
    (hone : env.layoutPath layout source target = some [node]) :
    (findPathFromCellToDifferentCell env a b).out = Outcome.returned none := by
  rw [findPathFromCellToDifferentCell_route hreach, hone]
  rfl

/-- Witness of C13: from cell 11 to cell 12 of building 1, the router answers `[1]`. -/
theorem findPathFromCellToDifferentCell_single_node_fails_witness :
    ReachesRouterDifferentCell (portalEnv (some [1])) (cellPoint 1 1 0 11) (cellPoint 2 3 0 12)
        11 12 1 0 1 2 1 1 ∧
      (findPathFromCellToDifferentCell (portalEnv (some [1])) (cellPoint 1 1 0 11)
        (cellPoint 2 3 0 12)).out = Outcome.returned none :=
  have hreach : ReachesRouterDifferentCell (portalEnv (some [1])) (cellPoint 1 1 0 11)
      (cellPoint 2 3 0 12) 11 12 1 0 1 2 1 1 :=
    ⟨rfl, rfl, rfl, rfl, 0, 0, 0, rfl, rfl, rfl, rfl, by decide, rfl, by decide, rfl⟩
  ⟨hreach, findPathFromCellToDifferentCell_single_node_fails (portalEnv (some [1]))
    (cellPoint 1 1 0 11) (cellPoint 2 3 0 12) 11 12 1 0 1 2 1 1 1 hreach rfl⟩

/-! ## A missing floor mesh (C14) -/

/-- C14 (the code at the failing input): in the world `noFloorEnv` the portal layout has no
floor mesh for the cell number 1. The cell to world query from cell 11 returns `NULL` at the
test of `sourceFloorMesh`; the three other indoor regimes do not test the floor mesh of the
cell and fault when they dereference it, right after the floor mesh lookup: world to cell
(`targetFloorMesh->getPathGraph()`), same cell (`floorMesh1->getPathGraph()`) and different
cell (`floorMesh2->getCellID()`). -/
theorem findPath_missing_floor_mesh :
    (findPath noFloorEnv (some emptyZone) (cellPoint 1 1 0 11) (worldPoint 0 0 0)).out
      = Outcome.returned none ∧
    (findPath noFloorEnv none (worldPoint 0 0 0) (cellPoint 1 1 0 11)).out = Outcome.fault ∧
    (findPath noFloorEnv none (worldPoint 0 0 0) (cellPoint 1 1 0 11)).log.getLast?
      = some Query.floorMesh ∧
    (findPath noFloorEnv none (cellPoint 1 1 0 11) (cellPoint 2 3 0 11)).out = Outcome.fault ∧
    (findPath noFloorEnv none (cellPoint 1 1 0 11) (cellPoint 2 3 0 11)).log.getLast?
      = some Query.floorMesh ∧
    (findPath noFloorEnv none (cellPoint 1 1 0 11) (cellPoint 2 3 0 12)).out = Outcome.fault ∧
    (findPath noFloorEnv none (cellPoint 1 1 0 11) (cellPoint 2 3 0 12)).log.getLast?
      = some Query.floorMesh :=
  ⟨rfl, rfl, rfl, rfl, rfl, rfl, rfl⟩

/-! ## Points outside every triangle (C15) -/

/-- When exactly one of the two points lies in no triangle, `getFloorPath` returns 1 without
corridor. -/
theorem getFloorPath_one_outside (env : Env) (pointA pointB : Vector3) (floor : FloorRef)
    (h : (env.getTriangle pointA floor = none ∧ env.getTriangle pointB floor ≠ none) ∨
      (env.getTriangle pointA floor ≠ none ∧ env.getTriangle pointB floor = none)) :
    (getFloorPath env pointA pointB floor).out = Outcome.returned (1, none) := by
  unfold getFloorPath
  simp only [ask_bind]
  rcases h with ⟨ha, hb⟩ | ⟨ha, hb⟩
  · rw [ha]
    cases hB : env.getTriangle pointB floor with
    | none => exact absurd hB hb
    | some t => rfl
  · rw [hb]
    cases hA : env.getTriangle pointA floor with
    | none => exact absurd hA ha
    | some t => rfl

/-- C15 (the code at the failing input): in the world `offFloorEnv` no point lies in a
triangle. For the two points `(1, 1, 0)` and `(2, 3, 0)` of cell 11 both triangle lookups
answer `NULL`, the test `objectFloor == targetFloor` holds and `getFloorPath` returns the
"same triangle" code -1; `findPath` then returns `[a, b]`. -/
theorem getFloorPath_both_outside_same_triangle :
    offFloorEnv.getTriangle (cellPoint 1 1 0 11).point 1 = none ∧
    offFloorEnv.getTriangle (cellPoint 2 3 0 11).point 1 = none ∧
    (getFloorPath offFloorEnv (cellPoint 1 1 0 11).point (cellPoint 2 3 0 11).point 1).out
      = Outcome.returned (-1, none) ∧
    (findPath offFloorEnv none (cellPoint 1 1 0 11) (cellPoint 2 3 0 11)).out
      = Outcome.returned (some [cellPoint 1 1 0 11, cellPoint 2 3 0 11]) :=
  ⟨rfl, rfl, rfl, rfl⟩

/-! ## A leg that cannot reach the goal polygon (C16) -/

/-- An in-mesh leg that reaches the polygon search continues with the second half of
`getRecastPath`, unless the search failed and no partial result is allowed. -/
theorem getRecastPath_of_leg {env : Env} {start end_ : Vector3} {region : NavMeshRegion}
    {mesh : RecastNavMesh} {startPoly : PolyRef} {polyStart : Vector3} {endPoly : PolyRef}
    {polyEnd : Vector3} {status : Bool} {corridor : List PolyRef}
    (h : InMeshLeg env start end_ region mesh startPoly polyStart endPoly polyEnd status
      corridor) (path : Path) (len : Flt) (allowPartial : Bool) :
    (getRecastPath env start end_ region path len allowPartial).out =
      (if !status && !allowPartial then (pure none : M (Option (Path × Flt)))
        else stringPath env mesh ⟨end_.x, end_.z, -end_.y⟩ polyStart polyEnd endPoly corridor
          path len allowPartial).out := by
  obtain ⟨hmesh, hloaded, hsphere, hs, he, hfound⟩ := h
  simp only [getRecastPath, ask_bind, hmesh, hloaded, hsphere, hs, he, hfound, if_true,
    Bool.true_eq_false, if_false]

/-- C16: for an in-mesh leg of `getRecastPath` that reaches the polygon search (mesh loaded,
an endpoint strictly inside the sphere of the region, both nearest polygons found):
* with `allowPartial = false`, when the search does not report success or the last polygon
  of its corridor is not the goal polygon, the call returns `false` (the model's `none`: the
  path and the accumulated length of the caller stay as they were);
* with `allowPartial = true`, when the last polygon `last` of the corridor is not the goal
  polygon, the call returns `true` and the waypoints added are those of the straight path to
  `closestPointOnPoly(last, target)`;
* with `allowPartial = true`, when the corridor ends at the goal polygon, the call returns
  `true` with the waypoints of the straight path to the nearest point of the goal: the
  returned value is `true` in both cases. -/
theorem getRecastPath_partial_leg (env : Env) (start end_ : Vector3) (region : NavMeshRegion)
    (mesh : RecastNavMesh) (startPoly : PolyRef) (polyStart : Vector3) (endPoly : PolyRef)
    (polyEnd : Vector3) (status : Bool) (corridor : List PolyRef) (path : Path) (len : Flt)
    (h : InMeshLeg env start end_ region mesh startPoly polyStart endPoly polyEnd status
      corridor) :
    ((status = false ∨ ∃ last, corridor.getLast? = some last ∧ last ≠ endPoly) →
      (getRecastPath env start end_ region path len false).out = Outcome.returned none) ∧
    (∀ last, corridor.getLast? = some last → last ≠ endPoly →
      (getRecastPath env start end_ region path len true).out = Outcome.returned
        (some (addPathPoints
          (env.findStraightPath mesh polyStart
            (env.closestPointOnPoly mesh last ⟨end_.x, end_.z, -end_.y⟩) corridor)
          path len))) ∧
    (corridor.getLast? = some endPoly →
      (getRecastPath env start end_ region path len true).out = Outcome.returned
        (some (addPathPoints (env.findStraightPath mesh polyStart polyEnd corridor)
          path len))) := by
  refine ⟨fun hfail => ?_, fun last hlast hne => ?_, fun hlast => ?_⟩
  · rw [getRecastPath_of_leg h]
    rcases hfail with hstatus | ⟨last, hlast, hne⟩
    · simp [hstatus]
    · cases status
      · simp
      · simp [stringPath, hlast, hne]
  · rw [getRecastPath_of_leg h]
    simp [stringPath, hlast, hne]
  · rw [getRecastPath_of_leg h]
    simp [stringPath, hlast]

/-- Witness of C16: over the mesh of `detourEnv`, whose corridor `[2]` stops short of the
goal polygon 1, the leg from `(0, 0, 0)` to `(1, 0, 0)` in the region `meadow` returns
`false` when no partial result is allowed. -/
theorem getRecastPath_partial_leg_witness :
    InMeshLeg (detourEnv true) ⟨Flt.fin 0, Flt.fin 0, Flt.fin 0⟩ ⟨Flt.fin 1, Flt.fin 0, Flt.fin 0⟩
        meadow meadowMesh 1 ⟨Flt.fin 0, Flt.fin 1, Flt.fin 0⟩ 1 ⟨Flt.fin 1, Flt.fin 1, Flt.fin 0⟩
        true [2] ∧
      (getRecastPath (detourEnv true) ⟨Flt.fin 0, Flt.fin 0, Flt.fin 0⟩
        ⟨Flt.fin 1, Flt.fin 0, Flt.fin 0⟩ meadow [] (Flt.fin 0) false).out
        = Outcome.returned none :=
  have hleg : InMeshLeg (detourEnv true) ⟨Flt.fin 0, Flt.fin 0, Flt.fin 0⟩
      ⟨Flt.fin 1, Flt.fin 0, Flt.fin 0⟩ meadow meadowMesh 1 ⟨Flt.fin 0, Flt.fin 1, Flt.fin 0⟩ 1
      ⟨Flt.fin 1, Flt.fin 1, Flt.fin 0⟩ true [2] :=
    ⟨rfl, rfl, by with_unfolding_all rfl, by with_unfolding_all rfl, by with_unfolding_all rfl,
      rfl⟩
  ⟨hleg, (getRecastPath_partial_leg (detourEnv true) ⟨Flt.fin 0, Flt.fin 0, Flt.fin 0⟩
    ⟨Flt.fin 1, Flt.fin 0, Flt.fin 0⟩ meadow meadowMesh 1 ⟨Flt.fin 0, Flt.fin 1, Flt.fin 0⟩ 1
    ⟨Flt.fin 1, Flt.fin 1, Flt.fin 0⟩ true [2] [] (Flt.fin 0) hleg).1
    (Or.inr ⟨2, rfl, by decide⟩)⟩

/-! ## The funnel edges added to a path (C17) -/

/-- The interior of an `n`-point list has `n - 2` points. -/
theorem interior_length (l : List Vector3) : (interior l).length = l.length - 2 := by
  simp [interior, List.length_dropLast, List.length_drop]
  omega

/-- The point `k` of the interior is the point `k + 1` of the list. -/
theorem interior_getElem? (l : List Vector3) (k : Nat) (hk : k < l.length - 2) :
    (interior l)[k]? = l[k + 1]? := by
  unfold interior
  rw [List.dropLast_eq_take, List.getElem?_take]
  simp only [List.length_drop]
  rw [if_pos (by omega), List.getElem?_drop, Nat.add_comm]

/-- A list cut after its index `i` and without its last element begins with the element
`i` when that one is not the last. -/
theorem dropLast_drop_cons (l : List Vector3) (i : Nat) (h : i + 1 < l.length) :
    (l.drop i).dropLast = l[i] :: (l.drop (i + 1)).dropLast := by
  rw [List.drop_eq_getElem_cons (by omega : i < l.length)]
  cases hd : l.drop (i + 1) with
  | nil =>
    have := congrArg List.length hd
    simp at this
    omega
  | cons x xs => rfl

/-- The loop of `addTriangleNodeEdges` run index by index from `i` adds the points from the
index `i` to the last but one. -/
theorem funnelEdgesLoop_eq (l : List Vector3) (cell : Option CellRef) (fuel i : Nat)
    (path : Path) (h : l.length ≤ fuel + i) :
    funnelEdgesLoop l cell fuel i path =
      path ++ ((l.drop i).dropLast).map (fun p => (⟨p, cell⟩ : WorldCoordinates)) := by
  induction fuel generalizing i path with
  | zero =>
    have : l.drop i = [] := List.drop_eq_nil_of_le (by omega)
    simp [funnelEdgesLoop, this]
  | succ fuel ih =>
    unfold funnelEdgesLoop
    split
    · rename_i hlt
      have hi : i + 1 < l.length := by omega
      rw [List.getElem?_eq_getElem (by omega : i < l.length)]
      dsimp only
      rw [ih (i + 1) _ (by omega), dropLast_drop_cons l i hi]
      simp
    · rename_i hge
      have hlen : (l.drop i).length ≤ 1 := by
        rw [List.length_drop]; omega
      have : (l.drop i).dropLast = [] := by
        apply List.eq_nil_of_length_eq_zero
        rw [List.length_dropLast]; omega
      simp [this]

/-- C17: `addTriangleNodeEdges` returns the path it was given followed by the list `added`,
where, `f` being the funnel result of `n` points, `added` has `n - 2` elements and its
element `k` is the funnel point of index `k + 1` tagged with the given cell: the points of
indices `1 .. n - 2` in order, never the point of index 0 (start) nor of index `n - 1`
(goal); `added` is empty when `n <= 2`; the elements already in the path come first,
unchanged. The loop of the source run index by index from `i = 1` gives the same path. -/
theorem addTriangleNodeEdges_interior (env : Env) (source goal : Vector3)
    (trianglePath : List TriRef) (path : Path) (cell : Option CellRef) :
    ∃ added : Path,
      (addTriangleNodeEdges env source goal trianglePath path cell).out
        = Outcome.returned (path ++ added) ∧
      added.length =
        (env.funnel ⟨source.x, source.z, source.y⟩ ⟨goal.x, goal.z, goal.y⟩
          trianglePath).length - 2 ∧
      (∀ k, k < (env.funnel ⟨source.x, source.z, source.y⟩ ⟨goal.x, goal.z, goal.y⟩
          trianglePath).length - 2 →
        added[k]? =
          ((env.funnel ⟨source.x, source.z, source.y⟩ ⟨goal.x, goal.z, goal.y⟩
            trianglePath)[k + 1]?).map (fun p => (⟨p, cell⟩ : WorldCoordinates))) ∧
      ((env.funnel ⟨source.x, source.z, source.y⟩ ⟨goal.x, goal.z, goal.y⟩
          trianglePath).length ≤ 2 → added = []) ∧
      funnelEdgesLoop
          (env.funnel ⟨source.x, source.z, source.y⟩ ⟨goal.x, goal.z, goal.y⟩ trianglePath)
          cell
          (env.funnel ⟨source.x, source.z, source.y⟩ ⟨goal.x, goal.z, goal.y⟩
            trianglePath).length 1 path
        = path ++ added := by
  refine ⟨_, addTriangleNodeEdges_out env source goal trianglePath path cell, ?_, ?_, ?_, ?_⟩
  · rw [List.length_map, interior_length]
  · intro k hk
    rw [List.getElem?_map, interior_getElem? _ k hk]
  · intro hshort
    apply List.eq_nil_of_length_eq_zero
    rw [List.length_map, interior_length]
    omega
  · exact funnelEdgesLoop_eq _ cell _ 1 path (by omega)

/-- Witness of C17: a funnel of four points adds its two inner points to the path. -/
theorem addTriangleNodeEdges_interior_witness :
    (addTriangleNodeEdges funnelEnv ⟨Flt.fin 0, Flt.fin 0, Flt.fin 0⟩
        ⟨Flt.fin 3, Flt.fin 0, Flt.fin 0⟩ [] [cellPoint 0 0 0 11] (some 11)).out
      = Outcome.returned ([cellPoint 0 0 0 11] ++ [cellPoint 1 0 0 11, cellPoint 2 0 0 11]) ∧
    ∃ added : Path,
      (addTriangleNodeEdges funnelEnv ⟨Flt.fin 0, Flt.fin 0, Flt.fin 0⟩
          ⟨Flt.fin 3, Flt.fin 0, Flt.fin 0⟩ [] [cellPoint 0 0 0 11] (some 11)).out
        = Outcome.returned ([cellPoint 0 0 0 11] ++ added) ∧
      added.length = 4 - 2 ∧
      (∀ k, k < 4 - 2 →
        added[k]? =
          ((funnelEnv.funnel ⟨Flt.fin 0, Flt.fin 0, Flt.fin 0⟩ ⟨Flt.fin 3, Flt.fin 0, Flt.fin 0⟩
            [])[k + 1]?).map (fun p => (⟨p, some 11⟩ : WorldCoordinates))) ∧
      (4 ≤ 2 → added = []) ∧
      funnelEdgesLoop
          (funnelEnv.funnel ⟨Flt.fin 0, Flt.fin 0, Flt.fin 0⟩ ⟨Flt.fin 3, Flt.fin 0, Flt.fin 0⟩
            []) (some 11) 4 1 [cellPoint 0 0 0 11]
        = [cellPoint 0 0 0 11] ++ added :=
  ⟨rfl, addTriangleNodeEdges_interior funnelEnv ⟨Flt.fin 0, Flt.fin 0, Flt.fin 0⟩
    ⟨Flt.fin 3, Flt.fin 0, Flt.fin 0⟩ [] [cellPoint 0 0 0 11] (some 11)⟩

/-! ## The path from the world into a cell (C18) -/

/-- The traversal of a route adds, node by node, the element `nodeCoordinates` of the
node. -/
theorem traverse_map (env : Env) (building : BuildingRef) (via : CellRef)
    (nodes : List NodeRef) (path : Path) :
    (traverse env building (some via) nodes path).out
      = Outcome.returned (path ++ nodes.map (nodeCoordinates env building via)) := by
  induction nodes generalizing path with
  | nil => simp [traverse]
  | cons node rest ih =>
    unfold traverse
    simp only [ask_bind, getWorldPosition]
    split
    · rename_i h0
      rw [ih]
      simp [nodeCoordinates, h0]
    · rename_i h0
      simp only [ask_bind]
      rw [ih]
      simp [nodeCoordinates, h0]

/-- The cells of the elements added for nodes that all give the same cell. -/
theorem map_cell_eq_replicate (l : List NodeRef) (f : NodeRef → WorldCoordinates)
    (c : Option CellRef) (h : ∀ n ∈ l, (f n).cell = c) :
    (l.map f).map (fun w => w.cell) = List.replicate l.length c := by
  induction l with
  | nil => rfl
  | cons x xs ih =>
    simp only [List.map_cons, List.length_cons, List.replicate_succ]
    rw [h x (List.mem_cons_self _ _), ih (fun n hn => h n (List.mem_cons_of_mem _ hn))]

/-- Runs of equal cells put end to end. -/
theorem replicate_runs (m n k : Nat) (c : Option CellRef) :
    [none] ++ List.replicate m (none : Option CellRef) ++ List.replicate n c
        ++ List.replicate k c ++ [c]
      = List.replicate (m + 1) none ++ List.replicate (n + k + 1) c := by
  have h1 : [c] = List.replicate 1 c := rfl
  rw [h1, List.append_assoc, List.append_assoc, List.append_replicate_replicate,
    List.append_replicate_replicate, ← Nat.add_assoc]
  rfl

/-- When the two points lie in different triangles and the triangle search finds no corridor,
`getFloorPath` returns 1 without corridor. -/
theorem getFloorPath_no_corridor (env : Env) (pointA pointB : Vector3) (floor : FloorRef)
    (o t : TriRef) (ho : env.getTriangle pointA floor = some o)
    (ht : env.getTriangle pointB floor = some t) (hne : o ≠ t)
    (hsearch : env.search pointA pointB o t = none) :
    (getFloorPath env pointA pointB floor).out = Outcome.returned (1, none) := by
  unfold getFloorPath
  simp only [ask_bind, ho, ht, Option.some.injEq, hne, if_false, hsearch, pure_out]

/-- Two points with the same triangle lookup give the code -1. -/
theorem getFloorPath_same (env : Env) (pointA pointB : Vector3) (floor : FloorRef)
    (h : env.getTriangle pointA floor = env.getTriangle pointB floor) :
    (getFloorPath env pointA pointB floor).out = Outcome.returned (-1, none) := by
  unfold getFloorPath
  simp only [ask_bind, h, if_true, pure_out]

/-- Two points in different triangles joined by a corridor give the code 0 and the
corridor. -/
theorem getFloorPath_corridor (env : Env) (pointA pointB : Vector3) (floor : FloorRef)
    (o t : TriRef) (corridor : List TriRef) (ho : env.getTriangle pointA floor = some o)
    (ht : env.getTriangle pointB floor = some t) (hne : o ≠ t)
    (hsearch : env.search pointA pointB o t = some corridor) :
    (getFloorPath env pointA pointB floor).out = Outcome.returned (0, some corridor) := by
  unfold getFloorPath
  simp only [ask_bind, ho, ht, Option.some.injEq, hne, if_false, hsearch, pure_out]

/-- A floor leg continues with the result of `getFloorPath`. -/
theorem floorLeg_of_floorPath (env : Env) (a b : Vector3) (floor : FloorRef) (path : Path)
    (cell : Option CellRef) (res : Int × Option (List TriRef))
    (hres : (getFloorPath env a b floor).out = Outcome.returned res) :
    (floorLeg env a b floor path cell).out =
      (match res.2 with
        | some trianglePath =>
          if res.1 ≠ -1 then addTriangleNodeEdges env a b trianglePath path cell else pure path
        | none => pure path).out := by
  unfold floorLeg
  rw [bind_out _ _ res hres]

/-- What a floor leg adds to the path, case by case. -/
theorem floorLeg_exact (env : Env) (a b : Vector3) (floor : FloorRef) (path : Path)
    (cell : Option CellRef) :
    ∃ pts : List Vector3,
      (floorLeg env a b floor path cell).out
        = Outcome.returned (path ++ pts.map (fun p => (⟨p, cell⟩ : WorldCoordinates))) ∧
      (∀ o t corridor, env.getTriangle a floor = some o → env.getTriangle b floor = some t →
        o ≠ t → env.search a b o t = some corridor →
        pts = interior (env.funnel ⟨a.x, a.z, a.y⟩ ⟨b.x, b.z, b.y⟩ corridor)) ∧
      (env.getTriangle a floor = env.getTriangle b floor → pts = []) ∧
      (env.getTriangle a floor = none ∨ env.getTriangle b floor = none → pts = []) ∧
      (∀ o t, env.getTriangle a floor = some o → env.getTriangle b floor = some t →
        env.search a b o t = none → pts = []) := by
  by_cases hcor : ∃ o t corridor, env.getTriangle a floor = some o ∧
      env.getTriangle b floor = some t ∧ o ≠ t ∧ env.search a b o t = some corridor
  · obtain ⟨o, t, corridor, ho, ht, hne, hs⟩ := hcor
    refine ⟨interior (env.funnel ⟨a.x, a.z, a.y⟩ ⟨b.x, b.z, b.y⟩ corridor), ?_, ?_, ?_, ?_, ?_⟩
    · rw [floorLeg_of_floorPath env a b floor path cell _
        (getFloorPath_corridor env a b floor o t corridor ho ht hne hs)]
      exact addTriangleNodeEdges_out env a b corridor path cell
    · intro o2 t2 corridor2 ho2 ht2 _ hs2
      rw [ho] at ho2; rw [ht] at ht2
      cases ho2; cases ht2
      rw [hs] at hs2
      cases hs2
      rfl
    · intro heq
      rw [ho, ht] at heq
      exact absurd (Option.some.inj heq) hne
    · intro hnone
      rcases hnone with h | h
      · rw [ho] at h; cases h
      · rw [ht] at h; cases h
    · intro o2 t2 ho2 ht2 hs2
      rw [ho] at ho2; rw [ht] at ht2
      cases ho2; cases ht2
      rw [hs] at hs2
      cases hs2
  · have hout : (floorLeg env a b floor path cell).out = Outcome.returned path := by
      by_cases hsame : env.getTriangle a floor = env.getTriangle b floor
      · rw [floorLeg_of_floorPath env a b floor path cell _
          (getFloorPath_same env a b floor hsame)]
        rfl
      · cases hA : env.getTriangle a floor with
        | none =>
          have hB : env.getTriangle b floor ≠ none := fun hB => hsame (hA.trans hB.symm)
          rw [floorLeg_of_floorPath env a b floor path cell _
            (getFloorPath_one_outside env a b floor (Or.inl ⟨hA, hB⟩))]
          rfl
        | some o =>
          cases hB : env.getTriangle b floor with
          | none =>
            rw [floorLeg_of_floorPath env a b floor path cell _
              (getFloorPath_one_outside env a b floor (Or.inr ⟨by rw [hA]; simp, hB⟩))]
            rfl
          | some t =>
            have hne : o ≠ t := fun h => hsame (by rw [hA, hB, h])
            cases hS : env.search a b o t with
            | none =>
              rw [floorLeg_of_floorPath env a b floor path cell _
                (getFloorPath_no_corridor env a b floor o t hA hB hne hS)]
              rfl
            | some corridor => exact absurd ⟨o, t, corridor, hA, hB, hne, hS⟩ hcor
    refine ⟨[], by simpa using hout, ?_, fun _ => rfl, fun _ => rfl, fun _ _ _ _ _ => rfl⟩
    intro o t corridor ho ht hne hs
    exact absurd ⟨o, t, corridor, ho, ht, hne, hs⟩ hcor

/-- The point from which the last approach starts: the point of the last element. -/
theorem lastPoint_cons (a : WorldCoordinates) (rest : Path) :
    lastPoint (a :: rest) = pure (rest.getLastD a).point := by
  unfold lastPoint
  rw [List.getLast?_eq_getLast _ (List.cons_ne_nil a rest), List.getLast_eq_getLastD]

/-- C18: world to cell, every lookup before the router succeeds and the router returns the
node list `nodes`. The call returns the path `p` made of the start, then for each node in
order its element `nodeCoordinates` (world position without cell when the floor of the node
has cell number 0, local position with the building's cell of that number otherwise), then
the points `pts` of the last approach tagged with the target cell, then the goal, which is
the last element. The approach starts at `v`, the point of the last node's element (of the
start for an empty route): when `v` and the goal lie in two different triangles of the target
floor joined by a corridor of the triangle search, `pts` is the interior of the funnel result
from `v` to the goal over that corridor; when both triangle lookups agree, when `v` lies in no
triangle, or when the search finds no corridor, `pts` is empty. Consequently, when the start
is outside and `nodes` is a run of exterior nodes followed by a run of nodes of the target
cell number, the cells of `p` are a run of `none` followed by a run of the target cell: the
cell reference changes exactly once. For a node whose cell number the building resolves to a
cell, the element has no cell reference exactly when that number is 0. -/
theorem findPathFromWorldToCell_traversal (env : Env) (a b : WorldCoordinates)
    (targetCell : CellRef) (building : BuildingRef) (layout : LayoutRef)
    (targetFloorMesh : FloorRef) (entrance target : NodeRef) (nodes : List NodeRef)
    (hreach : ReachesRouterWorldToCell env a b targetCell building layout targetFloorMesh
      entrance target)
    (hroute : env.layoutPath layout entrance target = some nodes) :
    ∃ (pts : List Vector3) (p : Path),
      (findPathFromWorldToCell env a b).out = Outcome.returned (some p) ∧
      p = [a] ++ nodes.map (nodeCoordinates env building targetCell)
        ++ pts.map (fun q => (⟨q, some targetCell⟩ : WorldCoordinates)) ++ [b] ∧
      (∀ o t corridor,
        env.getTriangle ((nodes.map (nodeCoordinates env building targetCell)).getLastD a).point
          targetFloorMesh = some o →
        env.getTriangle b.point targetFloorMesh = some t → o ≠ t →
        env.search ((nodes.map (nodeCoordinates env building targetCell)).getLastD a).point
          b.point o t = some corridor →
        pts = interior (env.funnel
          ⟨((nodes.map (nodeCoordinates env building targetCell)).getLastD a).point.x,
            ((nodes.map (nodeCoordinates env building targetCell)).getLastD a).point.z,
            ((nodes.map (nodeCoordinates env building targetCell)).getLastD a).point.y⟩
          ⟨b.point.x, b.point.z, b.point.y⟩ corridor)) ∧
      (env.getTriangle ((nodes.map (nodeCoordinates env building targetCell)).getLastD a).point
          targetFloorMesh = env.getTriangle b.point targetFloorMesh → pts = []) ∧
      (env.getTriangle ((nodes.map (nodeCoordinates env building targetCell)).getLastD a).point
          targetFloorMesh = none → pts = []) ∧
      (∀ o t,
        env.getTriangle ((nodes.map (nodeCoordinates env building targetCell)).getLastD a).point
          targetFloorMesh = some o →
        env.getTriangle b.point targetFloorMesh = some t →
        env.search ((nodes.map (nodeCoordinates env building targetCell)).getLastD a).point
          b.point o t = none → pts = []) ∧
      p.getLast? = some b ∧
      (∀ outside inside, a.cell = none → nodes = outside ++ inside →
        (∀ n ∈ outside, env.floorCellID (env.nodeFloor n) = 0) →
        (∀ n ∈ inside, env.floorCellID (env.nodeFloor n) = env.cellNumber targetCell) →
        env.cellNumber targetCell ≠ 0 →
        env.buildingCell building (env.cellNumber targetCell) = some targetCell →
        p.map (fun w => w.cell) =
          List.replicate (outside.length + 1) none
            ++ List.replicate (inside.length + pts.length + 1) (some targetCell)) ∧
      (∀ n c, env.buildingCell building (env.floorCellID (env.nodeFloor n)) = some c →
        ((nodeCoordinates env building targetCell n).cell = none ↔
          env.floorCellID (env.nodeFloor n) = 0)) := by
  have hbcell : b.cell = some targetCell := hreach.1
  have hexactly : ∀ n c,
      env.buildingCell building (env.floorCellID (env.nodeFloor n)) = some c →
      ((nodeCoordinates env building targetCell n).cell = none ↔
        env.floorCellID (env.nodeFloor n) = 0) := by
    intro n c hc
    unfold nodeCoordinates
    split
    · rename_i h0
      simp [h0]
    · rename_i h0
      simp [h0, hc]
  have hv := lastPoint_cons a (nodes.map (nodeCoordinates env building targetCell))
  obtain ⟨pts, hpts, hcor, hsame, hnone, hsearch⟩ := floorLeg_exact env
    ((nodes.map (nodeCoordinates env building targetCell)).getLastD a).point b.point
    targetFloorMesh (a :: nodes.map (nodeCoordinates env building targetCell))
    (some targetCell)
  refine ⟨pts, _, ?_, rfl, hcor, hsame, fun h => hnone (Or.inl h), hsearch, ?_, ?_, hexactly⟩
  · rw [findPathFromWorldToCell_route hreach, hroute]
    unfold worldToCellRoute
    rw [bind_out _ _ _ (traverse_map env building targetCell nodes [a])]
    rw [show [a] ++ nodes.map (nodeCoordinates env building targetCell)
      = a :: nodes.map (nodeCoordinates env building targetCell) from rfl, hv, pure_bind_M]
    rw [bind_out _ _ _ hpts]
    rfl
  · rw [List.getLast?_append]
    simp
  · intro outside inside ha hnodes hout hin hnum hcell
    subst hnodes
    have houtside : (outside.map (nodeCoordinates env building targetCell)).map
        (fun w => w.cell) = List.replicate outside.length none :=
      map_cell_eq_replicate outside _ none (fun n hn => by
        simp [nodeCoordinates, hout n hn])
    have hinside : (inside.map (nodeCoordinates env building targetCell)).map
        (fun w => w.cell) = List.replicate inside.length (some targetCell) :=
      map_cell_eq_replicate inside _ (some targetCell) (fun n hn => by
        simp [nodeCoordinates, hin n hn, hnum, hcell])
    have hfunnel : (pts.map (fun q => (⟨q, some targetCell⟩ : WorldCoordinates))).map
        (fun w => w.cell) = List.replicate pts.length (some targetCell) := by
      rw [List.map_map]
      exact List.map_const _ _
    simp only [List.map_append, houtside, hinside, hfunnel, List.map_cons, List.map_nil, ha,
      hbcell]
    rw [← List.append_assoc ([none] : List (Option CellRef))]
    exact replicate_runs _ _ _ _

/-- Witness of C18: the route `[0, 1]`, an exterior node followed by a node of the target
cell 11; the last node at `(1, 0, 0)` and the goal `(7, 1, 0)` lie in the triangles 0 and 1,
joined by a corridor whose funnel has the inner point `(3, 0, 0)`. The path has the start and
the exterior node without cell, then the inner node, the funnel point and the goal in
cell 11. -/
theorem findPathFromWorldToCell_traversal_witness :
    ReachesRouterWorldToCell corridorEnv (worldPoint 0 0 0) (cellPoint 7 1 0 11)
        11 1 0 1 0 1 ∧
      (findPathFromWorldToCell corridorEnv (worldPoint 0 0 0) (cellPoint 7 1 0 11)).out
        = Outcome.returned (some [worldPoint 0 0 0, worldPoint 0 0 0, cellPoint 1 0 0 11,
            cellPoint 3 0 0 11, cellPoint 7 1 0 11]) ∧
      ∃ (pts : List Vector3) (p : Path),
        (findPathFromWorldToCell corridorEnv (worldPoint 0 0 0) (cellPoint 7 1 0 11)).out
          = Outcome.returned (some p) ∧
        p = [worldPoint 0 0 0] ++ [0, 1].map (nodeCoordinates corridorEnv 1 11)
          ++ pts.map (fun q => (⟨q, some 11⟩ : WorldCoordinates)) ++ [cellPoint 7 1 0 11] ∧
        pts = [⟨Flt.fin 3, Flt.fin 0, Flt.fin 0⟩] :=
  have hreach : ReachesRouterWorldToCell corridorEnv (worldPoint 0 0 0)
      (cellPoint 7 1 0 11) 11 1 0 1 0 1 :=
    ⟨rfl, rfl, 0, 0, 0, 1, rfl, rfl, rfl, rfl, rfl, rfl, by with_unfolding_all rfl, rfl⟩
  have hall := findPathFromWorldToCell_traversal corridorEnv (worldPoint 0 0 0)
    (cellPoint 7 1 0 11) 11 1 0 1 0 1 [0, 1] hreach rfl
  ⟨hreach, by with_unfolding_all rfl, hall.elim fun pts h => h.elim fun p hp =>
    ⟨pts, p, hp.1, hp.2.1,
      hp.2.2.1 0 1 [0, 1] (by with_unfolding_all rfl) (by with_unfolding_all rfl) (by decide)
        rfl⟩⟩

/-! ## The two branches of the outdoor search (C19) -/

/-- The outcome of `getWorldPosition`. -/
theorem getWorldPosition_out (env : Env) (c : WorldCoordinates) :
    (getWorldPosition env c).out = Outcome.returned (worldPositionOf env c) := by
  unfold getWorldPosition worldPositionOf
  cases c.cell <;> rfl

theorem eraseIdx_succ_head? (l : Path) (k : Nat) : (l.eraseIdx (k + 1)).head? = l.head? := by
  cases l with
  | nil => rfl
  | cons a t => rfl

theorem eraseIdx_getLast? (l : Path) (k : Nat) (h : k + 1 < l.length) :
    (l.eraseIdx k).getLast? = l.getLast? := by
  induction l generalizing k with
  | nil => rfl
  | cons a t ih =>
    cases k with
    | zero =>
      cases t with
      | nil => simp at h
      | cons b t' => simp [List.getLast?_cons_cons]
    | succ k =>
      cases t with
      | nil => simp at h
      | cons b t' =>
        have hk : k + 1 < (b :: t').length := by simpa using h
        have := ih k hk
        rw [List.eraseIdx_cons_succ]
        cases he : (b :: t').eraseIdx k with
        | nil =>
          have hl : ((b :: t').eraseIdx k).length = (b :: t').length - 1 := by
            rw [List.length_eraseIdx, if_pos (by omega)]
          rw [he] at hl
          simp only [List.length_nil, List.length_cons] at hl hk
          omega
        | cons c t'' =>
          rw [List.getLast?_cons_cons, List.getLast?_cons_cons, ← he, this]

/-- The inner loop "for j = i - 1 down to 1: remove j" keeps the first and the last element. -/
theorem removeDown_spec (path : Path) (j : Nat) (h : j + 1 < path.length) :
    (removeDown path j).Sublist path ∧ (removeDown path j).head? = path.head? ∧
      (removeDown path j).getLast? = path.getLast? ∧
      (removeDown path j).length = path.length - j := by
  induction j generalizing path with
  | zero => exact ⟨List.Sublist.refl _, rfl, rfl, rfl⟩
  | succ j ih =>
    unfold removeDown
    have hlen : (path.eraseIdx (j + 1)).length = path.length - 1 := by
      rw [List.length_eraseIdx, if_pos (by omega)]
    obtain ⟨h1, h2, h3, h4⟩ := ih (path.eraseIdx (j + 1)) (by omega)
    refine ⟨h1.trans (List.eraseIdx_sublist _ _), ?_, ?_, ?_⟩
    · rw [h2, eraseIdx_succ_head?]
    · rw [h3, eraseIdx_getLast? _ _ (by omega)]
    · rw [h4, hlen]; omega

/-- The scan from index i (at least 2) returns, and what it returns is the path with elements
strictly between the first and the last removed. -/
theorem filterLoop_spec (env : Env) (geo : SceneGeometry) (thisWorldPosition thiswP : Vector3)
    (fuel i : Nat) (path : Path) (hi : 2 ≤ i) :
    ∃ q, (filterLoop env geo thisWorldPosition thiswP fuel i path).out = Outcome.returned q ∧
      q.Sublist path ∧ q.head? = path.head? ∧ q.getLast? = path.getLast? ∧
      (2 ≤ path.length → 2 ≤ q.length) ∧ (path.length ≤ i → q = path) := by
  induction fuel generalizing i with
  | zero => exact ⟨path, rfl, List.Sublist.refl _, rfl, rfl, id, fun _ => rfl⟩
  | succ fuel ih =>
    unfold filterLoop
    split
    · rename_i coord1 coord2 heq1 heq2
      have hlt : i < path.length := by
        by_contra hge
        rw [List.getElem?_eq_none (by omega)] at heq1
        cases heq1
      rw [bind_out _ _ _ (getWorldPosition_out env coord1),
        bind_out _ _ _ (getWorldPosition_out env coord2)]
      obtain ⟨q, hq, h1, h2, h3, h4, -⟩ := ih (i + 1) (by omega)
      have herase : ∃ q, (pure (path.eraseIdx (i - 1)) : M Path).out = Outcome.returned q ∧
          q.Sublist path ∧ q.head? = path.head? ∧ q.getLast? = path.getLast? ∧
          (2 ≤ path.length → 2 ≤ q.length) ∧ (path.length ≤ i → q = path) := by
        refine ⟨_, rfl, List.eraseIdx_sublist _ _, ?_, ?_, ?_, fun hle => absurd hlt (by omega)⟩
        · rw [show i - 1 = (i - 2) + 1 by omega, eraseIdx_succ_head?]
        · exact eraseIdx_getLast? _ _ (by omega)
        · intro _
          rw [List.length_eraseIdx, if_pos (by omega)]
          omega
      have hdown : ∃ q, (pure (removeDown path (i - 1)) : M Path).out = Outcome.returned q ∧
          q.Sublist path ∧ q.head? = path.head? ∧ q.getLast? = path.getLast? ∧
          (2 ≤ path.length → 2 ≤ q.length) ∧ (path.length ≤ i → q = path) := by
        obtain ⟨s1, s2, s3, s4⟩ := removeDown_spec path (i - 1) (by omega)
        exact ⟨_, rfl, s1, s2, s3, fun _ => by rw [s4]; omega,
          fun hle => absurd hlt (by omega)⟩
      have hnext : ∃ q, (filterLoop env geo thisWorldPosition thiswP fuel (i + 1) path).out
            = Outcome.returned q ∧
          q.Sublist path ∧ q.head? = path.head? ∧ q.getLast? = path.getLast? ∧
          (2 ≤ path.length → 2 ≤ q.length) ∧ (path.length ≤ i → q = path) :=
        ⟨q, hq, h1, h2, h3, h4, fun hle => absurd hlt (by omega)⟩
      split
      · split
        · exact herase
        · exact hnext
      · dsimp only
        split
        · exact hdown
        · exact hnext
    · exact ⟨path, rfl, List.Sublist.refl _, rfl, rfl, id, fun _ => rfl⟩

/-- The bound of the scan never ends it early: any two bounds that reach the end of the path
give the same run. -/
theorem filterLoop_fuel (env : Env) (geo : SceneGeometry) (thisWorldPosition thiswP : Vector3)
    (fuel fuel2 i : Nat) (path : Path) (h : path.length ≤ fuel + i)
    (h2 : path.length ≤ fuel2 + i) :
    filterLoop env geo thisWorldPosition thiswP fuel i path
      = filterLoop env geo thisWorldPosition thiswP fuel2 i path := by
  induction fuel generalizing i fuel2 with
  | zero =>
    have hnone : path[i]? = none := List.getElem?_eq_none (by omega)
    cases fuel2 with
    | zero => rfl
    | succ f2 =>
      unfold filterLoop
      simp [hnone]
  | succ fuel ih =>
    cases fuel2 with
    | zero =>
      have hnone : path[i]? = none := List.getElem?_eq_none (by omega)
      unfold filterLoop
      simp [hnone]
    | succ f2 =>
      unfold filterLoop
      rw [ih f2 (i + 1) (by omega) (by omega)]

theorem startsDoubled_length (geo : SceneGeometry) (path : Path)
    (h : startsDoubled geo path = true) : 2 < path.length := by
  unfold startsDoubled at h
  simp only [Bool.and_eq_true, decide_eq_true_eq] at h
  exact h.1

/-- C20: for every path, observer position, coordinate comparison and closest-point routine,
filterPastPoints returns, and only removes elements: the result is a subsequence of the input,
its first and last elements are those of the input, a path of at most two points comes back
unchanged, and a path of at least two points keeps at least two points. Any bound of the scan
that reaches the end of the path gives that same result. -/
theorem filterPastPoints_only_removes (env : Env) (geo : SceneGeometry) (path : Path)
    (objectWorldPosition : Vector3) :
    ∃ q, (filterPastPoints env geo path objectWorldPosition).out = Outcome.returned q ∧
      q.Sublist path ∧ q.head? = path.head? ∧ q.getLast? = path.getLast? ∧
      (path.length ≤ 2 → q = path) ∧ (2 ≤ path.length → 2 ≤ q.length) ∧
      ∀ fuel, path.length ≤ fuel + 2 →
        (filterLoop env geo objectWorldPosition (Vector3.setZ objectWorldPosition (Flt.fin 0))
          fuel 2 (if startsDoubled geo path then path.eraseIdx 1 else path)).out
          = Outcome.returned q := by
  unfold filterPastPoints
  simp only [ask_bind]
  by_cases hd : startsDoubled geo path = true
  · have hlen := startsDoubled_length geo path hd
    simp only [hd, if_true]
    have hl : (path.eraseIdx 1).length = path.length - 1 := by
      rw [List.length_eraseIdx, if_pos (by omega)]
    obtain ⟨q, hq, h1, h2, h3, h4, -⟩ := filterLoop_spec env geo objectWorldPosition
      (Vector3.setZ objectWorldPosition (Flt.fin 0)) (path.eraseIdx 1).length 2
      (path.eraseIdx 1) (le_refl 2)
    refine ⟨q, hq, h1.trans (List.eraseIdx_sublist _ _), ?_, ?_, fun hle => absurd hlen (by omega),
      fun _ => h4 (by omega), ?_⟩
    · rw [h2, eraseIdx_succ_head?]
    · rw [h3, eraseIdx_getLast? _ _ (by omega)]
    · intro fuel hf
      rw [filterLoop_fuel env geo _ _ fuel (path.eraseIdx 1).length 2 _ (by omega) (by omega)]
      exact hq
  · simp only [hd, Bool.false_eq_true, if_false]
    obtain ⟨q, hq, h1, h2, h3, h4, h5⟩ := filterLoop_spec env geo objectWorldPosition
      (Vector3.setZ objectWorldPosition (Flt.fin 0)) path.length 2 path (le_refl 2)
    refine ⟨q, hq, h1, h2, h3, h5, h4, ?_⟩
    intro fuel hf
    rw [filterLoop_fuel env geo _ _ fuel path.length 2 _ (by omega) (by omega)]
    exact hq

/-- An observer standing on the third of four points of a straight walk: the two points behind
it are removed, the first and the last stay. -/
theorem filterPastPoints_only_removes_witness :
    (filterPastPoints emptyEnv exactGeometry
        [worldPoint 0 0 0, worldPoint 1 0 0, worldPoint 2 0 0, worldPoint 3 0 0]
        ⟨Flt.fin 2, Flt.fin 0, Flt.fin 0⟩).out
        = Outcome.returned [worldPoint 0 0 0, worldPoint 3 0 0] ∧
      ∃ q, (filterPastPoints emptyEnv exactGeometry
          [worldPoint 0 0 0, worldPoint 1 0 0, worldPoint 2 0 0, worldPoint 3 0 0]
          ⟨Flt.fin 2, Flt.fin 0, Flt.fin 0⟩).out = Outcome.returned q ∧
        q.Sublist [worldPoint 0 0 0, worldPoint 1 0 0, worldPoint 2 0 0, worldPoint 3 0 0] ∧
        q.head? = some (worldPoint 0 0 0) ∧ q.getLast? = some (worldPoint 3 0 0) ∧
        2 ≤ q.length := by
  refine ⟨by with_unfolding_all rfl, ?_⟩
  obtain ⟨q, hq, h1, h2, h3, -, h5, -⟩ := filterPastPoints_only_removes emptyEnv exactGeometry
    [worldPoint 0 0 0, worldPoint 1 0 0, worldPoint 2 0 0, worldPoint 3 0 0]
    ⟨Flt.fin 2, Flt.fin 0, Flt.fin 0⟩
  exact ⟨q, hq, h1, h2, h3, h5 (by decide)⟩

/-! ## The crossings added for a region (C21) -/

/-- Past its lookups, `findPathFromCellToCell` continues with the result of
`getFloorPath`. -/
theorem findPathFromCellToCell_of_floorPath (env : Env) (a b : WorldCoordinates)
    (ourCell : CellRef) (building : BuildingRef) (tmpl : TemplateRef) (layout : LayoutRef)
    (floorMesh1 : FloorRef) (res : Int × Option (List TriRef))
    (ha : a.cell = some ourCell) (hb : b.cell = some ourCell)
    (hparent : env.cellParent ourCell = some building)
    (htmpl : env.objectTemplate building = some tmpl)
    (hlayout : env.portalLayout tmpl = some layout)
    (hfloor : env.floorMesh layout (env.cellNumber ourCell) = some floorMesh1)
    (hres : (getFloorPath env a.point b.point floorMesh1).out = Outcome.returned res) :
    (findPathFromCellToCell env a b).out =
      (if res.1 = -1 then (pure (some [a, b]) : M (Option Path))
        else
          match res.2 with
          | none => findPathFromCellToDifferentCell env a b
          | some trianglePath => do
            let path ← addTriangleNodeEdges env a.point b.point trianglePath [a] (some ourCell)
            pure (some (path ++ [b]))).out := by
  unfold findPathFromCellToCell
  simp only [ha, hb, ne_eq, not_true_eq_false, if_false, ask_bind, hparent, htmpl, hlayout,
    hfloor]
  rw [bind_out _ _ res hres]

/-- C22: both points carry the same cell `ourCell`, whose building, template, portal layout
and floor mesh exist. When the two points lie in different triangles of the floor and the
triangle search finds no corridor, or exactly one of the two points lies in no triangle,
`getFloorPath` returns 1 without corridor and the outcome of `findPathFromCellToCell` is the
outcome of `findPathFromCellToDifferentCell` on the same two points: the one returns `NULL`
exactly when the other does, and returns a path exactly when the other returns that path. -/
theorem findPathFromCellToCell_falls_back (env : Env) (a b : WorldCoordinates)
    (ourCell : CellRef) (building : BuildingRef) (tmpl : TemplateRef) (layout : LayoutRef)
    (floorMesh1 : FloorRef)
    (ha : a.cell = some ourCell) (hb : b.cell = some ourCell)
    (hparent : env.cellParent ourCell = some building)
    (htmpl : env.objectTemplate building = some tmpl)
    (hlayout : env.portalLayout tmpl = some layout)
    (hfloor : env.floorMesh layout (env.cellNumber ourCell) = some floorMesh1)
    (hcase :
      (∃ o t, env.getTriangle a.point floorMesh1 = some o ∧
        env.getTriangle b.point floorMesh1 = some t ∧ o ≠ t ∧
        env.search a.point b.point o t = none) ∨
      (env.getTriangle a.point floorMesh1 = none ∧ env.getTriangle b.point floorMesh1 ≠ none) ∨
      (env.getTriangle a.point floorMesh1 ≠ none ∧ env.getTriangle b.point floorMesh1 = none)) :
    (getFloorPath env a.point b.point floorMesh1).out = Outcome.returned (1, none) ∧
    (findPathFromCellToCell env a b).out = (findPathFromCellToDifferentCell env a b).out ∧
    ((findPathFromCellToCell env a b).out = Outcome.returned none ↔
      (findPathFromCellToDifferentCell env a b).out = Outcome.returned none) ∧
    (∀ p, (findPathFromCellToCell env a b).out = Outcome.returned (some p) ↔
      (findPathFromCellToDifferentCell env a b).out = Outcome.returned (some p)) := by
  have hres : (getFloorPath env a.point b.point floorMesh1).out = Outcome.returned (1, none) := by
    rcases hcase with ⟨o, t, ho, ht, hne, hsearch⟩ | hone
    · exact getFloorPath_no_corridor env a.point b.point floorMesh1 o t ho ht hne hsearch
    · exact getFloorPath_one_outside env a.point b.point floorMesh1 hone
  have heq : (findPathFromCellToCell env a b).out
      = (findPathFromCellToDifferentCell env a b).out := by
    rw [findPathFromCellToCell_of_floorPath env a b ourCell building tmpl layout floorMesh1
      (1, none) ha hb hparent htmpl hlayout hfloor hres]
    rfl
  exact ⟨hres, heq, by rw [heq], fun p => by rw [heq]⟩

/-- Witness of C22: in cell 11 the points `(1, 1, 0)` and `(7, 3, 0)` lie in the triangles 0
and 1 and the triangle search finds nothing; the portal router answers `[1, 1]` and the query
returns the route of `findPathFromCellToDifferentCell` through the node 1. -/
theorem findPathFromCellToCell_falls_back_witness :
    (findPathFromCellToCell (portalEnv (some [1, 1])) (cellPoint 1 1 0 11)
        (cellPoint 7 3 0 11)).out
      = Outcome.returned (some [cellPoint 1 1 0 11, cellPoint 1 0 0 11, cellPoint 1 0 0 11,
          cellPoint 7 3 0 11]) ∧
    (findPathFromCellToCell (portalEnv (some [1, 1])) (cellPoint 1 1 0 11)
        (cellPoint 7 3 0 11)).out
      = (findPathFromCellToDifferentCell (portalEnv (some [1, 1])) (cellPoint 1 1 0 11)
        (cellPoint 7 3 0 11)).out :=
  ⟨by with_unfolding_all rfl,
    (findPathFromCellToCell_falls_back (portalEnv (some [1, 1])) (cellPoint 1 1 0 11)
      (cellPoint 7 3 0 11) 11 1 0 0 1 rfl rfl rfl rfl rfl rfl
      (Or.inl ⟨0, 1, by with_unfolding_all rfl, by with_unfolding_all rfl, by decide, rfl⟩)).2.1⟩

end PathFinderManager
